import Mathlib

/-!
Verification of the Carnforth Accessible Name Tester content script
(`content.js`): a shallow embedding of its accessible-name resolution
algorithm (`computeAccessibleName`), its per-category evaluators
(`testFormControl`, `testButton`, `testRadioButton`, `testFieldset`,
`testLandmark`, ...), its text heuristics, and its orchestrator
(`runAccessibilityTest` / `findAndTestElements`), together with theorems
settling the specification's claims about them.

Modelling conventions:
* The DOM snapshot is a tree of `Node`s; host-computed visual style is
  carried on each element (`Computed`).  An element under evaluation is an
  `ECtx`: the node plus its ancestor chain (for `closest` /
  `parentElement` walks).
* JavaScript strings are Lean `String`s; the JavaScript string methods the
  source uses (`trim`, `toLowerCase`, `split`, `includes`, ...) are embedded
  as executable character-list functions (`jsTrim`, `strLower`, ...).
  JavaScript's `length` counts UTF-16 code units, embedded as `jsStrLen`.
  Regex character classes and the host Unicode tables are modelled over the
  character sets the source actually exercises, with each deviation noted
  at its definition.
* Mutation of per-element diagnostic fields (`element._hasBrokenAriaLabelledby`
  and friends) is embedded as explicit state passing of an `Ann` record.
* Code paths on which the source can throw (`querySelector` applied to a
  selector string built from a raw `id` attribute) return `Except Unit`;
  `.error ()` embeds a thrown `SyntaxError`.
-/

/-- Decidable equality for `Except`, used to evaluate the embedded
functions at concrete inputs. -/
instance {ε α : Type} [DecidableEq ε] [DecidableEq α] : DecidableEq (Except ε α)
  | .error a, .error b =>
      if h : a = b then .isTrue (by rw [h]) else .isFalse (by simp [h])
  | .ok a, .ok b =>
      if h : a = b then .isTrue (by rw [h]) else .isFalse (by simp [h])
  | .error _, .ok _ => .isFalse (by simp)
  | .ok _, .error _ => .isFalse (by simp)

namespace Carnforth

/-! JavaScript string primitives, as kernel-reducible character-list
functions. -/

/-- JavaScript `s.trim()`.  JavaScript trims its Unicode whitespace class;
this embedding trims `Char.isWhitespace` (space, tab, CR, LF), which covers
every string the source and the claims exercise. -/
def jsTrim (s : String) : String :=
  String.mk (((s.toList.dropWhile Char.isWhitespace).reverse.dropWhile Char.isWhitespace).reverse)

/-- JavaScript `s.toLowerCase()` (ASCII case mapping). -/
def strLower (s : String) : String :=
  String.mk (s.toList.map Char.toLower)

/-- JavaScript `s.startsWith(pre)`. -/
def strStartsWith (s pre : String) : Bool :=
  pre.toList.isPrefixOf s.toList

/-- JavaScript `s.endsWith(suf)`. -/
def strEndsWith (s suf : String) : Bool :=
  suf.toList.isSuffixOf s.toList

/-- Whether the string contains the character (a one-character regex class
membership test). -/
def strContainsChar (s : String) (c : Char) : Bool :=
  s.toList.contains c

/-- Whether some suffix of the character list satisfies `p` (regex search
from every position). -/
def anySuffix (p : List Char → Bool) : List Char → Bool
  | [] => p []
  | c :: cs => p (c :: cs) || anySuffix p cs

/-- JavaScript `s.includes(pat)`. -/
def containsSub (s pat : String) : Bool :=
  anySuffix (fun cs => pat.toList.isPrefixOf cs) s.toList

/-- Split on a single separator character, keeping empty pieces (the
behaviour of JavaScript `s.split(c)`). -/
def splitOnCharGo (sep : Char) : List Char → List Char → List String
  | [], acc => [String.mk acc.reverse]
  | x :: xs, acc =>
    if x == sep then String.mk acc.reverse :: splitOnCharGo sep xs []
    else splitOnCharGo sep xs (x :: acc)

/-- Split a string on a separator character. -/
def splitOnChar (sep : Char) (s : String) : List String :=
  splitOnCharGo sep s.toList []

/-- The maximal non-whitespace runs of a string, in order. -/
def wsTokensGo : List Char → List Char → List String
  | [], acc => if acc.isEmpty then [] else [String.mk acc.reverse]
  | x :: xs, acc =>
    if x.isWhitespace then
      if acc.isEmpty then wsTokensGo xs [] else String.mk acc.reverse :: wsTokensGo xs []
    else wsTokensGo xs (x :: acc)

/-- The whitespace-separated tokens of a string. -/
def wsTokens (s : String) : List String :=
  wsTokensGo s.toList []

/-- JavaScript `s.length`: UTF-16 code units (astral characters count 2). -/
def jsStrLen (s : String) : Nat :=
  s.toList.foldl (fun n c => n + if c.toNat ≥ 0x10000 then 2 else 1) 0

/-- JavaScript `s.split(/\s+/)`: maximal whitespace runs separate the
pieces; a leading run contributes an initial `""`, a trailing run a final
`""`, and splitting `""` gives `[""]`. -/
def jsSplitWs (s : String) : List String :=
  if s = "" then [""]
  else
    let cs := s.toList
    let lead : List String :=
      match cs with
      | c :: _ => if c.isWhitespace then [""] else []
      | [] => []
    let trail : List String :=
      match cs.getLast? with
      | some c => if c.isWhitespace then [""] else []
      | none => []
    lead ++ wsTokens s ++ trail

/-! The DOM snapshot. -/

/-- Host-computed visual style of an element, as `window.getComputedStyle`
reports it.  `opacityZero` models `parseFloat(computedStyle.opacity) === 0`
(the host's float parse is not re-implemented; the host supplies the bit). -/
structure Computed where
  display : String
  visibility : String
  opacityZero : Bool
deriving DecidableEq, Repr

/-- Default, visible computed style. -/
def Computed.visible : Computed := ⟨"block", "visible", false⟩

/-- Computed style with `display: none`, as a host reports it for an element
(or a descendant of an element) styled `display:none`. -/
def Computed.displayNone : Computed := ⟨"none", "visible", false⟩

/-- A DOM node: an element (tag name uppercase, as `Element.tagName` reports
for HTML elements; attribute list; host-computed style; children in document
order) or a text node. -/
inductive Node where
  | elem (tag : String) (attrs : List (String × String)) (computed : Computed) (children : List Node)
  | text (s : String)

/-- The tag name of a node (`""` for text nodes, which have none). -/
def Node.tagOf : Node → String
  | .elem t _ _ _ => t
  | .text _ => ""

/-- The attribute list of a node (empty for text nodes). -/
def Node.attrsOf : Node → List (String × String)
  | .elem _ a _ _ => a
  | .text _ => []

/-- The host-computed style of a node (text nodes never reach a style query). -/
def Node.computedOf : Node → Computed
  | .elem _ _ c _ => c
  | .text _ => Computed.visible

/-- The child list of a node (empty for text nodes). -/
def Node.childrenOf : Node → List Node
  | .elem _ _ _ ch => ch
  | .text _ => []

/-- Whether the node is an element. -/
def Node.isElem : Node → Bool
  | .elem _ _ _ _ => true
  | .text _ => false

/-- `element.getAttribute(a)`: the first binding of `a` in the attribute
list, `none` when the attribute is absent (JS `null`). -/
def Node.getAttr (n : Node) (a : String) : Option String :=
  (n.attrsOf.find? (fun p => p.1 == a)).map (·.2)

/-- `element.hasAttribute(a)`. -/
def Node.hasAttr (n : Node) (a : String) : Bool :=
  (n.getAttr a).isSome

/-- `element.getAttribute(a)` with a default for the absent case. -/
def Node.getAttrD (n : Node) (a d : String) : String :=
  (n.getAttr a).getD d

/-- A node with its child list replaced (used by the label-clone surgery). -/
def Node.withChildren : Node → List Node → Node
  | .elem t a c _, ch => .elem t a c ch
  | .text s, _ => .text s

mutual
/-- `node.textContent`: the concatenation of all descendant text, in
document order. -/
def Node.textContent : Node → String
  | .text s => s
  | .elem _ _ _ ch => textContentList ch
/-- `textContent` of a list of sibling nodes. -/
def textContentList : List Node → String
  | [] => ""
  | c :: cs => c.textContent ++ textContentList cs
end

mutual
/-- Structural equality of nodes, standing in for JavaScript reference
equality (`===`) at the one comparison site the source has
(`legend === element.firstElementChild`); there a structurally equal node at
the compared position is necessarily the same node. -/
def nodeBeq : Node → Node → Bool
  | .text a, .text b => a == b
  | .elem t1 a1 c1 ch1, .elem t2 a2 c2 ch2 =>
      t1 == t2 && a1 == a2 && decide (c1 = c2) && nodeListBeq ch1 ch2
  | _, _ => false
/-- Structural equality of node lists, the list side of `nodeBeq`. -/
def nodeListBeq : List Node → List Node → Bool
  | [], [] => true
  | a :: as, b :: bs => nodeBeq a b && nodeListBeq as bs
  | _, _ => false
end

/-- `element.firstElementChild`. -/
def Node.firstElementChild (n : Node) : Option Node :=
  n.childrenOf.find? Node.isElem

mutual
/-- Depth-first preorder search over a forest for the first node matching a
predicate: the semantics of `querySelector` restricted to the selectors the
source uses, each embedded as a node predicate at its call site. -/
def qsListFirst (p : Node → Bool) : List Node → Option Node
  | [] => none
  | c :: cs =>
    match qsNodeFirst p c with
    | some r => some r
    | none => qsListFirst p cs
/-- The node side of `qsListFirst`: the node itself, else the first match
among its descendants. -/
def qsNodeFirst (p : Node → Bool) : Node → Option Node
  | .elem t a co ch =>
    if p (.elem t a co ch) then some (.elem t a co ch) else qsListFirst p ch
  | .text s =>
    if p (.text s) then some (.text s) else none
end

/-- `element.querySelector(sel)` for a selector embedded as predicate `p`:
first matching descendant in document order (the element itself is not a
candidate). -/
def Node.querySelector (n : Node) (p : Node → Bool) : Option Node :=
  qsListFirst p n.childrenOf

mutual
/-- Number of matches of `querySelectorAll` below a forest. -/
def countMatchesList (p : Node → Bool) : List Node → Nat
  | [] => 0
  | c :: cs => countMatchesNode p c + countMatchesList p cs
/-- Number of matches of `querySelectorAll` in a subtree, the root
included. -/
def countMatchesNode (p : Node → Bool) : Node → Nat
  | .elem t a co ch => (if p (.elem t a co ch) then 1 else 0) + countMatchesList p ch
  | .text s => if p (.text s) then 1 else 0
end

/-- `document.querySelectorAll(sel).length` for a selector embedded as
predicate `p`: all elements of the document, the root included. -/
def docCount (doc : Node) (p : Node → Bool) : Nat :=
  countMatchesNode p doc

/-- An element together with its ancestor chain (nearest parent first): the
data `closest` and `parentElement` walks read. -/
structure ECtx where
  anc : List Node
  cur : Node

mutual
/-- Preorder search over a forest returning the match with its ancestor
chain. -/
def findCtxList (p : Node → Bool) (anc : List Node) : List Node → Option ECtx
  | [] => none
  | c :: cs =>
    match findCtxNode p anc c with
    | some r => some r
    | none => findCtxList p anc cs
/-- The node side of `findCtxList`: the node itself, else a match among its
descendants, each with its ancestor chain. -/
def findCtxNode (p : Node → Bool) (anc : List Node) : Node → Option ECtx
  | .elem t a co ch =>
    if p (.elem t a co ch) then some ⟨anc, .elem t a co ch⟩
    else findCtxList p (.elem t a co ch :: anc) ch
  | .text s =>
    if p (.text s) then some ⟨anc, .text s⟩ else none
end

/-- Preorder search over the whole document (root included) returning the
match with its ancestor chain. -/
def findCtxDoc (p : Node → Bool) (doc : Node) : Option ECtx :=
  findCtxNode p [] doc

/-- `document.getElementById(id)`: first element in document order whose
`id` attribute is `id`; an element with an empty or absent `id` attribute
has no ID, and `getElementById("")` is `null`. -/
def getElementById (doc : Node) (idv : String) : Option Node :=
  if idv == "" then none
  else (findCtxDoc (fun n => n.getAttr "id" == some idv) doc).map (·.cur)

/-- `document.getElementById(id)` together with the found element's ancestor
chain (needed where the source goes on to resolve the found element's own
accessible name). -/
def getElementByIdCtx (doc : Node) (idv : String) : Option ECtx :=
  if idv == "" then none
  else findCtxDoc (fun n => n.getAttr "id" == some idv) doc

/-- `element.closest(sel)` for a selector embedded as predicate `p`: the
element itself, else the nearest matching ancestor. -/
def ECtx.closest (e : ECtx) (p : Node → Bool) : Option Node :=
  if p e.cur then some e.cur else e.anc.find? p

/-- The inline-style declarations parsed from a `style` attribute string: a
model of the host CSS declaration parser over `prop: value` lists (the only
shapes the hidden-element check consults); for a duplicated property the
last declaration wins. -/
def styleProps (s : String) : List (String × String) :=
  (splitOnChar ';' s).filterMap fun d =>
    match splitOnChar ':' d with
    | [p, v] => some (strLower (jsTrim p), jsTrim v)
    | _ => none

/-- `element.style.prop` read through the parsed `style` attribute (`""`
when undeclared, as the CSSOM reports). -/
def Node.inlineStyleProp (n : Node) (p : String) : String :=
  (((styleProps (n.getAttrD "style" "")).reverse.find? (fun q => q.1 == p)).map (·.2)).getD ""

/-- `element.width` as the string an `===`-comparison against `"0"` sees:
only the tags whose IDL `width` is a reflected string (frames and embeds)
can compare equal; for the number-valued or undefined cases the comparison
is `false`. -/
def Node.jsWidthStr (n : Node) : Option String :=
  if n.tagOf == "IFRAME" || n.tagOf == "EMBED" || n.tagOf == "OBJECT" then
    some (n.getAttrD "width" "")
  else none

/-- `element.height`, mirroring `Node.jsWidthStr`. -/
def Node.jsHeightStr (n : Node) : Option String :=
  if n.tagOf == "IFRAME" || n.tagOf == "EMBED" || n.tagOf == "OBJECT" then
    some (n.getAttrD "height" "")
  else none

/-- The valid `input` `type` keywords: the host normalises any other value
to `"text"`. -/
def validInputTypes : List String :=
  ["button", "checkbox", "color", "date", "datetime-local", "email", "file",
   "hidden", "image", "month", "number", "password", "radio", "range",
   "reset", "search", "submit", "tel", "text", "time", "url", "week"]

/-- `element.type` as the host exposes it: the validated `type` attribute
for inputs (invalid values fall back to `"text"`), the fixed values for
buttons, textareas and selects, and `""` (undefined) elsewhere. -/
def Node.jsType (n : Node) : String :=
  match n.tagOf with
  | "INPUT" =>
      let t := strLower (n.getAttrD "type" "")
      if validInputTypes.contains t then t else "text"
  | "BUTTON" =>
      let t := strLower (n.getAttrD "type" "")
      if t == "submit" || t == "reset" || t == "button" then t else "submit"
  | "TEXTAREA" => "textarea"
  | "SELECT" => if n.hasAttr "multiple" then "select-multiple" else "select-one"
  | _ => ""

/-- `element.value` for an input in the pre-interaction snapshot: the
reflected `value` attribute. -/
def Node.jsValue (n : Node) : String :=
  n.getAttrD "value" ""

/-- The class tokens of an element (`element.classList`). -/
def Node.classTokens (n : Node) : List String :=
  wsTokens (n.getAttrD "class" "")

/-- Whether the element's class list contains the token (CSS `.token`). -/
def Node.hasClass (n : Node) (t : String) : Bool :=
  n.classTokens.contains t

/-!  Text heuristics (pure string classifiers of the source). -/

/-- `isWhitespaceOnly(text)`: the trimmed text is empty (the `null` /
`undefined` guards of the source cannot fire on a `String`). -/
def isWhitespaceOnly (text : String) : Bool :=
  jsTrim text == ""

/-- The character class of the source's punctuation regex
`^[.,\/#!$%\^&\*;:{}=\-_`~()\[\]"']+$`. -/
def punctuationChars : String :=
  ".,/#!$%^&*;:{}=-_`~()[]\"'"

/-- `isPunctuation(text)`: the trimmed text is non-empty and consists only
of characters from the fixed punctuation class. -/
def isPunctuation (text : String) : Bool :=
  let t := jsTrim text
  t ≠ "" && t.toList.all (fun c => strContainsChar punctuationChars c)

/-- The file extensions of `isFilenameInText`'s two regexes. -/
def fileExtensions : List String :=
  ["jpg", "jpeg", "png", "gif", "webp", "svg", "bmp", "pdf", "doc", "docx",
   "xls", "xlsx", "txt", "csv", "zip", "rar", "mp3", "mp4", "wav", "avi", "mov"]

/-- `isFilenameInText(text)`: the trimmed text ends in `.ext` for a fixed
extension (case-insensitively), or additionally has a path separator with at
least one character between it and that final `.ext`. -/
def isFilenameInText (text : String) : Bool :=
  let t := strLower (jsTrim text)
  let extMatch := fileExtensions.any (fun e => strEndsWith t ("." ++ e))
  let pathMatch := fileExtensions.any (fun e =>
    strEndsWith t ("." ++ e) &&
    (let tl := t.toList
     let stem := tl.take (tl.length - (e.toList.length + 1))
     match stem.reverse with
     | [] => false
     | _ :: earlier => earlier.any (fun c => c = '/' || c = '\\')))
  extMatch || pathMatch

/-- The TLD alternatives of `isUrlInText`'s third regex. -/
def urlTlds : List String :=
  ["com", "org", "net", "edu", "gov", "io", "co", "us", "uk", "ca", "au", "de", "fr"]

/-- Whether the position starts `.tld` followed by whitespace, end of
string, or `/` — the body of `isUrlInText`'s regex
`\.(com|org|…)(\s|$|\/)`, applied to lower-cased text. -/
def tldAt (cs : List Char) : Bool :=
  urlTlds.any fun tld =>
    let pat := ("." ++ tld).toList
    pat.isPrefixOf cs &&
    (match cs.drop pat.length with
     | [] => true
     | c :: _ => c.isWhitespace || c = '/')

/-- `isUrlInText(text)`: trimmed text starts with `http(s)://` or `www.`
(case-insensitively), or contains `.tld` followed by whitespace, `/` or the
end of the string. -/
def isUrlInText (text : String) : Bool :=
  let t := strLower (jsTrim text)
  strStartsWith t "http://" || strStartsWith t "https://" ||
  strStartsWith t "www." ||
  anySuffix tldAt t.toList

/-- ASCII letter or digit. -/
def isAlnumAscii (c : Char) : Bool :=
  c.isAlpha || c.isDigit

/-- One domain label of `isUrlLike`'s regex
`[a-zA-Z0-9]([a-zA-Z0-9\-]{0,61}[a-zA-Z0-9])?`: alphanumeric at both ends,
up to 61 alphanumeric-or-hyphen characters between. -/
def validDomainLabel (s : String) : Bool :=
  match s.toList with
  | [] => false
  | c :: rest =>
    match rest.reverse with
    | [] => isAlnumAscii c
    | lastC :: midRev =>
        isAlnumAscii c && isAlnumAscii lastC &&
        midRev.all (fun m => isAlnumAscii m || m = '-') &&
        midRev.length ≤ 61

/-- The domain-shaped pattern of `isUrlLike`:
`^(label\.)+[a-zA-Z]{2,}(\/.*)?$`. -/
def domainLike (t : String) : Bool :=
  let host := String.mk (t.toList.takeWhile (· ≠ '/'))
  match (splitOnChar '.' host).reverse with
  | [] => false
  | tldPart :: restRev =>
      restRev ≠ [] && tldPart.toList.length ≥ 2 &&
      tldPart.toList.all Char.isAlpha &&
      restRev.all validDomainLabel

/-- `isUrlLike(text)`: trimmed text starts with `http://`, `https://` or
`www.` (case-sensitively, as `startsWith` is), or matches the domain-shaped
regex. -/
def isUrlLike (text : String) : Bool :=
  let t := jsTrim text
  strStartsWith t "http://" || strStartsWith t "https://" || strStartsWith t "www." ||
  domainLike t

/-- The closed word list of `isGenericLabel`. -/
def genericLabelTerms : List String :=
  ["label", "field", "input", "text", "textbox", "textarea", "form field",
   "form input", "name", "enter text", "enter input", "image", "button",
   "submit", "icon", "picture", "photo", "graphic"]

/-- `isGenericLabel(text)`: exact membership of the trimmed, lower-cased
text in the fixed list. -/
def isGenericLabel (text : String) : Bool :=
  genericLabelTerms.contains (strLower (jsTrim text))

/-- The closed word list of `isGenericText`. -/
def genericTextTerms : List String :=
  ["button", "click", "click here", "click me", "submit", "go", "next",
   "previous", "send", "ok"]

/-- `isGenericText(text)`: exact membership of the lower-cased, trimmed
text in the fixed list. -/
def isGenericText (text : String) : Bool :=
  genericTextTerms.contains (jsTrim (strLower text))

/-- The closed word list of `isGenericLinkText`. -/
def genericLinkTerms : List String :=
  ["click", "click here", "click me", "link", "more", "read more",
   "details", "learn more", "go", "here"]

/-- `isGenericLinkText(text)`: exact membership of the lower-cased, trimmed
text in the fixed list. -/
def isGenericLinkText (text : String) : Bool :=
  genericLinkTerms.contains (jsTrim (strLower text))

/-- `capitalizeFirstLetter(string)`. -/
def capitalizeFirstLetter (s : String) : String :=
  match s.toList with
  | [] => ""
  | c :: rest => String.mk (c.toUpper :: rest)

/-- ASCII `\w` of a JavaScript regex. -/
def isWordCharJs (c : Char) : Bool :=
  c.isAlpha || c.isDigit || c = '_'

/-- The test `/[^\w\s]/.test(s)`: some character is neither a word
character nor whitespace (`\s` is modelled over the ASCII whitespace the
source exercises). -/
def hasNonWordNonSpace (s : String) : Bool :=
  s.toList.any (fun c => !(isWordCharJs c) && !c.isWhitespace)

/-- Coarse model of the host Unicode property classes
`Emoji_Presentation` and `Extended_Pictographic` used by `isIconOnly`'s
emoji regex, as code point ranges.  No claim in this development depends on
the exact extent of the host's tables. -/
def emojiRanges : List (Nat × Nat) :=
  [(0x203C, 0x203C), (0x2049, 0x2049), (0x2122, 0x2122), (0x2139, 0x2139),
   (0x2194, 0x21AA), (0x231A, 0x231B), (0x2328, 0x2328), (0x23CF, 0x23FA),
   (0x24C2, 0x24C2), (0x25AA, 0x25FE), (0x2600, 0x27BF), (0x2934, 0x2935),
   (0x2B00, 0x2BFF), (0x3030, 0x3030), (0x303D, 0x303D), (0x3297, 0x3297),
   (0x3299, 0x3299), (0x1F000, 0x1FAFF)]

/-- Whether a character falls in the modelled emoji ranges. -/
def isEmojiChar (c : Char) : Bool :=
  emojiRanges.any (fun r => decide (r.1 ≤ c.toNat) && decide (c.toNat ≤ r.2))

/-- `/(\p{Emoji_Presentation}|\p{Extended_Pictographic})/u.test(s)`. -/
def jsEmojiTest (s : String) : Bool :=
  s.toList.any isEmojiChar

/-- The `iconChars` array literal of `isIconOnly`, transcribed from the
repository file as-is: the non-ASCII icon glyphs of the original are empty
string literals there (lost in encoding), so only the ASCII entries can
ever equal a one-character value. -/
def iconChars : List String :=
  ["", "", "", "", "", "", "", "", "", "", "",
   "+", "-", "", "", "=", "<", ">", "", "", "*", "", "", "", "", "",
   "", "", "", "", "", "", "", "", "", "", "", "",
   "", "", "", "", "", "", "", "", "", ""]

/-- The icon-child selector of `isIconOnly`
(`i.fa, i.fas, i.far, i.fal, i.fad, span.material-icons, i.icon, .glyphicon`)
as a node predicate. -/
def isIconChildElem (n : Node) : Bool :=
  (n.tagOf == "I" && (n.hasClass "fa" || n.hasClass "fas" || n.hasClass "far" ||
                      n.hasClass "fal" || n.hasClass "fad" || n.hasClass "icon")) ||
  (n.tagOf == "SPAN" && n.hasClass "material-icons") ||
  n.hasClass "glyphicon"

/-- The icon-class patterns of `isIconOnly` applied to one class token. -/
def isIconClassToken (cls : String) : Bool :=
  strStartsWith cls "fa-" || strStartsWith cls "fas-" || strStartsWith cls "far-" ||
  strStartsWith cls "fal-" || strStartsWith cls "fad-" || strStartsWith cls "glyphicon-" ||
  strStartsWith cls "material-icons" || strStartsWith cls "icon-" || strStartsWith cls "ui-icon-"

/-- `isIconOnly(element, accessibleName)`: the name came from content (not
from `aria-label`/`aria-labelledby`/`title`) and looks icon-like — a single
icon/emoji character, a two-unit string with a symbol character, an
icon-font class on the element, or an icon child element with at most two
units of text.  String lengths are UTF-16 unit counts (`jsStrLen`). -/
def isIconOnly (element : Node) (accessibleName : String) : Bool :=
  if (element.getAttrD "aria-label" "" ≠ "") || (element.getAttrD "aria-labelledby" "" ≠ "") ||
     (element.getAttrD "title" "" ≠ "") then
    false
  else if element.tagOf == "INPUT" &&
      (element.jsType == "button" || element.jsType == "submit" || element.jsType == "reset") then
    if !(element.hasAttr "value") then false
    else
      let value := element.getAttrD "value" ""
      if jsStrLen value = 1 && (iconChars.contains value || jsEmojiTest value) then true
      else if jsStrLen value ≤ 2 && hasNonWordNonSpace value then true
      else false
  else
    if jsStrLen accessibleName = 1 && jsStrLen (jsTrim accessibleName) = 1 &&
       (jsEmojiTest accessibleName || iconChars.contains accessibleName) then true
    else if element.classTokens.any isIconClassToken then true
    else if (element.querySelector isIconChildElem).isSome &&
            jsStrLen (jsTrim element.textContent) ≤ 2 then true
    else if jsStrLen accessibleName ≤ 2 && hasNonWordNonSpace accessibleName then true
    else false

/-- The predicate of `[aria-hidden="true"]`. -/
def ariaHiddenTrue (n : Node) : Bool :=
  n.getAttr "aria-hidden" == some "true"

mutual
/-- `getVisibleTextContent` of `hasAriaHiddenContent`: descendant text,
with every `aria-hidden="true"` subtree (the start node included)
contributing nothing. -/
def visibleTextOf : Node → String
  | .text s => s
  | .elem t a c ch =>
      if ariaHiddenTrue (.elem t a c ch) then "" else visibleTextList ch
/-- `visibleTextOf` over a list of sibling nodes. -/
def visibleTextList : List Node → String
  | [] => ""
  | c :: cs => visibleTextOf c ++ visibleTextList cs
end

/-- `hasAriaHiddenContent(element)`: the subtree has an
`aria-hidden="true"` descendant and the text outside such subtrees is
blank. -/
def hasAriaHiddenContent (element : Node) : Bool :=
  if (element.querySelector ariaHiddenTrue).isNone then false
  else jsTrim (visibleTextOf element) == ""

/-- The ancestor walk of `hasImplicitLabelParent`: at the first `LABEL`
ancestor, implicit iff its `for` attribute is absent or empty (falsy);
otherwise false, whether the `for` points at this element or another. -/
def implicitLabelWalk (element : Node) : List Node → Bool
  | [] => false
  | parent :: rest =>
    if parent.tagOf == "LABEL" then
      match parent.getAttr "for" with
      | none => true
      | some f =>
        if f == "" then true
        else if element.getAttrD "id" "" ≠ "" && f ≠ element.getAttrD "id" "" then false
        else false
    else implicitLabelWalk element rest

/-- `hasImplicitLabelParent(element)`. -/
def hasImplicitLabelParent (e : ECtx) : Bool :=
  implicitLabelWalk e.cur e.anc

mutual
/-- Remove the first node in depth-first preorder matching `p` from a
forest; the flag reports whether a node was removed.  This is the clone
surgery `elementInLabel.parentNode.removeChild(elementInLabel)` after
`labelClone.querySelector(...)`. -/
def removeFirstList (p : Node → Bool) : List Node → (List Node × Bool)
  | [] => ([], false)
  | c :: cs =>
    if p c then (cs, true)
    else
      match removeFirstNode p c with
      | (c2, true) => (c2 :: cs, true)
      | (_, false) =>
        let r2 := removeFirstList p cs
        (c :: r2.1, r2.2)
/-- The node side of `removeFirstList`: remove the first matching strict
descendant. -/
def removeFirstNode (p : Node → Bool) : Node → (Node × Bool)
  | .elem t a co ch =>
    let r := removeFirstList p ch
    (.elem t a co r.1, r.2)
  | .text s => (.text s, false)
end

/-- Start character of an (unescaped) CSS identifier.  Backslash escapes
are not modelled: an id needing them is treated as invalid. -/
def isCssIdentStartChar (c : Char) : Bool :=
  c.isAlpha || c = '_' || decide (c.toNat ≥ 0x80)

/-- Continuation character of an (unescaped) CSS identifier. -/
def isCssIdentChar (c : Char) : Bool :=
  isCssIdentStartChar c || c.isDigit || c = '-'

/-- Whether a string is a valid (unescaped) CSS identifier: `querySelector`
throws a `SyntaxError` on the selector `#id` when `id` is not of this
shape (for example when it starts with a digit). -/
def validCssIdent (s : String) : Bool :=
  match s.toList with
  | [] => false
  | '-' :: rest =>
    match rest with
    | [] => false
    | d :: ds => (isCssIdentStartChar d || d = '-') && ds.all isCssIdentChar
  | c :: cs => isCssIdentStartChar c && cs.all isCssIdentChar

/-- Whether a string may stand between double quotes of a CSS attribute
selector: `querySelector` throws a `SyntaxError` on
`label[for="id"]` when `id` contains a quote, backslash or newline. -/
def validCssDqString (s : String) : Bool :=
  s.toList.all (fun c => c ≠ '"' && c ≠ '\\' && c ≠ '\n' && c ≠ '\r' && c ≠ '\x0c')

/-- The per-element diagnostic fields `computeAccessibleName` attaches to
the element (`element._hasBrokenAriaLabelledby` and friends), embedded as
an explicit record; `none` is the JavaScript `undefined` of a field never
assigned. -/
structure Ann where
  hasBrokenAriaLabelledby : Option Bool
  brokenAriaLabelledbyIds : Option (List String)
  hasEmptyAriaLabel : Option Bool
  hasPunctuationOnlyAriaLabel : Option Bool
  accessibleNameFromTitleOnly : Option Bool
  accessibleNameFromLabel : Option Bool
  labelType : Option String
deriving DecidableEq, Repr

/-- The diagnostic state of an element never touched: every field
`undefined`. -/
def Ann.empty : Ann :=
  ⟨none, none, none, none, none, none, none⟩

/-- JavaScript truthiness of a possibly-undefined boolean field. -/
def truthy (o : Option Bool) : Bool :=
  o == some true

/-- The `aria-labelledby` resolution loop of `computeAccessibleName`: in id
order, append each resolved element's trimmed text (single-space
separated); collect the ids that resolve to nothing. -/
def resolveLabelledby (doc : Node) (ids : List String) : String × List String :=
  ids.foldl
    (fun acc idv =>
      match getElementById doc idv with
      | some labelElement =>
          (acc.1 ++ (if acc.1 ≠ "" then " " else "") ++ jsTrim labelElement.textContent, acc.2)
      | none => (acc.1, acc.2 ++ [idv]))
    ("", [])

/-- The roles whose elements take their text content as accessible name
(step 10 of the resolver). -/
def rolesThatUseTextContent : List String :=
  ["checkbox", "menuitem", "menuitemcheckbox", "menuitemradio",
   "option", "radio", "tab", "treeitem"]

/-- Steps 9–11 of `computeAccessibleName`: text-content fallback for the
fixed tag/role set (with the image-alt priority rule inside links), then
the second role set, then the empty default.  These steps read only the
element and never touch the diagnostic record. -/
def nameFromTextStages (e : ECtx) : String :=
  let element := e.cur
  let role := element.getAttr "role"
  let roleText : String :=
    match role with
    | some r =>
        if rolesThatUseTextContent.contains r then jsTrim element.textContent
        else ""
    | none => ""
  if element.tagOf == "BUTTON" || element.tagOf == "A" ||
     element.tagOf == "H1" || element.tagOf == "H2" || element.tagOf == "H3" ||
     element.tagOf == "H4" || element.tagOf == "H5" || element.tagOf == "H6" ||
     element.tagOf == "LI" || element.tagOf == "DT" || element.tagOf == "DD" ||
     element.tagOf == "FIGURE" || element.tagOf == "FIGCAPTION" ||
     role == some "button" || role == some "link" ||
     role == some "heading" || role == some "listitem" then
    let imgAlt : Option String :=
      if element.tagOf == "A" then
        match element.querySelector (fun n =>
            n.tagOf == "IMG" &&
            (match n.getAttr "alt" with
             | some a => a ≠ ""
             | none => false)) with
        | some imgElement =>
            let altText := imgElement.getAttrD "alt" ""
            if altText ≠ "" && jsTrim altText ≠ "" then some altText else none
        | none => none
      else none
    match imgAlt with
    | some altText => altText
    | none =>
        let textContent := jsTrim element.textContent
        if textContent ≠ "" then textContent else roleText
  else roleText

/-- Steps 5–11 of `computeAccessibleName`: `alt` on images/areas, `value`
on button-like inputs, `title` on iframes, the generic `title` attribute
(flagging the title-only source), then the text-content stages. -/
def nameFromContentStages (e : ECtx) (ann : Ann) : String × Ann :=
  let element := e.cur
  if (element.tagOf == "IMG" || element.tagOf == "AREA") && element.hasAttr "alt" then
    (element.getAttrD "alt" "", ann)
  else if element.tagOf == "INPUT" &&
      (element.jsType == "button" || element.jsType == "submit" || element.jsType == "reset") &&
      element.hasAttr "value" then
    (element.jsValue, ann)
  else if element.tagOf == "IFRAME" && element.hasAttr "title" then
    (element.getAttrD "title" "", ann)
  else if element.hasAttr "title" && element.getAttrD "title" "" ≠ "" then
    (element.getAttrD "title" "", { ann with accessibleNameFromTitleOnly := some true })
  else
    (nameFromTextStages e, ann)

/-- Step 4 of `computeAccessibleName`: label association for form controls,
progress and meter with an id — an external `label[for]` first, then a
wrapping label with the element's own subtree removed from a clone.  The
two `querySelector` calls built from the raw id throw (`.error ()`) when
the id does not fit the selector grammar. -/
def nameLabelStage (doc : Node) (e : ECtx) (ann : Ann) : Except Unit (String × Ann) :=
  let element := e.cur
  let idv := element.getAttrD "id" ""
  if idv ≠ "" && (element.tagOf == "INPUT" || element.tagOf == "TEXTAREA" ||
      element.tagOf == "SELECT" || element.tagOf == "PROGRESS" || element.tagOf == "METER") then
    if !(validCssDqString idv) then .error ()
    else
      match findCtxDoc (fun n => n.tagOf == "LABEL" && n.getAttr "for" == some idv) doc with
      | some lctx =>
          let ann1 :=
            if element.tagOf == "PROGRESS" || element.tagOf == "METER" then
              { ann with accessibleNameFromLabel := some true, labelType := some "external" }
            else ann
          .ok (jsTrim lctx.cur.textContent, ann1)
      | none =>
        match e.closest (fun n => n.tagOf == "LABEL") with
        | some parentLabel =>
            if !(validCssIdent idv) then .error ()
            else
              let cloneChildren :=
                (removeFirstList (fun n => n.getAttr "id" == some idv) parentLabel.childrenOf).1
              let ann1 :=
                if element.tagOf == "PROGRESS" || element.tagOf == "METER" then
                  { ann with accessibleNameFromLabel := some true, labelType := some "wrapped" }
                else ann
              .ok (jsTrim (textContentList cloneChildren), ann1)
        | none => .ok (nameFromContentStages e ann)
  else .ok (nameFromContentStages e ann)

/-- Step 3 of `computeAccessibleName`: `aria-label` — empty or
whitespace-only is flagged and resolves to `""` immediately;
punctuation-only is flagged but still returned; otherwise the raw value is
returned. -/
def nameAriaLabelStage (doc : Node) (e : ECtx) (ann : Ann) : Except Unit (String × Ann) :=
  let element := e.cur
  if element.hasAttr "aria-label" then
    let label := element.getAttrD "aria-label" ""
    if label = "" || (label ≠ "" && jsTrim label = "") then
      .ok ("", { ann with hasEmptyAriaLabel := some true })
    else
      let ann1 :=
        if label ≠ "" && isPunctuation label then
          { ann with hasPunctuationOnlyAriaLabel := some true }
        else ann
      if label ≠ "" then .ok (label, ann1)
      else nameLabelStage doc e ann1
  else nameLabelStage doc e ann

/-- Step 1 of `computeAccessibleName`: the fieldset special case — the
first `legend` found below a fieldset counts only when it is the first
element child (reference equality in the source) and has non-empty trimmed
text. -/
def fieldsetLegendName (element : Node) : Option String :=
  if element.tagOf == "FIELDSET" then
    match element.querySelector (fun n => n.tagOf == "LEGEND") with
    | some legend =>
        if (match element.firstElementChild with
            | some f => nodeBeq legend f
            | none => false) && jsTrim legend.textContent ≠ "" then
          some (jsTrim legend.textContent)
        else none
    | none => none
  else none

/-- `computeAccessibleName(element)`: the prioritized resolver.  Step 1 is
the fieldset first-child-legend special case; step 2 resolves
`aria-labelledby`, always recording the broken-reference diagnostics when
the attribute is present; the remaining steps are the stage functions
above.  The result is the name paired with the element's updated
diagnostic record; `.error ()` is a thrown `SyntaxError` from a selector
built out of a malformed id. -/
def computeAccessibleName (doc : Node) (e : ECtx) (ann : Ann) : Except Unit (String × Ann) :=
  let element := e.cur
  match fieldsetLegendName element with
  | some t => .ok (t, ann)
  | none =>
    if element.hasAttr "aria-labelledby" then
      let resolved := resolveLabelledby doc (jsSplitWs (element.getAttrD "aria-labelledby" ""))
      let name := resolved.1
      let brokenIds := resolved.2
      let ann1 := { ann with
        hasBrokenAriaLabelledby := some (brokenIds ≠ []),
        brokenAriaLabelledbyIds := some brokenIds }
      if name ≠ "" then .ok (name, ann1)
      else nameAriaLabelStage doc e ann1
    else nameAriaLabelStage doc e ann

/-- `isElementHidden(element)`: hidden by computed style, by inline style
(parsed or as a literal substring of the raw `style` attribute), or by
string-`"0"` dimensions.  The `!element` null guard of the source cannot
fire in this embedding. -/
def isElementHidden (element : Node) : Bool :=
  let computedStyle := element.computedOf
  let isHiddenByComputedStyle :=
    computedStyle.display == "none" || computedStyle.visibility == "hidden" ||
    computedStyle.opacityZero
  let hasInlineHiddenStyle :=
    element.inlineStyleProp "display" == "none" ||
    element.inlineStyleProp "visibility" == "hidden" ||
    (match element.getAttr "style" with
     | some s => containsSub s "display: none" || containsSub s "visibility: hidden"
     | none => false)
  let hasZeroDimensions := element.jsWidthStr == some "0" && element.jsHeightStr == some "0"
  isHiddenByComputedStyle || hasInlineHiddenStyle || hasZeroDimensions

/-! The evaluation results and the per-category evaluators. -/

/-- One evaluation result record.  Fields an evaluator never sets are
`none` (JavaScript `undefined`); the `selector` and `outerHTML` display
fields (host locator string and markup snapshot) are omitted, as no
verdict, description or claim reads them.  `inputType` is the record field
the source calls `type`. -/
structure TestResult where
  tagName : String
  role : Option String
  inputType : Option String
  accessibleName : String
  isVisible : Option Bool
  result : String
  description : String
  details : Option String
  title : Option String
  brokenAriaLabelledby : Option Bool
  brokenAriaLabelledbyIds : Option (List String)
  isImageMap : Option Bool
  hasTitleElement : Option Bool
  titleContent : Option (Option String)
  value : Option (Option String)
  percentValue : Option String
deriving DecidableEq, Repr

/-- A result record with only the header fields set (the shape each
evaluator constructs before deciding), result and description still to be
assigned. -/
def baseResult (tagName : String) (accessibleName : String) (isVisible : Option Bool) : TestResult :=
  { tagName := tagName, role := none, inputType := none,
    accessibleName := accessibleName, isVisible := isVisible,
    result := "", description := "", details := none, title := none,
    brokenAriaLabelledby := none, brokenAriaLabelledbyIds := none,
    isImageMap := none, hasTitleElement := none, titleContent := none,
    value := none, percentValue := none }

/-- The `resultObj` of the evaluators: a verdict with its description and
optional details/title, decided before the visibility downgrade. -/
structure RObj where
  result : String
  description : String
  details : Option String
  title : Option String
deriving DecidableEq, Repr

/-- An `RObj` with only verdict and description. -/
def mkR (r d : String) : RObj := ⟨r, d, none, none⟩

/-- An `RObj` with verdict, description and details. -/
def mkRD (r d det : String) : RObj := ⟨r, d, some det, none⟩

/-- The fixed explanatory detail string of the hidden-element downgrade,
as the source spells it (three concatenated literals). -/
def hiddenDetails : String :=
  "This element is currently hidden (display: none, visibility: hidden, or opacity: 0). " ++
  "This is reported as a warning rather than an error because the element is not visible " ++
  "to users, but would fail accessibility requirements if it becomes visible."

/-- Apply a decided `resultObj` to the result record, downgrading a Fail to
Warn with the `" (hidden element)"` suffix and the fixed detail string when
the element is hidden; otherwise only verdict and description are copied
(the source's merge in `testFormControl` and `testButton` drops
`resultObj.details`). -/
def applyResultObj (isVisible : Bool) (base : TestResult) (o : RObj) : TestResult :=
  if !isVisible && o.result == "fail" then
    { base with
                result := "warn", description := o.description ++ " (hidden element)",
                details := some hiddenDetails }
  else
    { base with result := o.result, description := o.description }

/-- Apply a decided `resultObj` copying details and title through when
present (the merge of `testImage`, `testSVGImage`, `testArea`,
`testProgress`, `testMeter`, `testImageInput` and `testElementWithRoleImg`). -/
def applyResultObjFull (isVisible : Bool) (base : TestResult) (o : RObj) : TestResult :=
  if !isVisible && o.result == "fail" then
    { base with
                result := "warn", description := o.description ++ " (hidden element)",
                details := some hiddenDetails }
  else
    { base with
                result := o.result, description := o.description,
                details := (match o.details with | some d => some d | none => base.details),
                title := (match o.title with | some t => some t | none => base.title) }

/-- The in-place hidden downgrade of the evaluators that decide directly on
the result record (`testFieldset`, `testForm`, `testDialog`,
`testAriaWidget`, `testElementWithTabindex`, `testLink`): a Fail of a
hidden element becomes Warn with the suffixed description and the fixed
detail string, every other record passes through unchanged. -/
def applyHiddenDowngrade (isVisible : Bool) (r : TestResult) : TestResult :=
  if !isVisible && r.result == "fail" then
    { r with
             result := "warn", description := r.description ++ " (hidden element)",
             details := some hiddenDetails }
  else r

/-- JavaScript `array.join(sep)`. -/
def joinSep (sep : String) : List String → String
  | [] => ""
  | [x] => x
  | x :: xs => x ++ sep ++ joinSep sep xs

mutual
/-- The matches of `querySelectorAll` below a forest, in document order. -/
def collectList (p : Node → Bool) : List Node → List Node
  | [] => []
  | c :: cs => collectNode p c ++ collectList p cs
/-- The matches of `querySelectorAll` in a subtree, the root included. -/
def collectNode (p : Node → Bool) : Node → List Node
  | .elem t a co ch =>
    (if p (.elem t a co ch) then [Node.elem t a co ch] else []) ++ collectList p ch
  | .text s => if p (.text s) then [Node.text s] else []
end

/-- `element.querySelectorAll(sel)` as a list (descendants only). -/
def Node.querySelectorAll (n : Node) (p : Node → Bool) : List Node :=
  collectList p n.childrenOf

/-- `testFormControl(element)` up to (but not including) the final merge of
the decided `resultObj` into the record: the header record, the element's
visibility, and the decision.  The source repeats the identical merge at
its three return points; the merge is applied once by `testFormControl`. -/
def testFormControlDecision (doc : Node) (e : ECtx) (ann0 : Ann) :
    Except Unit (Bool × TestResult × RObj) := do
  let element := e.cur
  let (accessibleName, ann) ← computeAccessibleName doc e ann0
  let tagName := strLower element.tagOf
  let role := element.getAttr "role"
  let isARIATextbox := role == some "textbox"
  let elementType := if isARIATextbox then "ARIA textbox" else capitalizeFirstLetter tagName
  let isVisible := !(isElementHidden element)
  let base := baseResult tagName accessibleName (some isVisible)
  if element.hasAttr "aria-labelledby" && truthy ann.hasBrokenAriaLabelledby then
    let ids := ann.brokenAriaLabelledbyIds.getD []
    return (isVisible,
      { base with brokenAriaLabelledby := some true, brokenAriaLabelledbyIds := some ids },
      mkR "fail" (elementType ++ " has aria-labelledby referencing non-existent IDs: \"" ++
        joinSep ", " ids ++ "\""))
  else if element.jsType == "hidden" || element.jsType == "button" ||
      element.jsType == "submit" || element.jsType == "reset" then
    let o :=
      if element.jsType == "button" || element.jsType == "submit" || element.jsType == "reset" then
        if accessibleName == "" then
          mkR "fail" (capitalizeFirstLetter element.jsType ++
            " input is missing an accessible name - Users cannot identify its purpose. Add a value attribute, aria-label, or aria-labelledby")
        else
          mkR "pass" (capitalizeFirstLetter element.jsType ++ " input has an accessible name")
      else
        mkR "pass" "Hidden input doesn't require an accessible name"
    return (isVisible, base, o)
  else
    let o :=
      if accessibleName == "" then
        if element.hasAttr "placeholder" && tagName == "input" then
          mkRD "fail"
            (elementType ++ " has placeholder but no accessible name - Placeholder text is not part of the accessible name calculation. Add a properly associated label, aria-label, or aria-labelledby")
            "Placeholder text is not included in the accessible name, disappears when users start typing, often has low contrast ratios, and is not a substitute for a proper label. Form controls must have a proper accessible name to meet WCAG success criteria."
        else
          mkR "fail" (elementType ++ " is missing an accessible name - Users cannot identify its purpose. Add a properly associated label, aria-label, or aria-labelledby")
      else if jsTrim accessibleName == "" then
        mkR "fail" (elementType ++ " has empty or whitespace-only accessible name")
      else if isPunctuation accessibleName then
        mkR "fail" (elementType ++ " has punctuation-only accessible name \"" ++ accessibleName ++
          "\" - Not meaningful to screen reader users. Add descriptive text that identifies the input's purpose")
      else if isGenericLabel accessibleName then
        mkR "fail" (elementType ++ " has generic accessible name \"" ++ accessibleName ++
          "\" - This doesn't describe the input's purpose. Use descriptive text that clearly identifies what information is expected")
      else if isFilenameInText accessibleName then
        mkRD "warn"
          (elementType ++ " has a filename-like accessible name \"" ++ accessibleName ++
            "\" - This may not be descriptive of the input's purpose. Consider using a more descriptive label that explains what information is expected")
          "Filename-like labels are often system-oriented rather than user-oriented and may not clearly communicate what information the user should enter."
      else if isUrlLike accessibleName then
        mkRD "warn"
          (elementType ++ " has a URL-like accessible name \"" ++ accessibleName ++
            "\" - This may not be descriptive of the input's purpose. Consider using a more descriptive label that explains what information is expected")
          "URL-like labels are often system-oriented rather than user-oriented and may not clearly communicate what information the user should enter."
      else if truthy ann.accessibleNameFromTitleOnly then
        mkRD "warn"
          (elementType ++ " uses title attribute for its accessible name - Not recommended for accessibility. Title attributes may not be visible to all users and aren't consistently supported. Use a label element or aria-label instead")
          "Title attributes have several accessibility issues: they're not visible to screen magnifier users, aren't consistently exposed by all assistive technologies, may be difficult to discover for keyboard-only users, and only visible on hover/focus with potential timeout issues."
      else if hasImplicitLabelParent e then
        mkRD "warn"
          (elementType ++ " uses implicit label (nested within label element) - This may cause issues with some voice-control technologies like Dragon Naturally Speaking, which look for explicit for/id associations. Consider using explicit label with matching for/id attributes instead")
          "Voice control technologies often look specifically for the 'for' attribute in labels, and implicit labeling can limit functionality for some assistive technology users. While implicit labels are technically valid, explicit labels with matching for/id attributes are more broadly supported across assistive technologies."
      else
        mkR "pass" (elementType ++ " has an accessible name")
    return (isVisible, base, o)

/-- `testFormControl(element)`: the decision merged into the record, with
the hidden-element downgrade. -/
def testFormControl (doc : Node) (e : ECtx) (ann0 : Ann) : Except Unit TestResult := do
  let (isVisible, base, o) ← testFormControlDecision doc e ann0
  return applyResultObj isVisible base o

/-- `testButton(element)` up to the final merge: header record, visibility,
and the decided `resultObj`. -/
def testButtonDecision (doc : Node) (e : ECtx) (ann0 : Ann) :
    Except Unit (Bool × TestResult × RObj) := do
  let element := e.cur
  let (accessibleName, ann) ← computeAccessibleName doc e ann0
  let isAriaButton := element.getAttr "role" == some "button"
  let isInputButton := element.tagOf == "INPUT" &&
    (element.jsType == "button" || element.jsType == "submit" || element.jsType == "reset")
  let elementType :=
    if isAriaButton then "ARIA button"
    else if isInputButton then capitalizeFirstLetter element.jsType ++ " input"
    else "Button"
  let isVisible := !(isElementHidden element)
  let base :=
    { baseResult (strLower element.tagOf) accessibleName (some isVisible) with
        role := if isAriaButton then some "button" else none,
        inputType := if isInputButton then some element.jsType else none }
  if element.hasAttr "aria-labelledby" && truthy ann.hasBrokenAriaLabelledby then
    let ids := ann.brokenAriaLabelledbyIds.getD []
    return (isVisible,
      { base with brokenAriaLabelledby := some true, brokenAriaLabelledbyIds := some ids },
      mkR "fail" (elementType ++ " has aria-labelledby referencing non-existent IDs: \"" ++
        joinSep ", " ids ++ "\""))
  else
    let o :=
      if element.tagOf == "INPUT" &&
         (element.jsType == "button" || element.jsType == "submit" || element.jsType == "reset") &&
         !(element.hasAttr "value") then
        mkR "fail" (elementType ++ " is missing value attribute which provides its accessible name - Screen readers cannot announce this button's purpose. Add a value attribute to define button text")
      else if truthy ann.hasEmptyAriaLabel then
        mkR "fail" (elementType ++ " has empty or whitespace-only aria-label attribute")
      else if truthy ann.hasPunctuationOnlyAriaLabel then
        mkR "fail" (elementType ++ " has aria-label with only punctuation \"" ++
          element.getAttrD "aria-label" "" ++ "\", which may not be announced by screen readers")
      else if accessibleName == "" then
        if jsTrim element.textContent == "" then
          if element.tagOf == "BUTTON" then
            mkR "fail" (elementType ++ " has no text content and no aria-label/aria-labelledby attributes")
          else if element.tagOf == "INPUT" &&
              (element.jsType == "button" || element.jsType == "submit" || element.jsType == "reset") then
            mkR "fail" (elementType ++ " is missing value attribute and has no aria-label/aria-labelledby")
          else if element.getAttr "role" == some "button" then
            mkR "fail" (elementType ++ " has no text content and no aria-label/aria-labelledby attributes")
          else
            mkR "fail" (elementType ++ " is missing an accessible name (no content and no aria attributes) - Screen reader users cannot determine this button's purpose. Add text content or aria-label attribute")
        else
          mkR "fail" (elementType ++ " is missing an accessible name - Not announced properly by screen readers. Add text content, aria-label, or aria-labelledby")
      else if jsTrim accessibleName == "" then
        if jsTrim element.textContent == "" then
          if element.hasAttr "aria-label" && jsTrim (element.getAttrD "aria-label" "") == "" then
            mkR "fail" (elementType ++ " has whitespace-only text content and aria-label attribute")
          else
            mkR "fail" (elementType ++ " has whitespace-only text content and no aria attributes")
        else
          mkR "fail" (elementType ++ " has empty or whitespace-only accessible name")
      else if isIconOnly element accessibleName then
        mkR "fail" (elementType ++ " has only an icon (\"" ++ accessibleName ++
          "\") - add aria-label with descriptive text")
      else if isGenericText accessibleName then
        mkR "warn" (elementType ++ " text \"" ++ accessibleName ++
          "\" is too generic - use more descriptive text")
      else
        mkR "pass" (elementType ++ " has an accessible name")
    return (isVisible, base, o)

/-- `testButton(element)`: the decision merged into the record, with the
hidden-element downgrade. -/
def testButton (doc : Node) (e : ECtx) (ann0 : Ann) : Except Unit TestResult := do
  let (isVisible, base, o) ← testButtonDecision doc e ann0
  return applyResultObj isVisible base o

/-- The grouping-failure description of `testRadioButton`. -/
def radioGroupingDescription : String :=
  "Radio button is not contained within a fieldset or element with role=\"radiogroup\" - Radio buttons need a grouping context with a descriptive label to help users understand what they're selecting between"

/-- The grouping-failure details of `testRadioButton`. -/
def radioGroupingDetails : String :=
  "Radio buttons should be grouped within a fieldset with a legend (or an element with role=\"radiogroup\" and aria-labelledby/aria-label) to provide context about what the options represent. This is essential for screen reader users to understand the purpose of the radio button group."

/-- `testRadioButton(element)`: the form-control evaluation, returned
unchanged when it already failed; otherwise a missing `fieldset` /
`role="radiogroup"` grouping context (`closest`) overrides the verdict to
Fail with the fixed grouping description and details. -/
def testRadioButton (doc : Node) (e : ECtx) (ann0 : Ann) : Except Unit TestResult := do
  let formControlResult ← testFormControl doc e ann0
  if formControlResult.result == "fail" then
    return formControlResult
  else
    let isInFieldset := (e.closest (fun n => n.tagOf == "FIELDSET")).isSome
    let isInARIAGroup := (e.closest (fun n => n.getAttr "role" == some "radiogroup")).isSome
    if !isInFieldset && !isInARIAGroup then
      return { formControlResult with
                 result := "fail",
                 description := radioGroupingDescription,
                 details := some radioGroupingDetails }
    else
      return formControlResult

/-- `testSelect(element)`: the form-control evaluation (returned unchanged
when it already failed), then the option checks — an empty first option or
a whitespace-only option overrides the verdict to Fail. -/
def testSelect (doc : Node) (e : ECtx) (ann0 : Ann) : Except Unit TestResult := do
  let formControlResult ← testFormControl doc e ann0
  if formControlResult.result == "fail" then
    return formControlResult
  else
    let element := e.cur
    let options := element.querySelectorAll (fun n => n.tagOf == "OPTION")
    let hasEmptyOption :=
      match options with
      | firstOption :: _ => jsTrim firstOption.textContent == ""
      | [] => false
    let hasWhitespaceOption :=
      options.any (fun option => option.textContent ≠ "" && jsTrim option.textContent == "")
    if hasEmptyOption then
      return { formControlResult with
                 result := "fail",
                 description := "Select has an empty first option - This doesn't provide a clear instruction or placeholder. Add descriptive text to the first option such as 'Choose a category' or 'Select an option'",
                 details := some "The first option in a select element should have descriptive text that explains what the user is selecting. Empty options don't provide adequate information to screen reader users about what they're expected to choose." }
    else if hasWhitespaceOption then
      return { formControlResult with
                 result := "fail",
                 description := "Select has an option with only whitespace characters - This doesn't provide a meaningful option label. Add descriptive text to all options",
                 details := some "All options in a select element need descriptive text for screen reader users to understand what they're selecting. Whitespace-only options are not accessible and should be avoided." }
    else
      return formControlResult

/-- The title-only warning details shared (verbatim) by several
evaluators. -/
def titleOnlyDetails : String :=
  "Title attributes have several accessibility issues: they're not visible to screen magnifier users, aren't consistently exposed by all assistive technologies, may be difficult to discover for keyboard-only users, and only visible on hover/focus with potential timeout issues."

/-- `testFieldset(element)` before its final hidden-element downgrade:
the prioritized fieldset/group decision chain. -/
def testFieldsetCore (doc : Node) (e : ECtx) (ann0 : Ann) :
    Except Unit (Bool × TestResult) := do
  let element := e.cur
  let (accessibleName, ann) ← computeAccessibleName doc e ann0
  let tagName := strLower element.tagOf
  let role := element.getAttr "role"
  let elementType := if role == some "group" then "Group" else "Fieldset"
  let isVisible := !(isElementHidden element)
  let base := { baseResult tagName accessibleName (some isVisible) with role := role }
  let legendOpt := element.querySelector (fun n => n.tagOf == "LEGEND")
  let hasLegend := legendOpt.isSome
  let isFirstChild :=
    match legendOpt with
    | some legend =>
      match element.firstElementChild with
      | some f => nodeBeq legend f
      | none => false
    | none => false
  let emptyLegend :=
    match legendOpt with
    | some legend => jsTrim legend.textContent == ""
    | none => false
  if hasLegend && !isFirstChild then
    return (isVisible, { base with
      result := "fail",
      description := elementType ++ " has legend that is not the first child element - The legend must be the first child of fieldset to be properly associated. Move the legend to be the first element in the fieldset" })
  else if element.hasAttr "aria-labelledby" && truthy ann.hasBrokenAriaLabelledby then
    let ids := ann.brokenAriaLabelledbyIds.getD []
    return (isVisible, { base with
      brokenAriaLabelledby := some true,
      brokenAriaLabelledbyIds := some ids,
      result := "fail",
      description := elementType ++ " has aria-labelledby referencing non-existent IDs: \"" ++
        joinSep ", " ids ++ "\" - These referenced elements do not exist in the document. Fix these IDs or use a legend element instead" })
  else if element.hasAttr "aria-labelledby" && accessibleName == "" then
    return (isVisible, { base with
      result := "fail",
      description := elementType ++ " references an element with empty content via aria-labelledby - The referenced element exists but has no text content. Add text to the referenced element or use a legend element instead" })
  else if hasLegend && isFirstChild && !emptyLegend &&
      (element.hasAttr "aria-label" || element.hasAttr "aria-labelledby") then
    return (isVisible, { base with
      result := "warn",
      description := elementType ++ " has both a legend and " ++
        (if element.hasAttr "aria-label" then "aria-label" else "aria-labelledby") ++
        " - This creates redundant announcements in screen readers. Use either a legend OR aria-label/aria-labelledby, but not both" })
  else if element.hasAttr "aria-label" && jsTrim (element.getAttrD "aria-label" "") == "" then
    return (isVisible, { base with
      result := "fail",
      description := elementType ++ " has empty aria-label attribute - This doesn't provide an accessible name. Add text to the aria-label or use a legend element instead" })
  else if element.hasAttr "aria-label" && isPunctuation (element.getAttrD "aria-label" "") then
    return (isVisible, { base with
      result := "fail",
      description := elementType ++ " has punctuation-only aria-label \"" ++
        element.getAttrD "aria-label" "" ++
        "\" - Not meaningful to screen reader users. Use descriptive text or a legend element" })
  else if hasLegend && emptyLegend then
    return (isVisible, { base with
      result := "fail",
      description := elementType ++ " has empty legend element - This doesn't provide an accessible name. Add text to the legend element" })
  else if accessibleName == "" then
    return (isVisible, { base with
      result := "fail",
      description := elementType ++ " is missing an accessible name - Groups of form controls need labels for screen reader users. Add a legend element, aria-label, or aria-labelledby attribute" })
  else if jsTrim accessibleName == "" then
    return (isVisible, { base with
      result := "fail",
      description := elementType ++ " has empty or whitespace-only accessible name - Not helpful for screen reader users. Add descriptive text to the legend or aria-label" })
  else if isPunctuation accessibleName then
    return (isVisible, { base with
      result := "fail",
      description := elementType ++ " has punctuation-only accessible name \"" ++ accessibleName ++
        "\" - Not meaningful to screen reader users. Use descriptive text that indicates the " ++
        strLower elementType ++ "'s purpose" })
  else if isFilenameInText accessibleName then
    return (isVisible, { base with
      result := "fail",
      description := elementType ++ " has a filename as its accessible name \"" ++ accessibleName ++
        "\" - Not helpful to screen reader users. Use descriptive text that indicates the " ++
        strLower elementType ++ "'s purpose" })
  else if isUrlLike accessibleName then
    return (isVisible, { base with
      result := "fail",
      description := elementType ++ " has a URL-like string as its accessible name \"" ++ accessibleName ++
        "\" - Not helpful to screen reader users. Use descriptive text that indicates the " ++
        strLower elementType ++ "'s purpose" })
  else if truthy ann.accessibleNameFromTitleOnly then
    return (isVisible, { base with
      result := "warn",
      description := elementType ++ " uses title attribute for its accessible name - Not recommended for accessibility. Title attributes may not be visible to all users and aren't consistently supported. Use a legend element or aria-label instead",
      details := some titleOnlyDetails })
  else
    return (isVisible, { base with
      result := "pass",
      description := elementType ++ " has a proper accessible name" })

/-- `testFieldset(element)`: the decision chain with the final
hidden-element downgrade applied in place. -/
def testFieldset (doc : Node) (e : ECtx) (ann0 : Ann) : Except Unit TestResult := do
  let (isVisible, r) ← testFieldsetCore doc e ann0
  return applyHiddenDowngrade isVisible r

/-- `testForm(element)` before its final hidden-element downgrade. -/
def testFormCore (doc : Node) (e : ECtx) (ann0 : Ann) :
    Except Unit (Bool × TestResult) := do
  let element := e.cur
  let (accessibleName, ann) ← computeAccessibleName doc e ann0
  let tagName := strLower element.tagOf
  let role := element.getAttr "role"
  let elementType := if role == some "form" then "Element with role=\"form\"" else "Form"
  let isVisible := !(isElementHidden element)
  let base := { baseResult tagName accessibleName (some isVisible) with role := role }
  if element.hasAttr "aria-labelledby" && truthy ann.hasBrokenAriaLabelledby then
    let ids := ann.brokenAriaLabelledbyIds.getD []
    return (isVisible, { base with
      brokenAriaLabelledby := some true,
      brokenAriaLabelledbyIds := some ids,
      result := "fail",
      description := elementType ++ " has aria-labelledby referencing non-existent IDs: \"" ++
        joinSep ", " ids ++ "\" - These referenced elements do not exist in the document. Fix these IDs or add an aria-label attribute" })
  else if element.hasAttr "aria-labelledby" && accessibleName == "" then
    return (isVisible, { base with
      result := "fail",
      description := elementType ++ " references an element with empty content via aria-labelledby - The referenced element exists but has no text content. Add text to the referenced element or use aria-label instead" })
  else if element.hasAttr "aria-label" && jsTrim (element.getAttrD "aria-label" "") == "" then
    return (isVisible, { base with
      result := "fail",
      description := elementType ++ " has empty aria-label attribute - This doesn't provide an accessible name. Add text to the aria-label or use aria-labelledby instead" })
  else if element.hasAttr "aria-label" && isPunctuation (element.getAttrD "aria-label" "") then
    return (isVisible, { base with
      result := "fail",
      description := elementType ++ " has punctuation-only aria-label \"" ++
        element.getAttrD "aria-label" "" ++
        "\" - Not meaningful to screen reader users. Use descriptive text instead" })
  else if accessibleName == "" then
    return (isVisible, { base with
      result := "fail",
      description := elementType ++ " is missing an accessible name - Essential for landmark navigation with screen readers. Add aria-label or aria-labelledby referencing a heading" })
  else if jsTrim accessibleName == "" then
    return (isVisible, { base with
      result := "fail",
      description := elementType ++ " has empty or whitespace-only accessible name - Not helpful for screen reader users. Add descriptive text to the aria-label" })
  else if isPunctuation accessibleName then
    return (isVisible, { base with
      result := "fail",
      description := elementType ++ " has punctuation-only accessible name \"" ++ accessibleName ++
        "\" - Not meaningful to screen reader users. Use descriptive text that indicates the form's purpose" })
  else if isFilenameInText accessibleName then
    return (isVisible, { base with
      result := "fail",
      description := elementType ++ " has a filename as its accessible name \"" ++ accessibleName ++
        "\" - Not helpful to screen reader users. Use descriptive text that indicates the form's purpose" })
  else if isUrlLike accessibleName then
    return (isVisible, { base with
      result := "fail",
      description := elementType ++ " has a URL-like string as its accessible name \"" ++ accessibleName ++
        "\" - Not helpful to screen reader users. Use descriptive text that indicates the form's purpose" })
  else if truthy ann.accessibleNameFromTitleOnly then
    return (isVisible, { base with
      result := "warn",
      description := elementType ++ " uses title attribute for its accessible name - Not recommended for accessibility. Title attributes may not be visible to all users and aren't consistently supported. Use aria-label or aria-labelledby instead",
      details := some titleOnlyDetails })
  else
    return (isVisible, { base with
      result := "pass",
      description := elementType ++ " has a proper accessible name" })

/-- `testForm(element)`: the decision chain with the final hidden-element
downgrade applied in place. -/
def testForm (doc : Node) (e : ECtx) (ann0 : Ann) : Except Unit TestResult := do
  let (isVisible, r) ← testFormCore doc e ann0
  return applyHiddenDowngrade isVisible r

/-- `document.querySelectorAll('header, [role="banner"]').length`. -/
def bannerCount (doc : Node) : Nat :=
  docCount doc (fun n => n.tagOf == "HEADER" || n.getAttr "role" == some "banner")

/-- `document.querySelectorAll('footer, [role="contentinfo"]').length`. -/
def contentinfoCount (doc : Node) : Nat :=
  docCount doc (fun n => n.tagOf == "FOOTER" || n.getAttr "role" == some "contentinfo")

/-- `document.querySelectorAll('main, [role="main"]').length`. -/
def mainLandmarkCount (doc : Node) : Nat :=
  docCount doc (fun n => n.tagOf == "MAIN" || n.getAttr "role" == some "main")

/-- `document.querySelectorAll('nav, [role="navigation"]').length`. -/
def navCount (doc : Node) : Nat :=
  docCount doc (fun n => n.tagOf == "NAV" || n.getAttr "role" == some "navigation")

/-- The details of the single-nav warning of `testLandmark`. -/
def navWarnDetails : String :=
  "While a single navigation landmark does not require an accessible name per WCAG, " ++
  "providing one improves user experience with screen readers. The default announcement of " ++
  "'navigation' is not as helpful as a descriptive name like 'Main Menu' or 'Site Navigation'."

/-- `testLandmark(element)`: the landmark decision chain.  This evaluator
applies no hidden-element downgrade and its result record carries no
`isVisible` field.  `.error ()` marks the source's throwing paths: the
dynamic multiple-instance selector built from the element's tag/role when
that selector is malformed, and `capitalizeFirstLetter(landmarkType)` when
`landmarkType` is `null` (a `TypeError` in JavaScript). -/
def testLandmark (doc : Node) (e : ECtx) (ann0 : Ann) : Except Unit TestResult := do
  let element := e.cur
  let (accessibleName, ann) ← computeAccessibleName doc e ann0
  let tagName := strLower element.tagOf
  let role := element.getAttr "role"
  let derived : Option String :=
    if tagName == "header" then some "banner"
    else if tagName == "footer" then some "contentinfo"
    else if tagName == "aside" then some "complementary"
    else if tagName == "nav" then some "navigation"
    else if tagName == "main" then some "main"
    else if tagName == "section" then some "region"
    else if tagName == "form" then some "form"
    else none
  let lt : Option String :=
    match role with
    | none => derived
    | some r => if r == "" then some (derived.getD "") else some r
  let base := { baseResult tagName accessibleName none with role := role }
  if (tagName == "header" || lt == some "banner") &&
      bannerCount doc ≤ 1 && accessibleName == "" then
    return { base with
      result := "pass",
      description := "Single banner landmark doesn't require an accessible name" }
  else if (tagName == "footer" || lt == some "contentinfo") &&
      contentinfoCount doc ≤ 1 && accessibleName == "" then
    return { base with
      result := "pass",
      description := "Single contentinfo landmark doesn't require an accessible name" }
  else if (tagName == "main" || lt == some "main") &&
      mainLandmarkCount doc ≤ 1 && accessibleName == "" then
    return { base with
      result := "pass",
      description := "Single main landmark doesn't require an accessible name" }
  else if (tagName == "nav" || lt == some "navigation") &&
      navCount doc ≤ 1 && accessibleName == "" then
    return { base with
      result := "warn",
      description := "Single navigation landmark should have an accessible name for better user experience",
      details := some navWarnDetails }
  else if accessibleName == "" then
    if lt == some "form" then
      return { base with
        result := "fail",
        description := "Form is missing an accessible name - Essential for landmark navigation with screen readers. Add aria-label, aria-labelledby referencing a heading, or use a legend element with a fieldset" }
    else if lt == some "region" then
      return { base with
        result := "fail",
        description := "Region landmark needs an accessible name - Without a name, users cannot distinguish between regions. Add aria-label or aria-labelledby referencing a heading" }
    else if !(validCssDqString ((lt).getD "null")) || !(validCssIdent tagName) then
      .error ()
    else
      let cnt := docCount doc (fun n =>
        n.getAttr "role" == some ((lt).getD "null") || strLower n.tagOf == tagName)
      if cnt > 1 then
        match lt with
        | none => .error ()
        | some l =>
          return { base with
            result := "fail",
            description := capitalizeFirstLetter l ++ " landmark (" ++ tagName ++
              ") requires a name when multiple instances exist - Users need to distinguish between multiple landmarks of the same type. Add aria-label or aria-labelledby referencing a heading" }
      else
        match lt with
        | none => .error ()
        | some l =>
          return { base with
            result := "pass",
            description := capitalizeFirstLetter l ++ " landmark doesn't require an accessible name" }
  else if jsTrim accessibleName == "" then
    match lt with
    | none => .error ()
    | some l =>
      return { base with
        result := "fail",
        description := capitalizeFirstLetter l ++ " landmark has empty or whitespace-only accessible name" }
  else if lt == some "form" && isPunctuation accessibleName then
    return { base with
      result := "fail",
      description := "Form has only punctuation as its accessible name: \"" ++ accessibleName ++
        "\" - Punctuation alone is not meaningful to screen reader users. Add a descriptive accessible name that explains the form's purpose" }
  else if lt == some "form" && isFilenameInText accessibleName then
    return { base with
      result := "fail",
      description := "Form has a filename as its accessible name: \"" ++ accessibleName ++
        "\" - Filenames are not helpful to users. Add a descriptive accessible name that explains the form's purpose" }
  else if lt == some "form" && isUrlLike accessibleName then
    return { base with
      result := "fail",
      description := "Form has a URL-like string as its accessible name: \"" ++ accessibleName ++
        "\" - URLs are not helpful to users. Add a descriptive accessible name that explains the form's purpose" }
  else if role == some "form" && isPunctuation accessibleName then
    return { base with
      result := "fail",
      description := "Form (role=\"form\") has only punctuation as its accessible name: \"" ++ accessibleName ++
        "\" - Punctuation alone is not meaningful to screen reader users. Add a descriptive accessible name that explains the form's purpose" }
  else if role == some "form" && isFilenameInText accessibleName then
    return { base with
      result := "fail",
      description := "Form (role=\"form\") has a filename as its accessible name: \"" ++ accessibleName ++
        "\" - Filenames are not helpful to users. Add a descriptive accessible name that explains the form's purpose" }
  else if role == some "form" && isUrlLike accessibleName then
    return { base with
      result := "fail",
      description := "Form (role=\"form\") has a URL-like string as its accessible name: \"" ++ accessibleName ++
        "\" - URLs are not helpful to users. Add a descriptive accessible name that explains the form's purpose" }
  else if truthy ann.accessibleNameFromTitleOnly then
    match lt with
    | none => .error ()
    | some l =>
      return { base with
        result := "warn",
        description := capitalizeFirstLetter l ++ " landmark uses title attribute for its accessible name - Not recommended for accessibility. Title attributes may not be visible to all users and aren't consistently supported. Use aria-label or aria-labelledby instead",
        details := some titleOnlyDetails }
  else
    match lt with
    | none => .error ()
    | some l =>
      return { base with
        result := "pass",
        description := capitalizeFirstLetter l ++ " landmark has an accessible name" }

/-- `testMedia(element)`: audio/video naming; no visibility handling and no
`isVisible` field in the result record. -/
def testMedia (doc : Node) (e : ECtx) (ann0 : Ann) : Except Unit TestResult := do
  let element := e.cur
  let (accessibleName, _ann) ← computeAccessibleName doc e ann0
  let tagName := strLower element.tagOf
  let isAriaVideo := element.getAttr "role" == some "video"
  let elementType := if isAriaVideo then "ARIA video" else tagName
  let base := { baseResult tagName accessibleName none with
                  role := if isAriaVideo then some "video" else none }
  if accessibleName == "" then
    return { base with
      result := "fail",
      description := capitalizeFirstLetter elementType ++ " is missing an accessible name" }
  else if jsTrim accessibleName == "" then
    return { base with
      result := "fail",
      description := capitalizeFirstLetter elementType ++ " has empty or whitespace-only accessible name" }
  else
    return { base with
      result := "pass",
      description := capitalizeFirstLetter elementType ++ " has an accessible name" }

/-- Apply a decided `resultObj` copying details (but not title) through —
the merge of `testImageInput`. -/
def applyResultObjD (isVisible : Bool) (base : TestResult) (o : RObj) : TestResult :=
  if !isVisible && o.result == "fail" then
    { base with
                result := "warn", description := o.description ++ " (hidden element)",
                details := some hiddenDetails }
  else
    { base with
                result := o.result, description := o.description,
                details := (match o.details with | some d => some d | none => base.details) }

/-- The value of a run of decimal digits. -/
def digitsVal (ds : List Char) : Nat :=
  ds.foldl (fun a c => a * 10 + (c.toNat - '0'.toNat)) 0

/-- JavaScript `parseInt(s)` in base 10: leading whitespace, optional
sign, a run of digits; `none` is `NaN`.  (The hexadecimal `0x` prefix of
`parseInt` is not modelled; no attribute the source parses uses it.) -/
def jsParseInt (s : String) : Option Int :=
  let cs := s.toList.dropWhile Char.isWhitespace
  let signed : Int × List Char :=
    match cs with
    | '-' :: r => (-1, r)
    | '+' :: r => (1, r)
    | r => (1, r)
  let ds := signed.2.takeWhile Char.isDigit
  if ds.isEmpty then none else some (signed.1 * (digitsVal ds : Int))

/-- JavaScript `parseFloat(s)` over sign, digits and a decimal point, as an
exact rational; `none` is `NaN`.  (Exponent notation is not modelled, and
the host's binary floating point is replaced by exact rationals — the
values feed display strings only, never verdicts.) -/
def jsParseFloat (s : String) : Option ℚ :=
  let cs := s.toList.dropWhile Char.isWhitespace
  let signed : ℚ × List Char :=
    match cs with
    | '-' :: r => (-1, r)
    | '+' :: r => (1, r)
    | r => (1, r)
  let ip := signed.2.takeWhile Char.isDigit
  let rest := signed.2.drop ip.length
  let fp :=
    match rest with
    | '.' :: r => r.takeWhile Char.isDigit
    | _ => []
  if ip.isEmpty && fp.isEmpty then none
  else some (signed.1 * ((digitsVal ip : ℚ) + (digitsVal fp : ℚ) / ((10 : ℚ) ^ fp.length)))

/-- JavaScript `Math.round`: half rounds toward positive infinity. -/
def jsRoundRat (q : ℚ) : Int :=
  ⌊q + 1 / 2⌋

/-- `testImage(element)`: decorative handling first (no visibility
downgrade on those early returns), then the alt-text quality chain with
the hidden-element downgrade; the merge copies only verdict and
description. -/
def testImage (doc : Node) (e : ECtx) (ann0 : Ann) : Except Unit TestResult := do
  let element := e.cur
  let (accessibleName, _ann) ← computeAccessibleName doc e ann0
  let isVisible := !(isElementHidden element)
  let isImageMap := element.hasAttr "usemap" && jsTrim (element.getAttrD "usemap" "") ≠ ""
  let base := { baseResult (strLower element.tagOf) accessibleName (some isVisible) with
                  isImageMap := some isImageMap }
  let hasEmptyAlt := element.hasAttr "alt" && element.getAttrD "alt" "" == ""
  let isDecorative := hasEmptyAlt ||
    (element.hasAttr "aria-hidden" && element.getAttrD "aria-hidden" "" == "true") ||
    (element.hasAttr "role" && element.getAttrD "role" "" == "presentation") ||
    (element.hasAttr "role" && element.getAttrD "role" "" == "none")
  if isDecorative then
    if accessibleName == "" then
      return { base with
               result := "pass",
               description := "Decorative image correctly has empty alt text" }
    else
      return { base with
               result := "warn",
               description := "Decorative image should have empty alt text" }
  else if hasEmptyAlt then
    return { base with
             result := "pass",
             description := "Decorative image correctly has empty alt text" }
  else
    let cleared := { base with accessibleName := "" }
    let decided : TestResult × RObj :=
      if accessibleName == "" then
        (base,
         if isImageMap then
           mkRD "fail"
             "Image map is missing an accessible name - Screen readers can't provide context for the interactive areas. Add descriptive alt text that explains the map's purpose and available options"
             "Image maps need descriptive alt text that provides context for the interactive areas within them. Without it, screen reader users won't understand what the map represents."
         else
           mkR "fail" "Image is missing an accessible name (alt text) - Invisible to screen reader users. Add descriptive alt text that conveys purpose or content")
      else if isFilenameInText accessibleName then
        (cleared,
         if isImageMap then
           mkRD "fail"
             "Image map has a filename as its accessible name - Not descriptive of its purpose. Add alt text that explains the map's purpose and available interactive options"
             "Image maps should have descriptive alt text that explains their purpose and provides context for the interactive areas."
         else
           mkR "fail" "Image has a filename as its accessible name - Filenames are not meaningful to users. Replace with descriptive alt text that conveys image content or purpose")
      else if jsTrim accessibleName == "" then
        (cleared,
         if isImageMap then
           mkRD "fail"
             "Image map has empty accessible name - Screen readers can't provide context for the interactive areas. Add descriptive alt text that explains the map's purpose"
             "Image maps should never be marked as decorative since they contain interactive elements."
         else
           mkRD "fail"
             "Image has whitespace-only alt text - This effectively creates a blank accessible name. Use empty alt attribute (alt=\"\") for decorative images or add descriptive alt text for meaningful images"
             "Whitespace-only alt text (alt=\" \") is different from empty alt text (alt=\"\"). Screen readers will still try to announce this image but won't have any content to read. If the image is decorative, use alt=\"\"; if it's meaningful, provide descriptive alt text.")
      else if isPunctuation accessibleName then
        (cleared,
         if isImageMap then
           mkRD "fail"
             "Image map has only punctuation as its accessible name - Not meaningful to screen reader users. Add descriptive alt text that explains the map's purpose"
             "Punctuation characters don't convey meaning about the purpose of an image map or provide context for its interactive areas."
         else
           mkR "fail" "Image has only punctuation as its accessible name - Punctuation alone is not meaningful. Add descriptive alt text that conveys image content or purpose")
      else if containsSub accessibleName "<" && containsSub accessibleName ">" then
        (cleared,
         if isImageMap then
           mkRD "fail" "HTML markup in image map alt text"
             "HTML tags in alt text are not rendered properly by screen readers and can cause confusion. Use plain text without markup in alt text."
         else
           mkRD "fail" "HTML markup in alt text"
             "HTML tags in alt text are not rendered properly by screen readers and can cause confusion. Use plain text without markup in alt text.")
      else if strStartsWith (strLower accessibleName) "image " ||
              containsSub (strLower accessibleName) "image of" then
        (base,
         ⟨"warn", "Redundant 'image' in alt text",
          some "Screen readers already announce the element as an image, so including 'image' or 'image of' in the accessible name is redundant and creates a poor user experience.",
          some "Redundant alt text"⟩)
      else if isGenericLabel accessibleName then
        (base,
         ⟨"warn", "Generic alt text \"" ++ accessibleName ++ "\"",
          some "Generic terms don't adequately describe the content or purpose of an image to screen reader users.",
          some "Generic image description"⟩)
      else if isGenericLabel accessibleName && isImageMap then
        (base,
         ⟨"warn",
          "Image map has generic alt text \"" ++ accessibleName ++ "\" - Not sufficiently descriptive. Add alt text that explains the map's purpose and available interactive options",
          some "Image maps need descriptive alt text that explains their purpose and provides context for the contained interactive areas.",
          some "Generic image map description"⟩)
      else if jsStrLen accessibleName < 10 && isImageMap then
        (base,
         ⟨"warn",
          "Image map has a very short accessible name \"" ++ accessibleName ++ "\" - May not provide sufficient context. Consider adding more descriptive alt text that explains the map's purpose and available options",
          some "Image maps typically benefit from more detailed descriptions to provide context for the interactive areas.",
          some "Brief image map description"⟩)
      else
        (base,
         mkR "pass" (if isImageMap then "Image map has an appropriate accessible name"
                     else "Image has a descriptive accessible name"))
    return applyResultObj isVisible decided.1 decided.2

/-- `testImageInput(element)`: the `input[type="image"]` alt-attribute
chain; the merge copies details through. -/
def testImageInput (doc : Node) (e : ECtx) (ann0 : Ann) : Except Unit TestResult := do
  let element := e.cur
  let (accessibleName, _ann) ← computeAccessibleName doc e ann0
  let alt := element.getAttrD "alt" ""
  let hasAlt := element.hasAttr "alt"
  let isVisible := !(isElementHidden element)
  let base := { baseResult "input" accessibleName (some isVisible) with inputType := some "image" }
  let o : RObj :=
    if !hasAlt then
      mkRD "fail"
        "Image input is missing alt attribute - Images used as buttons must have descriptive alt text. Add an alt attribute that describes the action or purpose of the button"
        "Image inputs are functional controls that need descriptive alt text that explains what action will occur when the button is activated. Missing alt text prevents screen reader users from understanding the button's purpose."
    else if alt == "" then
      mkRD "fail"
        "Image input has empty alt attribute - Functional images like submit buttons must have descriptive alt text, not empty alt attributes. Add descriptive alt text that explains the button's purpose"
        "Empty alt attributes (alt=\"\") are used to hide decorative images from screen readers. Since image inputs are functional controls, they should never have empty alt text."
    else if jsTrim alt == "" then
      mkRD "fail"
        "Image input has whitespace-only alt text - This doesn't provide an accessible name. Add descriptive alt text that explains the button's purpose"
        "Alt text consisting only of whitespace characters is not announced by screen readers, making the control unusable for screen reader users."
    else if isPunctuation alt then
      mkRD "fail"
        ("Image input has punctuation-only alt text \"" ++ alt ++ "\" - Not meaningful to screen reader users. Add descriptive alt text that explains the button's purpose")
        "Alt text consisting only of punctuation characters doesn't convey the purpose of the control to screen reader users."
    else if isGenericLabel alt then
      ⟨"warn",
       "Image input has generic alt text \"" ++ alt ++ "\" - Not descriptive of its function. Add alt text that describes what action the button performs (e.g., \"Submit form\", \"Search\", \"Add to cart\")",
       some "Generic terms like 'button' or 'image' don't explain what the button does when activated. Alt text should describe the action that will occur when the button is used.",
       some "Generic accessible name"⟩
    else if isFilenameInText alt then
      mkRD "fail"
        ("Image input has a filename as alt text \"" ++ alt ++ "\" - Not descriptive of its function. Add alt text that describes what action the button performs")
        "Filenames don't convey the purpose of a control to users. Alt text should describe what the button does when activated, not technical details about the image file."
    else
      mkR "pass" "Image input has appropriate alt text"
  return applyResultObjD isVisible base o

/-- `testSVGImage(element)`: the second (effective) definition in the
source file — SVG `role="img"` naming with title-element inspection;
decorative and broken-reference branches return early; the main merge
copies details and title through. -/
def testSVGImage (doc : Node) (e : ECtx) (ann0 : Ann) : Except Unit TestResult := do
  let element := e.cur
  let (accessibleName, ann) ← computeAccessibleName doc e ann0
  let isVisible := !(isElementHidden element)
  let titleElement := element.querySelector (fun n => n.tagOf == "TITLE")
  let hasTitle := titleElement.isSome
  let titleContent : Option String := titleElement.map (·.textContent)
  let base := { baseResult (strLower element.tagOf) accessibleName (some isVisible) with
                  hasTitleElement := some hasTitle,
                  titleContent := some titleContent }
  let isDecorative :=
    (element.hasAttr "aria-hidden" && element.getAttrD "aria-hidden" "" == "true") ||
    (element.hasAttr "role" && element.getAttrD "role" "" == "presentation") ||
    (element.hasAttr "role" && element.getAttrD "role" "" == "none")
  if isDecorative then
    if accessibleName == "" then
      return { base with
               result := "pass",
               description := "Decorative SVG image correctly has no accessible name" }
    else
      return { base with
               result := "warn",
               description := "Decorative SVG image (with role='presentation' or 'none') should not have an accessible name" }
  else if element.hasAttr "aria-labelledby" && truthy ann.hasBrokenAriaLabelledby then
    let ids := ann.brokenAriaLabelledbyIds.getD []
    let base := { base with brokenAriaLabelledby := some true, brokenAriaLabelledbyIds := some ids }
    let o := mkRD "fail" "Broken aria-labelledby references"
      "When aria-labelledby references IDs that don't exist in the document, screen readers cannot provide an accessible name for the element."
    if !isVisible && o.result == "fail" then
      return { base with
               result := "warn", description := o.description ++ " (hidden element)",
               details := some hiddenDetails }
    else
      return { base with result := o.result, description := o.description, details := o.details }
  else
    let decided : TestResult × RObj :=
      if accessibleName == "" then
        (base, mkRD "fail" "Missing accessible name"
          "SVG images with role=\"img\" need an accessible name to make their content available to screen reader users. Add a <title> element as the first child of the SVG, or use aria-label or aria-labelledby attributes.")
      else if jsTrim accessibleName == "" then
        (base, mkRD "fail" "Whitespace-only accessible name"
          "Accessible names consisting only of whitespace characters are not announced by screen readers, making the image inaccessible to screen reader users.")
      else if isPunctuation accessibleName then
        (base, mkRD "fail" "Punctuation-only accessible name"
          "Accessible names consisting only of punctuation characters don't provide meaningful information to screen reader users.")
      else if containsSub accessibleName "<" && containsSub accessibleName ">" then
        ({ base with accessibleName := "" },
         mkRD "fail" "HTML markup in SVG accessible name"
          "HTML tags in accessible names are not rendered properly by screen readers and can cause confusion. Use plain text without markup in accessible names.")
      else if isFilenameInText accessibleName then
        (base, mkRD "fail" "Filename as accessible name"
          "Filenames do not adequately describe the content or purpose of an image to screen reader users.")
      else if isGenericLabel accessibleName then
        (base, ⟨"warn", "Generic accessible name",
          some "Generic terms don't adequately describe the content or purpose of an image to screen reader users.",
          some "Generic image description"⟩)
      else if hasTitle && (titleContent.getD "") ≠ "" && jsTrim (titleContent.getD "") == "" &&
              accessibleName ≠ "" then
        (base, ⟨"warn", "Empty title element with alternative accessible name",
          some "Having an empty <title> element along with other accessible name sources can create confusion. It's better to either use the <title> element properly or remove it.",
          some "Empty title element"⟩)
      else
        (base, mkR "pass" "SVG image has an appropriate accessible name")
    return applyResultObjFull isVisible decided.1 decided.2

/-- `testArea(element)`: image-map area naming; the broken-reference branch
returns early with a verdict/description-only merge, the main merge copies
details and title through. -/
def testArea (doc : Node) (e : ECtx) (ann0 : Ann) : Except Unit TestResult := do
  let element := e.cur
  let (accessibleName, ann) ← computeAccessibleName doc e ann0
  let isVisible := !(isElementHidden element)
  let base := baseResult "area" accessibleName (some isVisible)
  if element.hasAttr "aria-labelledby" && truthy ann.hasBrokenAriaLabelledby then
    let ids := ann.brokenAriaLabelledbyIds.getD []
    let base := { base with brokenAriaLabelledby := some true, brokenAriaLabelledbyIds := some ids }
    let o := mkR "fail" ("Image map area has aria-labelledby referencing non-existent IDs: \"" ++
      joinSep ", " ids ++ "\" - Users cannot determine the area's purpose")
    return applyResultObj isVisible base o
  else
    let o : RObj :=
      if accessibleName == "" then
        mkRD "fail"
          "Image map area is missing an accessible name - Users cannot determine the area's purpose. Add alt text or aria-label to describe the area's purpose"
          "Image map areas without accessible names prevent screen reader users from understanding the purpose of each clickable region."
      else if jsTrim accessibleName == "" then
        mkRD "fail"
          "Image map area has empty or whitespace-only accessible name - Not meaningful to screen reader users. Add descriptive alt text or aria-label"
          "Accessible names consisting only of whitespace characters are not announced by screen readers, making the area unusable for screen reader users."
      else if isPunctuation accessibleName then
        mkRD "fail"
          ("Image map area has punctuation-only accessible name \"" ++ accessibleName ++ "\" - Not meaningful to screen reader users. Add descriptive alt text or aria-label")
          "Accessible names consisting only of punctuation characters don't convey the purpose of the area to screen reader users."
      else if isFilenameInText accessibleName then
        mkRD "fail"
          ("Image map area has a filename as accessible name \"" ++ accessibleName ++ "\" - Not descriptive of its purpose. Add descriptive alt text or aria-label")
          "Filenames don't convey the purpose of a clickable area to users. The accessible name should describe the area's destination or purpose."
      else if isGenericLabel accessibleName then
        ⟨"warn",
         "Image map area has generic accessible name \"" ++ accessibleName ++ "\" - Not descriptive of its purpose. Add more descriptive alt text or aria-label",
         some "Generic terms don't adequately describe the purpose or destination of the area. The accessible name should be more specific.",
         some "Generic accessible name"⟩
      else if isGenericText accessibleName then
        ⟨"warn",
         "Image map area has generic text \"" ++ accessibleName ++ "\" - Not descriptive of its destination. Add more specific text that indicates the destination",
         some "Generic phrases like 'click here' or 'read more' don't indicate where the link will take users. This makes navigation difficult for screen reader users who often navigate by scanning lists of links.",
         some "Generic link text"⟩
      else if truthy ann.accessibleNameFromTitleOnly then
        ⟨"warn",
         "Image map area uses only title attribute for accessible name \"" ++ accessibleName ++ "\" - Screen readers handle title inconsistently. Use alt attribute or aria-label instead",
         some "The title attribute is not reliably announced by all screen readers and is not visible on mobile devices. It's better to use alt or aria-label for accessible names.",
         some "Relies on title attribute"⟩
      else
        mkR "pass" "Image map area has an appropriate accessible name"
    return applyResultObjFull isVisible base o

/-- `testLink(element)`: link naming, decided in place on the record; the
broken-reference branch returns early appending the hidden note to its
details, the main path ends with the in-place hidden downgrade. -/
def testLink (doc : Node) (e : ECtx) (ann0 : Ann) : Except Unit TestResult := do
  let element := e.cur
  let (accessibleName, ann) ← computeAccessibleName doc e ann0
  let isAriaLink := element.getAttr "role" == some "link"
  let elementType := if isAriaLink then "ARIA link" else "Link"
  let isVisible := !(isElementHidden element)
  let base := { baseResult (strLower element.tagOf) accessibleName (some isVisible) with
                  role := if isAriaLink then some "link" else none }
  if element.hasAttr "aria-labelledby" && truthy ann.hasBrokenAriaLabelledby then
    let ids := ann.brokenAriaLabelledbyIds.getD []
    let r := { base with
      brokenAriaLabelledby := some true,
      brokenAriaLabelledbyIds := some ids,
      result := "fail",
      description := "Broken aria-labelledby attribute",
      details := some ("The aria-labelledby attribute references IDs that don't exist in the document: \"" ++
        joinSep ", " ids ++ "\". This causes the element's accessible name to fall back to text content or other sources.") }
    if !isVisible then
      return { r with
        result := "warn",
        description := r.description ++ " (hidden element)",
        details := some ((r.details.getD "") ++ "\n\n" ++ hiddenDetails) }
    else
      return r
  else
    let containsImage := (element.querySelector (fun n => n.tagOf == "IMG")).isSome
    let imageWithAlt := element.querySelector (fun n =>
      n.tagOf == "IMG" &&
      (match n.getAttr "alt" with
       | some a => a ≠ ""
       | none => false))
    let r : TestResult :=
      if accessibleName == "" then
        if containsImage && imageWithAlt.isNone then
          { base with
            result := "fail",
            description := elementType ++ " contains an image without alt text - Screen readers can't determine the link's purpose. Add alt text to the image or descriptive text to the link" }
        else
          { base with
            result := "fail",
            description := elementType ++ " is missing an accessible name - Provides no information to screen reader users. Add descriptive text content, aria-label, or aria-labelledby" }
      else if jsTrim accessibleName == "" then
        { base with
          result := "fail",
          description := elementType ++ " has empty or whitespace-only accessible name - Not meaningful to screen reader users. Add descriptive text that indicates where the link leads" }
      else if isPunctuation accessibleName then
        { base with
          result := "fail",
          description := "Punctuation-only accessible name",
          details := some "Accessible names consisting only of punctuation characters are not meaningful to screen reader users. Use descriptive text that indicates where the link leads." }
      else if isIconOnly element accessibleName then
        { base with
          result := "fail",
          description := "Icon-only link",
          details := some ("This link appears to contain only an icon or symbol (\"" ++ accessibleName ++
            "\") without descriptive text. Add aria-label with descriptive text that explains the link's destination or purpose.") }
      else if isGenericLinkText accessibleName then
        { base with
          result := "warn",
          description := "Generic link text",
          details := some ("The text \"" ++ accessibleName ++
            "\" is not descriptive of the link's purpose. This makes navigation difficult for screen reader users who browse by link lists. Replace with text that clearly describes the link's destination.") }
      else if isUrlLike accessibleName then
        { base with
          result := "warn",
          description := "URL as text",
          details := some "URLs as link text may be difficult for screen reader users to listen to. Consider using descriptive text that explains the link's purpose instead." }
      else
        let hasImgWithMatchingAlt := containsImage && imageWithAlt.isSome &&
          (match imageWithAlt with
           | some img => img.getAttr "alt" == some accessibleName
           | none => false)
        if hasImgWithMatchingAlt then
          { base with
            result := "pass",
            description := elementType ++ " with image has a descriptive accessible name from alt text" }
        else
          { base with
            result := "pass",
            description := elementType ++ " has a descriptive accessible name" }
    return applyHiddenDowngrade isVisible r

/-- The hidden-element detail string of `testIframe` (its wording differs
from the shared one: it mentions zero dimensions). -/
def hiddenDetailsIframe : String :=
  "This iframe is currently hidden (display: none, visibility: hidden, zero dimensions, or opacity: 0). " ++
  "This is reported as a warning rather than an error because the element is not visible " ++
  "to users, but would fail accessibility requirements if it becomes visible."

/-- `testIframe(element)`: iframe title naming; the merge copies only
verdict and description, and the hidden detail string mentions zero
dimensions. -/
def testIframe (doc : Node) (e : ECtx) (ann0 : Ann) : Except Unit TestResult := do
  let element := e.cur
  let (accessibleName, ann) ← computeAccessibleName doc e ann0
  let isVisible := !(isElementHidden element)
  let base := baseResult (strLower element.tagOf) accessibleName (some isVisible)
  let decided : TestResult × RObj :=
    if element.hasAttr "aria-labelledby" && truthy ann.hasBrokenAriaLabelledby then
      let ids := ann.brokenAriaLabelledbyIds.getD []
      ({ base with brokenAriaLabelledby := some true, brokenAriaLabelledbyIds := some ids },
       mkR "fail" ("iframe has aria-labelledby referencing non-existent IDs: \"" ++
         joinSep ", " ids ++ "\""))
    else if accessibleName == "" then
      (base, mkR "fail" "iframe is missing an accessible name - Screen readers announce frames with no context. Add a title attribute that describes the frame's purpose or content")
    else if jsTrim accessibleName == "" then
      (base, mkR "fail" "iframe has empty or whitespace-only title attribute - add meaningful description")
    else if isPunctuation accessibleName then
      (base, mkRD "fail"
        ("iframe has punctuation-only title \"" ++ accessibleName ++ "\" - Screen readers may not announce this. Add a descriptive title that explains the frame's purpose")
        "Titles consisting only of punctuation characters are not meaningful to screen reader users and may not be announced at all by some assistive technologies.")
    else if jsStrLen accessibleName < 5 then
      (base, mkR "warn" ("iframe title \"" ++ accessibleName ++ "\" is too short - use a more descriptive title"))
    else
      (base, mkR "pass" "iframe has an accessible name")
  if !isVisible && decided.2.result == "fail" then
    return { decided.1 with
             result := "warn",
             description := decided.2.description ++ " (hidden element)",
             details := some hiddenDetailsIframe }
  else
    return { decided.1 with result := decided.2.result, description := decided.2.description }

/-- `testDialog(element)`: dialog naming with redundant-heading detection;
its hidden downgrade appends the hidden note to any existing details. -/
def testDialog (doc : Node) (e : ECtx) (ann0 : Ann) : Except Unit TestResult := do
  let element := e.cur
  let (accessibleName, ann) ← computeAccessibleName doc e ann0
  let isVisible := !(isElementHidden element)
  let base := { baseResult (strLower element.tagOf) accessibleName (some isVisible) with
                  role := some "dialog" }
  let r : TestResult :=
    if element.hasAttr "aria-labelledby" && truthy ann.hasBrokenAriaLabelledby then
      let ids := ann.brokenAriaLabelledbyIds.getD []
      { base with
        brokenAriaLabelledby := some true,
        brokenAriaLabelledbyIds := some ids,
        result := "fail",
        description := "Broken aria-labelledby attribute",
        details := some ("The dialog has an aria-labelledby attribute that references IDs that don't exist in the document: \"" ++
          joinSep ", " ids ++ "\". This causes the dialog's accessible name to be missing, making it difficult for screen reader users to identify the dialog's purpose.") }
    else if accessibleName == "" then
      { base with
        result := "fail",
        description := "Dialog missing accessible name",
        details := some "Dialogs require an accessible name via aria-label or aria-labelledby for screen reader users to understand the dialog's purpose. This is especially important for modal dialogs that capture focus." }
    else if jsTrim accessibleName == "" then
      { base with
        result := "fail",
        description := "Dialog has empty accessible name",
        details := some "The dialog has an accessible name that is empty or contains only whitespace. This doesn't provide any meaningful information to screen reader users." }
    else if isPunctuation accessibleName then
      { base with
        result := "fail",
        description := "Punctuation-only accessible name",
        details := some ("The dialog has an accessible name consisting only of punctuation characters (\"" ++
          accessibleName ++ "\"). This doesn't provide meaningful information to screen reader users.") }
    else
      let headings := element.querySelectorAll (fun n =>
        n.tagOf == "H1" || n.tagOf == "H2" || n.tagOf == "H3" ||
        n.tagOf == "H4" || n.tagOf == "H5" || n.tagOf == "H6")
      let hasRedundantHeading := !headings.isEmpty && element.hasAttr "aria-label" &&
        headings.any (fun heading => jsTrim heading.textContent == accessibleName)
      if hasRedundantHeading then
        { base with
          result := "warn",
          description := "Dialog has redundant accessible name",
          details := some ("The dialog's aria-label \"" ++ accessibleName ++
            "\" duplicates visible heading text. This creates redundant announcements for screen reader users. Consider using aria-labelledby to reference the heading instead of duplicating the text in aria-label.") }
      else
        { base with
          result := "pass",
          description := "Dialog has appropriate accessible name" }
  if !isVisible && r.result == "fail" then
    return { r with
             result := "warn",
             description := r.description ++ " (hidden element)",
             details := some ((r.details.getD "") ++ "\n\n" ++ hiddenDetails) }
  else
    return r

/-- The flags `getLabelledbyElementsInfo` collects (its list of referenced
elements is never read by the source and is omitted). -/
structure LabelledbyInfo where
  hasEmptyAccessibleName : Bool
  hasAriaHiddenContentOnly : Bool
  hasNoAccessibleName : Bool
  hasNonExistentIds : Bool
deriving DecidableEq, Repr

/-- The id loop of `getLabelledbyElementsInfo`: falsy ids are skipped,
non-existent ids set a flag, and each resolved element's own accessible
name (a recursive resolution, which can throw) classifies it. -/
def labelledbyInfoLoop (doc : Node) : List String → LabelledbyInfo → Except Unit LabelledbyInfo
  | [], acc => .ok acc
  | idv :: rest, acc =>
    if idv == "" then labelledbyInfoLoop doc rest acc
    else
      match getElementByIdCtx doc idv with
      | none => labelledbyInfoLoop doc rest { acc with hasNonExistentIds := true }
      | some refCtx => do
        let (accessibleName, _) ← computeAccessibleName doc refCtx Ann.empty
        let hasHiddenContent := hasAriaHiddenContent refCtx.cur
        let acc :=
          if accessibleName ≠ "" && jsTrim accessibleName == "" then
            { acc with hasEmptyAccessibleName := true }
          else acc
        let acc := if accessibleName == "" then { acc with hasNoAccessibleName := true } else acc
        let acc :=
          if accessibleName == "" && hasHiddenContent then
            { acc with hasAriaHiddenContentOnly := true }
          else acc
        labelledbyInfoLoop doc rest acc

/-- `getLabelledbyElementsInfo(element)`. -/
def getLabelledbyElementsInfo (doc : Node) (element : Node) : Except Unit LabelledbyInfo :=
  if !(element.hasAttr "aria-labelledby") then .ok ⟨false, false, false, false⟩
  else labelledbyInfoLoop doc (jsSplitWs (element.getAttrD "aria-labelledby" "")) ⟨false, false, false, false⟩

/-- The id loop of `tabpanelReferencesEmptyName`. -/
def tabpanelRefLoop (doc : Node) : List String → Except Unit Bool
  | [] => .ok false
  | idv :: rest =>
    if idv == "" then tabpanelRefLoop doc rest
    else
      match getElementByIdCtx doc idv with
      | none => tabpanelRefLoop doc rest
      | some refCtx => do
        let (accessibleName, _) ← computeAccessibleName doc refCtx Ann.empty
        let hasHiddenContent := hasAriaHiddenContent refCtx.cur
        if accessibleName == "" && hasHiddenContent then return true
        else if accessibleName == "" then return true
        else if accessibleName ≠ "" && jsTrim accessibleName == "" then return true
        else tabpanelRefLoop doc rest

/-- `tabpanelReferencesEmptyName(element)`: whether some element referenced
by the tabpanel's `aria-labelledby` has no, an empty, or an
aria-hidden-only accessible name. -/
def tabpanelReferencesEmptyName (doc : Node) (element : Node) : Except Unit Bool :=
  if !(element.hasAttr "aria-labelledby") then .ok false
  else tabpanelRefLoop doc (jsSplitWs (element.getAttrD "aria-labelledby" ""))

/-- `testAriaWidget(element)`: generic ARIA-widget naming with the special
tab and tabpanel checks; the descriptions that call
`capitalizeFirstLetter(role)` throw (`.error ()`) when the `role`
attribute is absent (`null`), as the source would. -/
def testAriaWidget (doc : Node) (e : ECtx) (ann0 : Ann) : Except Unit TestResult := do
  let element := e.cur
  let (accessibleName, ann) ← computeAccessibleName doc e ann0
  let role := element.getAttr "role"
  let roleStr := role.getD "null"
  let isVisible := !(isElementHidden element)
  let base := { baseResult (strLower element.tagOf) accessibleName (some isVisible) with
                  role := role }
  let roleCap : Except Unit String :=
    match role with
    | some r => .ok (capitalizeFirstLetter r)
    | none => .error ()
  let r ←
    if element.hasAttr "aria-labelledby" && truthy ann.hasBrokenAriaLabelledby then do
      let ids := ann.brokenAriaLabelledbyIds.getD []
      let cap ← roleCap
      pure { base with
        brokenAriaLabelledby := some true,
        brokenAriaLabelledbyIds := some ids,
        result := "fail",
        description := cap ++ " widget has aria-labelledby referencing non-existent IDs: \"" ++
          joinSep ", " ids ++ "\" - fix these IDs or use aria-label instead" }
    else if accessibleName == "" then do
      let cap ← roleCap
      let d :=
        if role == some "checkbox" || role == some "radio" || role == some "switch" then
          cap ++ " is missing an accessible name - Screen reader users cannot identify its purpose. Add aria-label, aria-labelledby, or wrapped text content"
        else if role == some "combobox" || role == some "textbox" || role == some "listbox" then
          cap ++ " control needs an accessible name - Screen reader users cannot identify its purpose. Add aria-label, aria-labelledby, or a properly associated label"
        else if role == some "tab" || role == some "tabpanel" then
          cap ++ " requires a descriptive accessible name - Needed for navigation and orientation. Add aria-label or aria-labelledby referencing a heading"
        else if role == some "menu" || role == some "menuitem" then
          cap ++ " needs text content or an aria-label for proper identification - Menu items require descriptive names for screen reader users to navigate menus effectively"
        else
          cap ++ " widget is missing an accessible name - Screen reader users cannot identify its purpose. Add aria-label or aria-labelledby"
      pure { base with result := "fail", description := d }
    else if jsTrim accessibleName == "" then do
      let cap ← roleCap
      pure { base with
        result := "fail",
        description := cap ++ " widget has empty or whitespace-only accessible name - add meaningful text" }
    else if isPunctuation accessibleName then
      pure { base with
        result := "fail",
        description := "Punctuation-only accessible name",
        details := some ("The " ++ roleStr ++ " has an accessible name consisting only of punctuation characters (\"" ++
          accessibleName ++ "\"). This does not provide meaningful information to screen reader users. Use descriptive text instead.") }
    else if role == some "tab" && hasAriaHiddenContent element then
      pure { base with
        result := "fail",
        description := "Icon-only tab without accessible name",
        details := some "This tab contains content that is hidden from screen readers with aria-hidden=\"true\" but has no accessible text alternative. Screen reader users cannot determine the tab's purpose. Add text content outside the aria-hidden element or use aria-label to provide an accessible name." }
    else do
      let isTabpanelRefEmpty ←
        if role == some "tabpanel" then tabpanelReferencesEmptyName doc element
        else pure false
      if role == some "tabpanel" && isTabpanelRefEmpty then do
        let labelledbyInfo ← getLabelledbyElementsInfo doc element
        let d :=
          if labelledbyInfo.hasEmptyAccessibleName then
            "Tabpanel references element with empty accessible name"
          else if labelledbyInfo.hasAriaHiddenContentOnly then
            "Tabpanel references element with only aria-hidden content"
          else if labelledbyInfo.hasNoAccessibleName then
            "Tabpanel references element with no accessible name"
          else
            "Tabpanel references element with inaccessible content"
        let detailsMessage :=
          "This tabpanel uses aria-labelledby=\"" ++ element.getAttrD "aria-labelledby" "" ++
          "\" to reference " ++
          (if labelledbyInfo.hasEmptyAccessibleName then
            "element(s) with empty accessible names. "
          else if labelledbyInfo.hasAriaHiddenContentOnly then
            "element(s) that contain only aria-hidden content (like icon-only tabs). "
          else if labelledbyInfo.hasNoAccessibleName then
            "element(s) with no accessible name or text content. "
          else
            "element(s) with inaccessible content. ") ++
          "This creates an association that provides no meaningful information to screen reader users. " ++
          (if labelledbyInfo.hasAriaHiddenContentOnly then
            "Add visible text content outside the aria-hidden elements or provide aria-label on the referenced elements. "
          else
            "Ensure the referenced elements have proper accessible names. ") ++
          "Alternatively, use aria-label to provide a direct name for this tabpanel."
        pure { base with
          accessibleName := "",
          result := "fail",
          description := d,
          details := some detailsMessage }
      else do
        let cap ← roleCap
        pure { base with
          result := "pass",
          description := cap ++ " widget has an accessible name" }
  return applyHiddenDowngrade isVisible r

/-- `testElementWithRoleImg(element)`: non-SVG `role="img"` naming; the
merge copies details and title through. -/
def testElementWithRoleImg (doc : Node) (e : ECtx) (ann0 : Ann) : Except Unit TestResult := do
  let element := e.cur
  let (accessibleName, ann) ← computeAccessibleName doc e ann0
  let isVisible := !(isElementHidden element)
  let base := baseResult (strLower element.tagOf) accessibleName (some isVisible)
  let elementLabel := element.tagOf ++ "[role=\"img\"]"
  let cleared := { base with accessibleName := "" }
  let decided : TestResult × RObj :=
    if element.hasAttr "aria-labelledby" && truthy ann.hasBrokenAriaLabelledby then
      let ids := ann.brokenAriaLabelledbyIds.getD []
      ({ base with brokenAriaLabelledby := some true, brokenAriaLabelledbyIds := some ids },
       mkRD "fail" (elementLabel ++ ": Broken aria-labelledby reference")
         ("The aria-labelledby attribute references IDs that don't exist: \"" ++
           joinSep ", " ids ++ "\". Screen readers cannot determine the element's purpose."))
    else if accessibleName == "" then
      (base, mkRD "fail" (elementLabel ++ ": Missing accessible name")
        "Elements with role=\"img\" must have an accessible name via aria-label, aria-labelledby, or other accessible name computation.")
    else if isWhitespaceOnly accessibleName then
      (cleared, mkRD "fail" (elementLabel ++ ": Whitespace-only accessible name")
        "Accessible names consisting only of whitespace characters are not announced by screen readers, making the element inaccessible to screen reader users.")
    else if isPunctuation accessibleName then
      (cleared, mkRD "fail" (elementLabel ++ ": Punctuation-only accessible name")
        "Accessible names consisting only of punctuation characters don't provide meaningful information to screen reader users.")
    else if containsSub accessibleName "<" && containsSub accessibleName ">" then
      (cleared, mkRD "fail" (elementLabel ++ ": HTML markup in accessible name")
        "HTML tags in accessible names are not rendered properly by screen readers and can cause confusion. Use plain text without markup in accessible names.")
    else if isFilenameInText accessibleName then
      (cleared, mkRD "fail" (elementLabel ++ ": Filename as accessible name")
        "Filenames do not adequately describe the content or purpose of an element to screen reader users.")
    else if isUrlInText accessibleName then
      (cleared, mkRD "fail" (elementLabel ++ ": URL as accessible name")
        "URLs do not adequately describe the content or purpose of an element to screen reader users.")
    else if strStartsWith (strLower accessibleName) "image " ||
            containsSub (strLower accessibleName) "image of" then
      (base, ⟨"warn", elementLabel ++ ": Redundant \"image\" in accessible name",
        some "Screen readers already announce the element as an image, so including 'image' or 'image of' in the accessible name is redundant and creates a poor user experience.",
        some "Redundant text"⟩)
    else if isGenericLabel accessibleName then
      (base, ⟨"warn", elementLabel ++ ": Generic accessible name",
        some "Generic terms don't adequately describe the content or purpose of an element to screen reader users.",
        some "Generic description"⟩)
    else
      (base, mkR "pass" (elementLabel ++ ": Has appropriate accessible name"))
  return applyResultObjFull isVisible decided.1 decided.2

/-- `testElementWithTabindex(element)`: evaluates focusable generic
elements, declining (`none`) interactive elements and roles, negative
tabindex, and text-bearing containers with content; the final downgrade is
in place. -/
def testElementWithTabindex (doc : Node) (e : ECtx) (ann0 : Ann) :
    Except Unit (Option TestResult) := do
  let element := e.cur
  let role := element.getAttr "role"
  if element.tagOf == "A" || element.tagOf == "BUTTON" || element.tagOf == "INPUT" ||
     element.tagOf == "SELECT" || element.tagOf == "TEXTAREA" || element.tagOf == "IFRAME" ||
     role == some "presentation" || role == some "none" ||
     role == some "button" || role == some "link" ||
     role == some "checkbox" || role == some "menuitem" ||
     role == some "tab" || role == some "menuitemcheckbox" ||
     role == some "menuitemradio" || role == some "radio" ||
     role == some "switch" || role == some "textbox" then
    return none
  else do
    let (accessibleName, ann) ← computeAccessibleName doc e ann0
    let tabindex := element.getAttr "tabindex"
    let tabindexStr := tabindex.getD "null"
    if (tabindex.getD "") ≠ "" &&
        (match jsParseInt (tabindex.getD "") with
         | some v => decide (v < 0)
         | none => false) then
      return none
    else if (element.tagOf == "H1" || element.tagOf == "H2" || element.tagOf == "H3" ||
        element.tagOf == "H4" || element.tagOf == "H5" || element.tagOf == "H6" ||
        element.tagOf == "LI" || element.tagOf == "DT" || element.tagOf == "DD" ||
        element.tagOf == "FIGURE" || element.tagOf == "FIGCAPTION" ||
        element.tagOf == "P" || element.tagOf == "DIV" || element.tagOf == "SPAN" ||
        role == some "heading" || role == some "listitem") &&
        (element.textContent ≠ "" && jsTrim element.textContent ≠ "") then
      return none
    else
      let isVisible := !(isElementHidden element)
      let base := { baseResult (strLower element.tagOf) accessibleName (some isVisible) with
                      role := role }
      let r : TestResult :=
        if element.hasAttr "aria-labelledby" && truthy ann.hasBrokenAriaLabelledby then
          let ids := ann.brokenAriaLabelledbyIds.getD []
          { base with
            brokenAriaLabelledby := some true,
            brokenAriaLabelledbyIds := some ids,
            result := "fail",
            description := "Element with tabindex=" ++ tabindexStr ++
              " has aria-labelledby referencing non-existent IDs: \"" ++ joinSep ", " ids ++ "\"" }
        else if accessibleName == "" then
          { base with
            result := "fail",
            description := "Element with tabindex=" ++ tabindexStr ++
              " is missing an accessible name - Screen readers announce this as \"clickable item\" with no context. Add aria-label, aria-labelledby, or descriptive text content" }
        else if jsTrim accessibleName == "" then
          { base with
            result := "fail",
            description := "Element with tabindex=" ++ tabindexStr ++
              " has empty or whitespace-only accessible name - This provides no meaningful information to screen reader users. Add descriptive aria-label, aria-labelledby, or text content" }
        else
          { base with
            result := "pass",
            description := "Element with tabindex=" ++ tabindexStr ++ " has an accessible name" }
      return some (applyHiddenDowngrade isVisible r)

/-- The `percentValue` display string of `testProgress`:
`Math.round((parseInt(value) / parseInt(max)) * 100) + '%'`, `"Unknown"`
without a `value` attribute; `NaN` and a zero divisor print as in
JavaScript.  (The host's binary floating point is replaced by exact
rational arithmetic — the string feeds detail text only, never a
verdict.) -/
def progressPercentString (hasValue : Bool) (value maxS : String) : String :=
  if !hasValue then "Unknown"
  else
    match jsParseInt value, jsParseInt maxS with
    | some v, some m =>
      if m == 0 then
        if v > 0 then "Infinity%" else if v < 0 then "-Infinity%" else "NaN%"
      else toString (jsRoundRat ((v : ℚ) / (m : ℚ) * 100)) ++ "%"
    | _, _ => "NaN%"

/-- `testProgress(element)`: progress naming; the broken-reference branch
returns early copying details, the main merge copies details and title. -/
def testProgress (doc : Node) (e : ECtx) (ann0 : Ann) : Except Unit TestResult := do
  let element := e.cur
  let (accessibleName, ann) ← computeAccessibleName doc e ann0
  let tagName := strLower element.tagOf
  let role := element.getAttr "role"
  let isAriaProgress := role == some "progressbar" || role == some "meter"
  let elementType :=
    if isAriaProgress then
      if role == some "meter" then "ARIA meter" else "ARIA progressbar"
    else "Progress"
  let isVisible := !(isElementHidden element)
  let hasValue := element.hasAttr "value"
  let valueOpt : Option String := if hasValue then some (element.getAttrD "value" "") else none
  let maxS := if element.hasAttr "max" then element.getAttrD "max" "" else "100"
  let percentValue := progressPercentString hasValue (valueOpt.getD "") maxS
  let base := { baseResult tagName accessibleName (some isVisible) with
                  role := role,
                  value := some valueOpt,
                  percentValue := some percentValue }
  if element.hasAttr "aria-labelledby" && truthy ann.hasBrokenAriaLabelledby then
    let ids := ann.brokenAriaLabelledbyIds.getD []
    let base := { base with brokenAriaLabelledby := some true, brokenAriaLabelledbyIds := some ids }
    let o := mkRD "fail"
      (elementType ++ " element has aria-labelledby referencing non-existent IDs: \"" ++
        joinSep ", " ids ++ "\" - Users cannot determine the progress bar's purpose")
      "When aria-labelledby references IDs that don't exist in the document, screen readers cannot provide an accessible name for the element."
    return applyResultObjD isVisible base o
  else
    let o : RObj :=
      if accessibleName == "" then
        mkRD "fail"
          (elementType ++ " element is missing an accessible name - Screen reader users cannot determine its purpose. Add aria-label, aria-labelledby, or a proper <label>")
          ("Progress indicators need accessible names to identify what is being measured (e.g., \"Download progress\", \"Upload status\", etc). The current value is " ++ percentValue ++ ".")
      else if jsTrim accessibleName == "" then
        mkRD "fail"
          (elementType ++ " element has empty or whitespace-only accessible name - Not meaningful to screen reader users. Add descriptive aria-label or aria-labelledby")
          ("Empty accessible names are not announced by screen readers, making it impossible for users to understand the purpose of the progress bar. The current value is " ++ percentValue ++ ".")
      else if isPunctuation accessibleName then
        mkRD "fail"
          (elementType ++ " element has punctuation-only accessible name \"" ++ accessibleName ++
            "\" - Not meaningful to screen reader users. Add descriptive aria-label or aria-labelledby")
          ("Accessible names consisting only of punctuation characters don't convey the purpose of the progress bar to screen reader users. The current value is " ++ percentValue ++ ".")
      else if isGenericLabel accessibleName then
        ⟨"warn",
         elementType ++ " element has generic accessible name \"" ++ accessibleName ++
           "\" - Not descriptive of its purpose. Add more specific text that indicates what is being measured",
         some ("Generic terms don't adequately describe what the progress indicator is measuring. The current value is " ++ percentValue ++ "."),
         some "Generic progress description"⟩
      else if truthy ann.accessibleNameFromTitleOnly then
        ⟨"warn",
         elementType ++ " element uses only title attribute for accessible name \"" ++ accessibleName ++
           "\" - Screen readers handle title inconsistently. Use aria-label or aria-labelledby instead",
         some "The title attribute is not reliably announced by all screen readers and is not visible on mobile devices. It's better to use aria-label or aria-labelledby for accessible names.",
         some "Relies on title attribute"⟩
      else if truthy ann.accessibleNameFromLabel && ann.labelType == some "wrapped" then
        ⟨"warn",
         elementType ++ " element is wrapped by a label - May not work with voice control software. Use label with 'for' attribute instead",
         some "When a progress element is wrapped inside a label element, some voice control assistive technologies like Dragon Naturally Speaking may not recognize the association. Using a separate label with a 'for' attribute is more reliable.",
         some "Wrapped label may cause issues"⟩
      else
        mkR "pass" (elementType ++ " element has an appropriate accessible name")
    return applyResultObjFull isVisible base o

/-- The `percentValue` display string of `testMeter`: exact when `value`,
`min` and `max` parse and `max > min`, `"Unknown"` otherwise. -/
def meterPercentString (hasValue : Bool) (value minS maxS : String) : String :=
  if !hasValue then "Unknown"
  else
    match jsParseFloat value, jsParseFloat minS, jsParseFloat maxS with
    | some v, some mn, some mx =>
      if mx > mn then toString (jsRoundRat ((v - mn) / (mx - mn) * 100)) ++ "%"
      else "Unknown"
    | _, _, _ => "Unknown"

/-- `testMeter(element)`: meter naming, the same shape as `testProgress`
with meter wording and a `min`/`max` percentage. -/
def testMeter (doc : Node) (e : ECtx) (ann0 : Ann) : Except Unit TestResult := do
  let element := e.cur
  let (accessibleName, ann) ← computeAccessibleName doc e ann0
  let tagName := strLower element.tagOf
  let role := element.getAttr "role"
  let isAriaMeter := role == some "meter"
  let elementType := if isAriaMeter then "ARIA meter" else "Meter"
  let isVisible := !(isElementHidden element)
  let hasValue := element.hasAttr "value"
  let valueOpt : Option String := if hasValue then some (element.getAttrD "value" "") else none
  let minS := if element.hasAttr "min" then element.getAttrD "min" "" else "0"
  let maxS := if element.hasAttr "max" then element.getAttrD "max" "" else "1"
  let percentValue := meterPercentString hasValue (valueOpt.getD "") minS maxS
  let base := { baseResult tagName accessibleName (some isVisible) with
                  role := role,
                  value := some valueOpt,
                  percentValue := some percentValue }
  if element.hasAttr "aria-labelledby" && truthy ann.hasBrokenAriaLabelledby then
    let ids := ann.brokenAriaLabelledbyIds.getD []
    let base := { base with brokenAriaLabelledby := some true, brokenAriaLabelledbyIds := some ids }
    let o := mkRD "fail"
      (elementType ++ " element has aria-labelledby referencing non-existent IDs: \"" ++
        joinSep ", " ids ++ "\" - Users cannot determine the meter's purpose")
      "When aria-labelledby references IDs that don't exist in the document, screen readers cannot provide an accessible name for the element."
    return applyResultObjD isVisible base o
  else
    let o : RObj :=
      if accessibleName == "" then
        mkRD "fail"
          (elementType ++ " element is missing an accessible name - Screen reader users cannot determine its purpose. Add aria-label, aria-labelledby, or a proper <label>")
          ("Meter elements need accessible names to identify what is being measured (e.g., \"Battery level\", \"Storage space used\", etc). The current value is " ++ percentValue ++ ".")
      else if jsTrim accessibleName == "" then
        mkRD "fail"
          (elementType ++ " element has empty or whitespace-only accessible name - Not meaningful to screen reader users. Add descriptive aria-label or aria-labelledby")
          ("Empty accessible names are not announced by screen readers, making it impossible for users to understand the purpose of the meter. The current value is " ++ percentValue ++ ".")
      else if isPunctuation accessibleName then
        mkRD "fail"
          (elementType ++ " element has punctuation-only accessible name \"" ++ accessibleName ++
            "\" - Not meaningful to screen reader users. Add descriptive aria-label or aria-labelledby")
          ("Accessible names consisting only of punctuation characters don't convey the purpose of the meter to screen reader users. The current value is " ++ percentValue ++ ".")
      else if isGenericLabel accessibleName then
        ⟨"warn",
         elementType ++ " element has generic accessible name \"" ++ accessibleName ++
           "\" - Not descriptive of its purpose. Add more specific text that indicates what is being measured",
         some ("Generic terms don't adequately describe what the meter is measuring. The current value is " ++ percentValue ++ "."),
         some "Generic meter description"⟩
      else if truthy ann.accessibleNameFromTitleOnly then
        ⟨"warn",
         elementType ++ " element uses only title attribute for accessible name \"" ++ accessibleName ++
           "\" - Screen readers handle title inconsistently. Use aria-label or aria-labelledby instead",
         some "The title attribute is not reliably announced by all screen readers and is not visible on mobile devices. It's better to use aria-label or aria-labelledby for accessible names.",
         some "Relies on title attribute"⟩
      else if truthy ann.accessibleNameFromLabel && ann.labelType == some "wrapped" then
        ⟨"warn",
         elementType ++ " element is wrapped by a label - May not work with voice control software. Use label with 'for' attribute instead",
         some "When a meter element is wrapped inside a label element, some voice control assistive technologies like Dragon Naturally Speaking may not recognize the association. Using a separate label with a 'for' attribute is more reliable.",
         some "Wrapped label may cause issues"⟩
      else
        mkR "pass" (elementType ++ " element has an appropriate accessible name")
    return applyResultObjFull isVisible base o

/-! The orchestrator. -/

mutual
/-- The elements of a forest with their ancestor chains, in document
order. -/
def ctxListAll (anc : List Node) : List Node → List ECtx
  | [] => []
  | c :: cs => ctxNodeAll anc c ++ ctxListAll anc cs
/-- The elements of a subtree (the root included when it is an element)
with their ancestor chains, in document order. -/
def ctxNodeAll (anc : List Node) : Node → List ECtx
  | .elem t a co ch =>
      ⟨anc, .elem t a co ch⟩ :: ctxListAll (.elem t a co ch :: anc) ch
  | .text _ => []
end

/-- Every element of the document (the root included), each with its
ancestor chain, in document order: the candidates `document.querySelectorAll`
enumerates. -/
def docElements (doc : Node) : List ECtx :=
  ctxNodeAll [] doc

/-- The loop body of `findAndTestElements`: apply the test function to each
element, keeping the truthy results; a thrown exception aborts the loop. -/
def findAndTestElementsGo (f : ECtx → Except Unit (Option TestResult)) :
    List ECtx → Except Unit (List TestResult)
  | [] => .ok []
  | e :: rest => do
    let r ← f e
    let rs ← findAndTestElementsGo f rest
    match r with
    | some result => return result :: rs
    | none => return rs

/-- `findAndTestElements(selector, testFunction)`: the elements matching
the selector (embedded as node predicate `sel`), each evaluated by `f`;
the `try`/`catch` around the whole loop turns any thrown exception into an
empty result list, discarding the category's results collected so far. -/
def findAndTestElements (doc : Node) (sel : Node → Bool)
    (f : ECtx → Except Unit (Option TestResult)) : List TestResult :=
  match findAndTestElementsGo f ((docElements doc).filter (fun e => sel e.cur)) with
  | .ok rs => rs
  | .error _ => []

/-- An evaluator that always produces a record, lifted to the optional
shape `findAndTestElements` consumes. -/
def liftEval (f : Node → ECtx → Ann → Except Unit TestResult) (doc : Node)
    (e : ECtx) : Except Unit (Option TestResult) :=
  (f doc e Ann.empty).map some

/-- `runAccessibilityTest()`: the category scan of the source in its
order, aggregated into the counts record.  The `url` and `timestamp`
fields (host values `window.location.href` / `new Date()`) are omitted.
Each evaluator call starts from the empty diagnostic record: within one
run every write to an element's diagnostic fields is a deterministic
function of the unchanged DOM snapshot, so repeated evaluation of an
element rewrites the same values and the per-call empty start is
observationally equivalent to the source's persistent element fields. -/
def runAccessibilityTestElements (doc : Node) : List TestResult :=
  findAndTestElements doc
    (fun n => n.tagOf == "IMG" && !(n.getAttr "role" == some "presentation") &&
              !(n.getAttr "role" == some "none"))
    (liftEval testImage doc) ++
  findAndTestElements doc
    (fun n => n.tagOf == "INPUT" &&
      !(n.getAttr "type" == some "hidden") && !(n.getAttr "type" == some "button") &&
      !(n.getAttr "type" == some "submit") && !(n.getAttr "type" == some "reset") &&
      !(n.getAttr "type" == some "radio") && !(n.getAttr "type" == some "image"))
    (liftEval testFormControl doc) ++
  findAndTestElements doc
    (fun n => n.tagOf == "INPUT" && n.getAttr "type" == some "radio")
    (liftEval testRadioButton doc) ++
  findAndTestElements doc
    (fun n => n.tagOf == "INPUT" && n.getAttr "type" == some "image")
    (liftEval testImageInput doc) ++
  findAndTestElements doc (fun n => n.tagOf == "TEXTAREA") (liftEval testFormControl doc) ++
  findAndTestElements doc (fun n => n.tagOf == "SELECT") (liftEval testSelect doc) ++
  findAndTestElements doc (fun n => n.tagOf == "FIELDSET") (liftEval testFieldset doc) ++
  findAndTestElements doc (fun n => n.getAttr "role" == some "group") (liftEval testFieldset doc) ++
  findAndTestElements doc (fun n => n.tagOf == "FORM") (liftEval testForm doc) ++
  findAndTestElements doc (fun n => n.getAttr "role" == some "form") (liftEval testForm doc) ++
  findAndTestElements doc (fun n => n.tagOf == "BUTTON") (liftEval testButton doc) ++
  findAndTestElements doc (fun n => n.getAttr "role" == some "button") (liftEval testButton doc) ++
  findAndTestElements doc
    (fun n => n.tagOf == "INPUT" && n.getAttr "type" == some "button")
    (liftEval testButton doc) ++
  findAndTestElements doc
    (fun n => n.tagOf == "INPUT" && n.getAttr "type" == some "submit")
    (liftEval testButton doc) ++
  findAndTestElements doc
    (fun n => n.tagOf == "INPUT" && n.getAttr "type" == some "reset")
    (liftEval testButton doc) ++
  findAndTestElements doc (fun n => n.tagOf == "A" && n.hasAttr "href") (liftEval testLink doc) ++
  findAndTestElements doc (fun n => n.getAttr "role" == some "link") (liftEval testLink doc) ++
  findAndTestElements doc (fun n => n.tagOf == "AREA" && n.hasAttr "href") (liftEval testArea doc) ++
  findAndTestElements doc (fun n => n.tagOf == "FORM") (liftEval testLandmark doc) ++
  findAndTestElements doc
    (fun n => n.tagOf == "HEADER" || n.getAttr "role" == some "banner")
    (liftEval testLandmark doc) ++
  findAndTestElements doc
    (fun n => n.tagOf == "ASIDE" || n.getAttr "role" == some "complementary")
    (liftEval testLandmark doc) ++
  findAndTestElements doc
    (fun n => n.tagOf == "FOOTER" || n.getAttr "role" == some "contentinfo")
    (liftEval testLandmark doc) ++
  findAndTestElements doc
    (fun n => n.tagOf == "MAIN" || n.getAttr "role" == some "main")
    (liftEval testLandmark doc) ++
  findAndTestElements doc
    (fun n => n.tagOf == "NAV" || n.getAttr "role" == some "navigation")
    (liftEval testLandmark doc) ++
  findAndTestElements doc
    (fun n => (n.tagOf == "SECTION" && n.hasAttr "aria-label") ||
              (n.tagOf == "SECTION" && n.hasAttr "aria-labelledby") ||
              (n.getAttr "role" == some "region" && n.hasAttr "aria-label") ||
              (n.getAttr "role" == some "region" && n.hasAttr "aria-labelledby"))
    (liftEval testLandmark doc) ++
  findAndTestElements doc (fun n => n.getAttr "role" == some "search") (liftEval testLandmark doc) ++
  findAndTestElements doc (fun n => n.tagOf == "PROGRESS") (liftEval testProgress doc) ++
  findAndTestElements doc (fun n => n.getAttr "role" == some "progressbar") (liftEval testProgress doc) ++
  findAndTestElements doc (fun n => n.tagOf == "METER") (liftEval testMeter doc) ++
  findAndTestElements doc (fun n => n.getAttr "role" == some "meter") (liftEval testMeter doc) ++
  findAndTestElements doc
    (fun n => n.tagOf == "SVG" && n.getAttr "role" == some "img")
    (liftEval testSVGImage doc) ++
  findAndTestElements doc
    (fun n => n.tagOf == "DIV" && n.getAttr "role" == some "img")
    (liftEval testElementWithRoleImg doc) ++
  findAndTestElements doc
    (fun n => n.tagOf == "SPAN" && n.getAttr "role" == some "img")
    (liftEval testElementWithRoleImg doc) ++
  findAndTestElements doc
    (fun n => n.getAttr "role" == some "img" && n.tagOf ≠ "SVG" &&
              n.tagOf ≠ "DIV" && n.tagOf ≠ "SPAN")
    (liftEval testElementWithRoleImg doc) ++
  findAndTestElements doc (fun n => n.getAttr "role" == some "checkbox") (liftEval testAriaWidget doc) ++
  findAndTestElements doc (fun n => n.getAttr "role" == some "combobox") (liftEval testAriaWidget doc) ++
  findAndTestElements doc (fun n => n.getAttr "role" == some "dialog") (liftEval testDialog doc) ++
  findAndTestElements doc (fun n => n.getAttr "role" == some "listbox") (liftEval testAriaWidget doc) ++
  findAndTestElements doc (fun n => n.getAttr "role" == some "menu") (liftEval testAriaWidget doc) ++
  findAndTestElements doc (fun n => n.getAttr "role" == some "menuitem") (liftEval testAriaWidget doc) ++
  findAndTestElements doc (fun n => n.getAttr "role" == some "radio") (liftEval testAriaWidget doc) ++
  findAndTestElements doc (fun n => n.getAttr "role" == some "radiogroup") (liftEval testAriaWidget doc) ++
  findAndTestElements doc (fun n => n.getAttr "role" == some "slider") (liftEval testAriaWidget doc) ++
  findAndTestElements doc (fun n => n.getAttr "role" == some "tab") (liftEval testAriaWidget doc) ++
  findAndTestElements doc (fun n => n.getAttr "role" == some "tablist") (liftEval testAriaWidget doc) ++
  findAndTestElements doc (fun n => n.getAttr "role" == some "tabpanel") (liftEval testAriaWidget doc) ++
  findAndTestElements doc (fun n => n.getAttr "role" == some "textbox") (liftEval testFormControl doc) ++
  findAndTestElements doc (fun n => n.getAttr "role" == some "tree") (liftEval testAriaWidget doc) ++
  findAndTestElements doc (fun n => n.getAttr "role" == some "treeitem") (liftEval testAriaWidget doc) ++
  findAndTestElements doc (fun n => n.tagOf == "IFRAME") (liftEval testIframe doc) ++
  findAndTestElements doc
    (fun n => n.tagOf == "AUDIO" && n.hasAttr "controls")
    (liftEval testMedia doc) ++
  findAndTestElements doc
    (fun n => n.tagOf == "VIDEO" && n.hasAttr "controls")
    (liftEval testMedia doc) ++
  findAndTestElements doc (fun n => n.getAttr "role" == some "video") (liftEval testMedia doc) ++
  findAndTestElements doc
    (fun n => n.hasAttr "tabindex" && !(n.getAttr "tabindex" == some "-1"))
    (fun e => testElementWithTabindex doc e Ann.empty)

/-- The counts record of a test run. -/
structure Counts where
  total : Nat
  failed : Nat
  warnings : Nat
  passing : Nat
deriving DecidableEq, Repr

/-- The value `runAccessibilityTest` returns (without the host-supplied
`url` and `timestamp` fields). -/
structure RunResult where
  elements : List TestResult
  counts : Counts
deriving DecidableEq, Repr

/-- `runAccessibilityTest()`: the scanned element results with the counts
computed by the three verdict filters. -/
def runAccessibilityTest (doc : Node) : RunResult :=
  let elementsToTest := runAccessibilityTestElements doc
  let failedElements := elementsToTest.filter (fun el => el.result == "fail")
  let warningElements := elementsToTest.filter (fun el => el.result == "warn")
  let passingElements := elementsToTest.filter (fun el => el.result == "pass")
  { elements := elementsToTest,
    counts := { total := elementsToTest.length,
                failed := failedElements.length,
                warnings := warningElements.length,
                passing := passingElements.length } }

/-! Concrete documents instantiating the claims.  Each is a small DOM
snapshot written with the `Node` constructors; the context of an element
lists its ancestors nearest-first. -/

/-- A fieldset whose first element child is a legend "Payment", carrying
both `aria-label="Pay"` and `aria-labelledby="lbl"`. -/
def fsLegendAria : Node :=
  .elem "FIELDSET" [("aria-label", "Pay"), ("aria-labelledby", "lbl")] Computed.visible
    [.elem "LEGEND" [] Computed.visible [.text "Payment"]]

/-- A document holding `fsLegendAria` and a span `#lbl` with text "B". -/
def docFsLegendAria : Node :=
  .elem "HTML" [] Computed.visible
    [fsLegendAria, .elem "SPAN" [("id", "lbl")] Computed.visible [.text "B"]]

/-- The fieldset's evaluation context inside `docFsLegendAria`. -/
def ctxFsLegendAria : ECtx := ⟨[docFsLegendAria], fsLegendAria⟩

/-- A div with `aria-label="A"` and `aria-labelledby="x"`. -/
def divLblAria : Node :=
  .elem "DIV" [("aria-label", "A"), ("aria-labelledby", "x")] Computed.visible []

/-- A document holding `divLblAria` and a span `#x` with text "B". -/
def docLblAria : Node :=
  .elem "HTML" [] Computed.visible
    [divLblAria, .elem "SPAN" [("id", "x")] Computed.visible [.text "B"]]

/-- The div's evaluation context inside `docLblAria`. -/
def ctxLblAria : ECtx := ⟨[docLblAria], divLblAria⟩

/-- A div with `aria-label="A"` and an `aria-labelledby` made of two ids
that exist nowhere. -/
def divBrokenAria : Node :=
  .elem "DIV" [("aria-label", "A"), ("aria-labelledby", "nope zip")] Computed.visible []

/-- A document holding only `divBrokenAria`. -/
def docBrokenAria : Node := .elem "HTML" [] Computed.visible [divBrokenAria]

/-- The div's evaluation context inside `docBrokenAria`. -/
def ctxBrokenAria : ECtx := ⟨[docBrokenAria], divBrokenAria⟩

/-- A div with an empty `aria-label` next to an `aria-labelledby` that
resolves to text "B". -/
def divEmptyAriaLabelled : Node :=
  .elem "DIV" [("aria-label", ""), ("aria-labelledby", "x")] Computed.visible []

/-- A document holding `divEmptyAriaLabelled` and the span `#x` ("B"). -/
def docEmptyAriaLabelled : Node :=
  .elem "HTML" [] Computed.visible
    [divEmptyAriaLabelled, .elem "SPAN" [("id", "x")] Computed.visible [.text "B"]]

/-- The div's evaluation context inside `docEmptyAriaLabelled`. -/
def ctxEmptyAriaLabelled : ECtx := ⟨[docEmptyAriaLabelled], divEmptyAriaLabelled⟩

/-- `<button aria-label="   "></button>`. -/
def btnWsAria : Node := .elem "BUTTON" [("aria-label", "   ")] Computed.visible []

/-- A document holding only `btnWsAria`. -/
def docBtnWsAria : Node := .elem "HTML" [] Computed.visible [btnWsAria]

/-- The button's evaluation context inside `docBtnWsAria`. -/
def ctxBtnWsAria : ECtx := ⟨[docBtnWsAria], btnWsAria⟩

/-- `<input type="radio" id="r1" role="radiogroup">`: the radio is itself
the `role="radiogroup"` element. -/
def radioSelfGroup : Node :=
  .elem "INPUT" [("type", "radio"), ("id", "r1"), ("role", "radiogroup")] Computed.visible []

/-- A document holding `radioSelfGroup` and a valid `<label for="r1">`. -/
def docRadioSelfGroup : Node :=
  .elem "HTML" [] Computed.visible
    [radioSelfGroup,
     .elem "LABEL" [("for", "r1")] Computed.visible [.text "Option A"]]

/-- The radio's evaluation context inside `docRadioSelfGroup`. -/
def ctxRadioSelfGroup : ECtx := ⟨[docRadioSelfGroup], radioSelfGroup⟩

/-- `<input type="radio" id="r2">` with no grouping context anywhere. -/
def radioUngrouped : Node :=
  .elem "INPUT" [("type", "radio"), ("id", "r2")] Computed.visible []

/-- A document holding `radioUngrouped` and a valid `<label for="r2">`. -/
def docRadioUngrouped : Node :=
  .elem "HTML" [] Computed.visible
    [radioUngrouped, .elem "LABEL" [("for", "r2")] Computed.visible [.text "Option B"]]

/-- The radio's evaluation context inside `docRadioUngrouped`. -/
def ctxRadioUngrouped : ECtx := ⟨[docRadioUngrouped], radioUngrouped⟩

/-- An unlabeled visible radio. -/
def radioNoLabel : Node := .elem "INPUT" [("type", "radio")] Computed.visible []

/-- A document holding only `radioNoLabel`. -/
def docRadioNoLabel : Node := .elem "HTML" [] Computed.visible [radioNoLabel]

/-- The radio's evaluation context inside `docRadioNoLabel`. -/
def ctxRadioNoLabel : ECtx := ⟨[docRadioNoLabel], radioNoLabel⟩

/-- An unlabeled radio hidden by `display: none`. -/
def radioHidden : Node := .elem "INPUT" [("type", "radio")] Computed.displayNone []

/-- A document holding only `radioHidden`. -/
def docRadioHidden : Node := .elem "HTML" [] Computed.visible [radioHidden]

/-- The radio's evaluation context inside `docRadioHidden`. -/
def ctxRadioHidden : ECtx := ⟨[docRadioHidden], radioHidden⟩

/-- `<nav></nav>` with no name source. -/
def navLone : Node := .elem "NAV" [] Computed.visible []

/-- A document whose only landmark is `navLone`. -/
def docNavLone : Node := .elem "HTML" [] Computed.visible [navLone]

/-- The nav's evaluation context inside `docNavLone`. -/
def ctxNavLone : ECtx := ⟨[docNavLone], navLone⟩

/-- `<header></header>` with no name source. -/
def headerLone : Node := .elem "HEADER" [] Computed.visible []

/-- A document whose only landmark is `headerLone`. -/
def docHeaderLone : Node := .elem "HTML" [] Computed.visible [headerLone]

/-- The header's evaluation context inside `docHeaderLone`. -/
def ctxHeaderLone : ECtx := ⟨[docHeaderLone], headerLone⟩

/-- `<footer></footer>` with no name source. -/
def footerLone : Node := .elem "FOOTER" [] Computed.visible []

/-- A document whose only landmark is `footerLone`. -/
def docFooterLone : Node := .elem "HTML" [] Computed.visible [footerLone]

/-- The footer's evaluation context inside `docFooterLone`. -/
def ctxFooterLone : ECtx := ⟨[docFooterLone], footerLone⟩

/-- `<main></main>` with no name source. -/
def mainLone : Node := .elem "MAIN" [] Computed.visible []

/-- A document whose only landmark is `mainLone`. -/
def docMainLone : Node := .elem "HTML" [] Computed.visible [mainLone]

/-- The main's evaluation context inside `docMainLone`. -/
def ctxMainLone : ECtx := ⟨[docMainLone], mainLone⟩

/-- A `<form>` landmark hidden by `display: none`, with no name source. -/
def formHidden : Node := .elem "FORM" [] Computed.displayNone []

/-- A document holding only `formHidden`. -/
def docFormHidden : Node := .elem "HTML" [] Computed.visible [formHidden]

/-- The form's evaluation context inside `docFormHidden`. -/
def ctxFormHidden : ECtx := ⟨[docFormHidden], formHidden⟩

/-- `<input id="1">`: a legal HTML id that is not a CSS identifier. -/
def inputBadId : Node := .elem "INPUT" [("id", "1")] Computed.visible []

/-- The wrapping label around `inputBadId`. -/
def labelBadId : Node := .elem "LABEL" [] Computed.visible [.text "Num ", inputBadId]

/-- A well-formed labelled input in the same document. -/
def inputGood : Node := .elem "INPUT" [("id", "ok")] Computed.visible []

/-- A document holding the wrapped `inputBadId`, a `<label for="ok">` and
`inputGood`. -/
def docBadId : Node :=
  .elem "HTML" [] Computed.visible
    [labelBadId, .elem "LABEL" [("for", "ok")] Computed.visible [.text "Fine"], inputGood]

/-- The bad input's evaluation context inside `docBadId`. -/
def ctxInputBadId : ECtx := ⟨[labelBadId, docBadId], inputBadId⟩

/-- The good input's evaluation context inside `docBadId`. -/
def ctxInputGood : ECtx := ⟨[docBadId], inputGood⟩

/-- The same element with another host-computed style: the vehicle for
stating that an evaluator's verdict does not depend on the element's
computed visibility. -/
def Node.withComputed : Node → Computed → Node
  | .elem t a _ ch, c => .elem t a c ch
  | .text s, _ => .text s

/-- An empty `<button>` hidden by `display: none`. -/
def btnHidden : Node := .elem "BUTTON" [] Computed.displayNone []

/-- A document holding only `btnHidden`. -/
def docBtnHidden : Node := .elem "HTML" [] Computed.visible [btnHidden]

/-- The button's evaluation context inside `docBtnHidden`. -/
def ctxBtnHidden : ECtx := ⟨[docBtnHidden], btnHidden⟩

/-- The verdict alphabet of the evaluators: every returned record's
`result` is one of the three strings the counts filter on. -/
def verdictOk (r : TestResult) : Prop :=
  r.result = "pass" ∨ r.result = "warn" ∨ r.result = "fail"

/-! The verification of the claims. -/

set_option maxRecDepth 40000
set_option maxHeartbeats 1000000

/-- Every JavaScript `split(/\s+/)` result is a non-empty list: tokenizing
never discards everything. -/
lemma wsTokensGo_ne_nil (cs : List Char) (acc : List Char) (hacc : acc.isEmpty = false) :
    wsTokensGo cs acc ≠ [] := by
  induction cs generalizing acc with
  | nil => simp [wsTokensGo, hacc]
  | cons x xs ih =>
    simp only [wsTokensGo]
    by_cases hx : x.isWhitespace
    · simp [hx, hacc]
    · simp only [hx, if_false]
      exact ih (x :: acc) (by simp)

/-- `jsSplitWs` never returns the empty list. -/
lemma jsSplitWs_ne_nil (s : String) : jsSplitWs s ≠ [] := by
  unfold jsSplitWs
  by_cases hs : s = ""
  · simp [hs]
  · simp only [hs, if_false]
    match hcs : s.toList with
    | [] =>
      exfalso
      apply hs
      cases s with
      | mk d =>
        simp only [String.toList] at hcs
        subst hcs
        rfl
    | c :: cs =>
      by_cases hc : c.isWhitespace
      · simp [hc]
      · have : wsTokensGo (c :: cs) [] ≠ [] := by
          simp only [wsTokensGo, hc, if_false]
          exact wsTokensGo_ne_nil cs [c] (by simp)
        simp only [hc, if_false, wsTokens, hcs]
        intro h
        rcases List.append_eq_nil.mp h with ⟨h1, _⟩
        rcases List.append_eq_nil.mp h1 with ⟨_, h3⟩
        exact this h3

/-- **C3** (refuted: code bug).  The claim says the resolver and the
evaluators never raise an exception and that one malformed element never
aborts evaluation of the remaining elements.  In the code, the label stage
of `computeAccessibleName` interpolates a raw element id into the selector
`#${id}`; for the legal HTML id `"1"` (an input wrapped in a label) the
selector is invalid and `querySelector` throws a `SyntaxError`, so the
resolver and `testFormControl` throw, and the `try`/`catch` around the
whole loop of `findAndTestElements` then discards the entire input
category — including the well-formed labelled input `inputGood`, which on
its own evaluates to a Pass record. -/
theorem C3_resolver_throws_and_category_discarded :
    computeAccessibleName docBadId ctxInputBadId Ann.empty = .error () ∧
    testFormControl docBadId ctxInputBadId Ann.empty = .error () ∧
    (testFormControl docBadId ctxInputGood Ann.empty).map (fun r => r.result) = .ok "pass" ∧
    findAndTestElements docBadId (fun n => n.tagOf == "INPUT")
      (liftEval testFormControl docBadId) = [] := by
  refine ⟨by decide, by decide, by decide, by decide⟩

/-- **C2** (counterexample).  The claim says every category downgrades a
Fail on a hidden element to Warn with the `" (hidden element)"` suffix.
`testLandmark` has no visibility handling at all: a `display: none` form
landmark with no accessible name is reported as a plain Fail. -/
theorem C2_counterexample_landmark_not_downgraded :
    isElementHidden formHidden = true ∧
    (testLandmark docFormHidden ctxFormHidden Ann.empty).map
      (fun r => (r.result, r.isVisible)) = .ok ("fail", none) := by
  refine ⟨by decide, by decide⟩

/-- **C6** (counterexample).  The claim requires a Fail whenever the radio
has no *ancestor* fieldset and no *ancestor* with `role="radiogroup"`.
The code uses `closest`, which starts at the element itself: a radio that
itself carries `role="radiogroup"`, with a valid label and neither a
fieldset nor a radiogroup among its ancestors, passes. -/
theorem C6_counterexample_self_radiogroup :
    (∀ a ∈ ctxRadioSelfGroup.anc,
      a.tagOf ≠ "FIELDSET" ∧ a.getAttr "role" ≠ some "radiogroup") ∧
    (testFormControl docRadioSelfGroup ctxRadioSelfGroup Ann.empty).map
      (fun r => r.result) = .ok "pass" ∧
    (testRadioButton docRadioSelfGroup ctxRadioSelfGroup Ann.empty).map
      (fun r => r.result) = .ok "pass" := by
  refine ⟨by decide, by decide, by decide⟩

/-- **C4** (counterexample).  The claim says every element whose
`aria-label` is present but empty resolves to `""` with the
empty-aria-label annotation recorded.  `aria-labelledby` is consulted
first: when it resolves to "B", the name is "B" and the empty-aria-label
flag is never written. -/
theorem C4_counterexample_labelledby_preempts :
    divEmptyAriaLabelled.hasAttr "aria-label" = true ∧
    divEmptyAriaLabelled.getAttrD "aria-label" "" = "" ∧
    computeAccessibleName docEmptyAriaLabelled ctxEmptyAriaLabelled Ann.empty =
      .ok ("B", { Ann.empty with
                    hasBrokenAriaLabelledby := some false,
                    brokenAriaLabelledbyIds := some [] }) := by
  refine ⟨by decide, by decide, by decide⟩

/-- **C1** (counterexample).  The claim says `aria-labelledby` text wins
for *every* element that also has a non-empty `aria-label`.  A fieldset
whose first element child is a legend returns the legend text before any
ARIA source is consulted: with legend "Payment", `aria-label="Pay"` and
`aria-labelledby` resolving to "B", the name is "Payment", not "B". -/
theorem C1_counterexample_fieldset_legend_wins :
    fsLegendAria.getAttrD "aria-label" "" = "Pay" ∧
    resolveLabelledby docFsLegendAria
      (jsSplitWs (fsLegendAria.getAttrD "aria-labelledby" "")) = ("B", []) ∧
    computeAccessibleName docFsLegendAria ctxFsLegendAria Ann.empty =
      .ok ("Payment", Ann.empty) := by
  refine ⟨by decide, by decide, by decide⟩

/-- **C6** (amended).  For every radio input the evaluator first runs the
form-control evaluation and returns its record unchanged when that verdict
is Fail; otherwise, when `closest` finds no fieldset and no
`role="radiogroup"` element — neither the radio itself nor any ancestor —
the verdict is overridden to Fail with the fixed grouping description and
details, regardless of the quality of the accessible name. -/
theorem C6_radio_grouping :
    (∀ (doc : Node) (e : ECtx) (ann : Ann) (fc : TestResult),
      testFormControl doc e ann = .ok fc →
      fc.result = "fail" →
      testRadioButton doc e ann = .ok fc) ∧
    (∀ (doc : Node) (e : ECtx) (ann : Ann) (fc : TestResult),
      testFormControl doc e ann = .ok fc →
      fc.result ≠ "fail" →
      (e.closest (fun n => n.tagOf == "FIELDSET")).isSome = false →
      (e.closest (fun n => n.getAttr "role" == some "radiogroup")).isSome = false →
      testRadioButton doc e ann =
        .ok { fc with
                result := "fail",
                description := radioGroupingDescription,
                details := some radioGroupingDetails }) := by
  constructor
  · intro doc e ann fc hfc hres
    simp [testRadioButton, hfc, hres, Bind.bind, Except.bind, Pure.pure, Except.pure]
  · intro doc e ann fc hfc hres h1 h2
    simp [testRadioButton, hfc, hres, h1, h2, Bind.bind, Except.bind, Pure.pure, Except.pure]

/-- **C6** (witness): the ungrouped labelled radio `radioUngrouped` passes
the form-control evaluation ("Option B" is a valid name) and is then
failed for the missing grouping context. -/
theorem C6_radio_grouping_witness :
    testRadioButton docRadioUngrouped ctxRadioUngrouped Ann.empty =
      .ok { baseResult "input" "Option B" (some true) with
              result := "fail",
              description := radioGroupingDescription,
              details := some radioGroupingDetails } :=
  C6_radio_grouping.2 docRadioUngrouped ctxRadioUngrouped Ann.empty
    { baseResult "input" "Option B" (some true) with
        result := "pass", description := "Input has an accessible name" }
    (by decide) (by decide) (by decide) (by decide)

/-- **C9** (confirmed).  The grouping check of `testRadioButton` runs on
the record `testFormControl` already returned — i.e. after that
evaluator's hidden-element downgrade — and is itself never downgraded:
a hidden radio whose form-control verdict is not Fail (for instance
because the missing-name Fail was already downgraded to Warn by
hiddenness) but that lies inside no fieldset and no `role="radiogroup"`
is reported Fail, not Warn. -/
theorem C9_hidden_radio_grouping_fail (doc : Node) (e : ECtx) (ann : Ann) (fc : TestResult)
    (htag : e.cur.tagOf = "INPUT")
    (htype : e.cur.jsType = "radio")
    (hhid : isElementHidden e.cur = true)
    (hfc : testFormControl doc e ann = .ok fc)
    (hres : fc.result ≠ "fail")
    (h1 : (e.closest (fun n => n.tagOf == "FIELDSET")).isSome = false)
    (h2 : (e.closest (fun n => n.getAttr "role" == some "radiogroup")).isSome = false) :
    (testRadioButton doc e ann).map (fun r => r.result) = .ok "fail" := by
  simp [testRadioButton, hfc, hres, h1, h2, Bind.bind, Except.bind, Pure.pure, Except.pure, Except.map]

/-- **C9** (witness): the hidden unlabeled radio — its form-control Fail
is downgraded to Warn because it is hidden, yet the grouping check still
returns Fail. -/
theorem C9_hidden_radio_grouping_fail_witness :
    (testRadioButton docRadioHidden ctxRadioHidden Ann.empty).map (fun r => r.result) =
      .ok "fail" :=
  C9_hidden_radio_grouping_fail docRadioHidden ctxRadioHidden Ann.empty
    { baseResult "input" "" (some false) with
        result := "warn",
        description := "Input is missing an accessible name - Users cannot identify its purpose. Add a properly associated label, aria-label, or aria-labelledby (hidden element)",
        details := some hiddenDetails }
    (by decide) (by decide) (by decide) (by decide) (by decide) (by decide) (by decide)

mutual
/-- Structural node equality is reflexive. -/
lemma nodeBeq_refl : ∀ n : Node, nodeBeq n n = true
  | .text s => by simp [nodeBeq]
  | .elem t a co ch => by simp [nodeBeq, nodeListBeq_refl ch]
/-- Structural node-list equality is reflexive. -/
lemma nodeListBeq_refl : ∀ l : List Node, nodeListBeq l l = true
  | [] => by simp [nodeListBeq]
  | c :: cs => by simp [nodeListBeq, nodeBeq_refl c, nodeListBeq_refl cs]
end

/-- When the first element child of a node satisfies a predicate that no
non-element node satisfies, the depth-first search returns exactly that
child: the earlier siblings are text nodes, which match nothing and have
no children. -/
lemma qsListFirst_first_elem (p : Node → Bool) :
    ∀ (ch : List Node) (f : Node),
      ch.find? Node.isElem = some f → p f = true →
      (∀ n : Node, n.isElem = false → p n = false) →
      qsListFirst p ch = some f
  | [], f, hfind, _, _ => by simp at hfind
  | c :: cs, f, hfind, hpf, hnp => by
    by_cases hc : c.isElem
    · have hcf : c = f := by
        rw [List.find?] at hfind
        simp [hc] at hfind
        exact hfind
      subst hcf
      cases c with
      | elem t a co ch2 =>
        simp [qsListFirst, qsNodeFirst, hpf]
      | text str => simp [Node.isElem] at hc
    · have hfind2 : cs.find? Node.isElem = some f := by
        rw [List.find?] at hfind
        simp [hc] at hfind
        exact hfind
      have hpc : p c = false := hnp c (by simpa using hc)
      cases c with
      | elem t a co ch2 => simp [Node.isElem] at hc
      | text str =>
        simp only [qsListFirst, qsNodeFirst, hpc, if_false]
        exact qsListFirst_first_elem p cs f hfind2 hpf hnp

/-- A fieldset whose first element child is a legend with non-empty
trimmed text names itself after that legend. -/
lemma fieldsetLegendName_some (el legend : Node)
    (htag : el.tagOf = "FIELDSET")
    (hfirst : el.firstElementChild = some legend)
    (hleg : legend.tagOf = "LEGEND")
    (hne : jsTrim legend.textContent ≠ "") :
    fieldsetLegendName el = some (jsTrim legend.textContent) := by
  have hnp : ∀ n : Node, n.isElem = false → (n.tagOf == "LEGEND") = false := by
    intro n hn
    cases n with
    | elem t a co ch => simp [Node.isElem] at hn
    | text str => simp [Node.tagOf]
  have hfind : el.childrenOf.find? Node.isElem = some legend := hfirst
  have hqs : qsListFirst (fun n => n.tagOf == "LEGEND") el.childrenOf = some legend :=
    qsListFirst_first_elem _ _ _ hfind (by simp [hleg]) hnp
  unfold fieldsetLegendName
  simp [htag, Node.querySelector, hqs, hfirst, nodeBeq_refl, hne]

/-- The fieldset-legend early return of the resolver: the name is the
legend text and the diagnostic record passes through untouched. -/
lemma compute_fieldset_legend (doc : Node) (e : ECtx) (ann : Ann) (t : String)
    (h : fieldsetLegendName e.cur = some t) :
    computeAccessibleName doc e ann = .ok (t, ann) := by
  unfold computeAccessibleName
  simp [h]

/-- **C5** (confirmed).  A fieldset whose first element child is a legend
with non-empty trimmed text takes the legend's trimmed text as its
accessible name no matter what ARIA attributes it carries (the resolver
returns before consulting them); and when such a fieldset additionally
carries `aria-label` or `aria-labelledby`, the fieldset evaluator returns
Warn with the redundant-double-labelling description. -/
theorem C5_fieldset_legend_precedence :
    (∀ (doc : Node) (e : ECtx) (ann : Ann) (legend : Node),
      e.cur.tagOf = "FIELDSET" →
      e.cur.firstElementChild = some legend →
      legend.tagOf = "LEGEND" →
      jsTrim legend.textContent ≠ "" →
      computeAccessibleName doc e ann = .ok (jsTrim legend.textContent, ann)) ∧
    (∀ (doc : Node) (e : ECtx) (legend : Node),
      e.cur.tagOf = "FIELDSET" →
      e.cur.firstElementChild = some legend →
      legend.tagOf = "LEGEND" →
      jsTrim legend.textContent ≠ "" →
      (e.cur.hasAttr "aria-label" = true ∨ e.cur.hasAttr "aria-labelledby" = true) →
      ∃ r, testFieldset doc e Ann.empty = .ok r ∧ r.result = "warn" ∧
        r.description =
          (if e.cur.getAttr "role" == some "group" then "Group" else "Fieldset") ++
          " has both a legend and " ++
          (if e.cur.hasAttr "aria-label" then "aria-label" else "aria-labelledby") ++
          " - This creates redundant announcements in screen readers. Use either a legend OR aria-label/aria-labelledby, but not both") := by
  constructor
  · intro doc e ann legend htag hfirst hleg hne
    exact compute_fieldset_legend doc e ann _
      (fieldsetLegendName_some e.cur legend htag hfirst hleg hne)
  · intro doc e legend htag hfirst hleg hne hattr
    have hcomp : computeAccessibleName doc e Ann.empty =
        .ok (jsTrim legend.textContent, Ann.empty) :=
      compute_fieldset_legend doc e Ann.empty _
        (fieldsetLegendName_some e.cur legend htag hfirst hleg hne)
    have hnp : ∀ n : Node, n.isElem = false → (n.tagOf == "LEGEND") = false := by
      intro n hn
      cases n with
      | elem t a co ch => simp [Node.isElem] at hn
      | text str => simp [Node.tagOf]
    have hqs : e.cur.querySelector (fun n => n.tagOf == "LEGEND") = some legend :=
      qsListFirst_first_elem _ _ _ hfirst (by simp [hleg]) hnp
    unfold testFieldset testFieldsetCore
    rw [hcomp]
    simp only [Bind.bind, Except.bind, hqs, hfirst, Option.isSome_some, nodeBeq_refl,
      truthy, Ann.empty]
    have hor : (e.cur.hasAttr "aria-label" || e.cur.hasAttr "aria-labelledby") = true := by
      rcases hattr with h | h <;> simp [h]
    simp [hne, hor, applyHiddenDowngrade, Pure.pure, Except.pure]

/-- **C5** (witness): the payment fieldset — name "Payment" from the
legend, Warn from the evaluator for the redundant `aria-label`. -/
theorem C5_fieldset_legend_precedence_witness :
    computeAccessibleName docFsLegendAria ctxFsLegendAria Ann.empty =
      .ok ("Payment", Ann.empty) ∧
    ∃ r, testFieldset docFsLegendAria ctxFsLegendAria Ann.empty = .ok r ∧
      r.result = "warn" := by
  constructor
  · exact C5_fieldset_legend_precedence.1 docFsLegendAria ctxFsLegendAria Ann.empty
      (.elem "LEGEND" [] Computed.visible [.text "Payment"])
      (by decide) rfl (by decide) (by decide)
  · obtain ⟨r, hr, hw, _⟩ := C5_fieldset_legend_precedence.2 docFsLegendAria ctxFsLegendAria
      (.elem "LEGEND" [] Computed.visible [.text "Payment"])
      (by decide) rfl (by decide) (by decide) (Or.inl (by decide))
    exact ⟨r, hr, hw⟩

/-- **C1** (amended).  Outside the fieldset-legend special case:
(1) when every `aria-labelledby` id resolves and the concatenated trimmed
text is non-empty, that text is the name — `aria-labelledby` wins over any
`aria-label` — and the diagnostic record shows no broken ids; (2) when
`aria-labelledby` references only non-existent ids and `aria-label` is
non-empty and non-whitespace, the name is the `aria-label` value and the
(non-empty) list of all the ids is recorded as broken. -/
theorem C1_labelledby_priority :
    (∀ (doc : Node) (e : ECtx) (ann : Ann),
      fieldsetLegendName e.cur = none →
      e.cur.hasAttr "aria-labelledby" = true →
      (resolveLabelledby doc (jsSplitWs (e.cur.getAttrD "aria-labelledby" ""))).2 = [] →
      (resolveLabelledby doc (jsSplitWs (e.cur.getAttrD "aria-labelledby" ""))).1 ≠ "" →
      e.cur.getAttrD "aria-label" "" ≠ "" →
      computeAccessibleName doc e ann =
        .ok ((resolveLabelledby doc (jsSplitWs (e.cur.getAttrD "aria-labelledby" ""))).1,
          { ann with
              hasBrokenAriaLabelledby := some false,
              brokenAriaLabelledbyIds := some [] })) ∧
    (∀ (doc : Node) (e : ECtx) (ann : Ann),
      fieldsetLegendName e.cur = none →
      e.cur.hasAttr "aria-labelledby" = true →
      resolveLabelledby doc (jsSplitWs (e.cur.getAttrD "aria-labelledby" "")) =
        ("", jsSplitWs (e.cur.getAttrD "aria-labelledby" "")) →
      e.cur.hasAttr "aria-label" = true →
      jsTrim (e.cur.getAttrD "aria-label" "") ≠ "" →
      ∃ ann1,
        computeAccessibleName doc e ann = .ok (e.cur.getAttrD "aria-label" "", ann1) ∧
        ann1.hasBrokenAriaLabelledby = some true ∧
        ann1.brokenAriaLabelledbyIds =
          some (jsSplitWs (e.cur.getAttrD "aria-labelledby" "")) ∧
        jsSplitWs (e.cur.getAttrD "aria-labelledby" "") ≠ []) := by
  constructor
  · intro doc e ann hfs hattr hres hne hlabel
    unfold computeAccessibleName
    simp only [hfs]
    simp [hattr, hne, hres]
  · intro doc e ann hfs hattr hresolved hlab hwne
    have hids : jsSplitWs (e.cur.getAttrD "aria-labelledby" "") ≠ [] :=
      jsSplitWs_ne_nil _
    have hlne : e.cur.getAttrD "aria-label" "" ≠ "" := by
      intro h0
      apply hwne
      rw [h0]
      rfl
    unfold computeAccessibleName
    simp only [hfs]
    simp only [hattr, if_true]
    rw [hresolved]
    simp only [ne_eq, not_true_eq_false, if_false]
    unfold nameAriaLabelStage
    simp only [hlab, if_true, hlne, hwne]
    by_cases hp : isPunctuation (e.cur.getAttrD "aria-label" "") = true
    · simp only [hlne, if_false, hp, if_true, and_true, ne_eq, hids, not_false_iff]
      exact ⟨_, rfl, rfl, rfl⟩
    · simp only [hlne, if_false, hp, and_true, ne_eq, hids, not_false_iff]
      exact ⟨_, rfl, rfl, rfl⟩

/-- **C1** (witness): both amended branches at concrete documents — the
resolving labelledby yields "B" over `aria-label="A"`; two dangling ids
yield "A" with `["nope", "zip"]` recorded broken. -/
theorem C1_labelledby_priority_witness :
    computeAccessibleName docLblAria ctxLblAria Ann.empty =
      .ok ("B", { Ann.empty with
                    hasBrokenAriaLabelledby := some false,
                    brokenAriaLabelledbyIds := some [] }) ∧
    ∃ ann1, computeAccessibleName docBrokenAria ctxBrokenAria Ann.empty =
        .ok ("A", ann1) ∧ ann1.brokenAriaLabelledbyIds = some ["nope", "zip"] := by
  constructor
  · exact C1_labelledby_priority.1 docLblAria ctxLblAria Ann.empty
      (by decide) (by decide) (by decide) (by decide) (by decide)
  · obtain ⟨ann1, h1, _, h3, _⟩ := C1_labelledby_priority.2 docBrokenAria ctxBrokenAria
      Ann.empty (by decide) (by decide) (by decide) (by decide) (by decide)
    refine ⟨ann1, h1, ?_⟩
    rw [h3]
    decide

/-- **C4** (amended).  Provided no earlier name source produced a name —
the element is not in the fieldset-legend case and any `aria-labelledby`
resolves to the empty string — a present but empty or whitespace-only
`aria-label` records the empty-aria-label annotation and makes the name
the empty string without falling through to any later source; and for
`<button aria-label="   "></button>` with no other name source the button
evaluator returns Fail with the empty-or-whitespace-only description,
which differs from the missing-name description of an empty button. -/
theorem C4_empty_aria_label_short_circuit :
    (∀ (doc : Node) (e : ECtx) (ann : Ann),
      fieldsetLegendName e.cur = none →
      (e.cur.hasAttr "aria-labelledby" = true →
        (resolveLabelledby doc (jsSplitWs (e.cur.getAttrD "aria-labelledby" ""))).1 = "") →
      e.cur.hasAttr "aria-label" = true →
      jsTrim (e.cur.getAttrD "aria-label" "") = "" →
      ∃ ann1, computeAccessibleName doc e ann = .ok ("", ann1) ∧
        ann1.hasEmptyAriaLabel = some true) ∧
    ((testButton docBtnWsAria ctxBtnWsAria Ann.empty).map
        (fun r => (r.result, r.description)) =
      .ok ("fail", "Button has empty or whitespace-only aria-label attribute") ∧
      "Button has empty or whitespace-only aria-label attribute" ≠
        "Button has no text content and no aria-label/aria-labelledby attributes") := by
  constructor
  · intro doc e ann hfs hlby hlab htrim
    have hstage : ∀ ann2 : Ann,
        nameAriaLabelStage doc e ann2 =
          .ok ("", { ann2 with hasEmptyAriaLabel := some true }) := by
      intro ann2
      unfold nameAriaLabelStage
      by_cases h0 : e.cur.getAttrD "aria-label" "" = ""
      · simp [hlab, h0]
      · simp [hlab, h0, htrim]
    unfold computeAccessibleName
    simp only [hfs]
    by_cases hby : e.cur.hasAttr "aria-labelledby" = true
    · have hres := hlby hby
      simp only [hby, if_true]
      rw [hres]
      simp only [ne_eq, not_true_eq_false, if_false]
      rw [hstage]
      exact ⟨_, rfl, rfl⟩
    · rw [if_neg hby]
      rw [hstage]
      exact ⟨_, rfl, rfl⟩
  · exact ⟨by decide, by decide⟩

/-- **C4** (witness): the whitespace-only `aria-label` div — the resolver
returns `""` and records the empty-aria-label flag. -/
theorem C4_empty_aria_label_short_circuit_witness :
    ∃ ann1, computeAccessibleName docBtnWsAria ctxBtnWsAria Ann.empty = .ok ("", ann1) ∧
      ann1.hasEmptyAriaLabel = some true :=
  C4_empty_aria_label_short_circuit.1 docBtnWsAria ctxBtnWsAria Ann.empty
    (by decide) (fun h => absurd h (by decide)) (by decide) (by decide)

/-- **C7** (confirmed).  With at most one banner / contentinfo / main
landmark present, the landmark evaluator passes that landmark with an
empty accessible name; a lone nav/navigation landmark with an empty name
is instead a Warn saying it should have a name for better user
experience. -/
theorem C7_singleton_landmarks :
    (∀ (doc : Node) (e : ECtx) (ann ann2 : Ann),
      (strLower e.cur.tagOf = "header" ∨ e.cur.getAttr "role" = some "banner") →
      bannerCount doc ≤ 1 →
      computeAccessibleName doc e ann = .ok ("", ann2) →
      (testLandmark doc e ann).map (fun r => (r.result, r.description)) =
        .ok ("pass", "Single banner landmark doesn't require an accessible name")) ∧
    (∀ (doc : Node) (e : ECtx) (ann ann2 : Ann),
      ((strLower e.cur.tagOf = "footer" ∧ e.cur.getAttr "role" = none) ∨
        (e.cur.getAttr "role" = some "contentinfo" ∧ strLower e.cur.tagOf ≠ "header")) →
      contentinfoCount doc ≤ 1 →
      computeAccessibleName doc e ann = .ok ("", ann2) →
      (testLandmark doc e ann).map (fun r => (r.result, r.description)) =
        .ok ("pass", "Single contentinfo landmark doesn't require an accessible name")) ∧
    (∀ (doc : Node) (e : ECtx) (ann ann2 : Ann),
      ((strLower e.cur.tagOf = "main" ∧ e.cur.getAttr "role" = none) ∨
        (e.cur.getAttr "role" = some "main" ∧ strLower e.cur.tagOf ≠ "header" ∧
          strLower e.cur.tagOf ≠ "footer")) →
      mainLandmarkCount doc ≤ 1 →
      computeAccessibleName doc e ann = .ok ("", ann2) →
      (testLandmark doc e ann).map (fun r => (r.result, r.description)) =
        .ok ("pass", "Single main landmark doesn't require an accessible name")) ∧
    (∀ (doc : Node) (e : ECtx) (ann ann2 : Ann),
      ((strLower e.cur.tagOf = "nav" ∧ e.cur.getAttr "role" = none) ∨
        (e.cur.getAttr "role" = some "navigation" ∧ strLower e.cur.tagOf ≠ "header" ∧
          strLower e.cur.tagOf ≠ "footer" ∧ strLower e.cur.tagOf ≠ "main")) →
      navCount doc ≤ 1 →
      computeAccessibleName doc e ann = .ok ("", ann2) →
      (testLandmark doc e ann).map (fun r => (r.result, r.description, r.details)) =
        .ok ("warn",
          "Single navigation landmark should have an accessible name for better user experience",
          some navWarnDetails)) := by
  refine ⟨?_, ?_, ?_, ?_⟩
  · intro doc e ann ann2 hcfg hcnt hcomp
    unfold testLandmark
    rcases hcfg with htag | hrole
    · simp [hcomp, Bind.bind, Except.bind, Pure.pure, Except.pure, Except.map, htag, hcnt]
    · simp [hcomp, Bind.bind, Except.bind, Pure.pure, Except.pure, Except.map, hrole, hcnt]
  · intro doc e ann ann2 hcfg hcnt hcomp
    unfold testLandmark
    rcases hcfg with ⟨htag, hrole⟩ | ⟨hrole, hex⟩
    · simp [hcomp, Bind.bind, Except.bind, Pure.pure, Except.pure, Except.map, htag, hrole,
        hcnt]
    · simp [hcomp, Bind.bind, Except.bind, Pure.pure, Except.pure, Except.map, hrole, hex,
        hcnt]
  · intro doc e ann ann2 hcfg hcnt hcomp
    unfold testLandmark
    rcases hcfg with ⟨htag, hrole⟩ | ⟨hrole, hex1, hex2⟩
    · simp [hcomp, Bind.bind, Except.bind, Pure.pure, Except.pure, Except.map, htag, hrole,
        hcnt]
    · simp [hcomp, Bind.bind, Except.bind, Pure.pure, Except.pure, Except.map, hrole, hex1,
        hex2, hcnt]
  · intro doc e ann ann2 hcfg hcnt hcomp
    unfold testLandmark
    rcases hcfg with ⟨htag, hrole⟩ | ⟨hrole, hex1, hex2, hex3⟩
    · simp [hcomp, Bind.bind, Except.bind, Pure.pure, Except.pure, Except.map, htag, hrole,
        hcnt]
    · simp [hcomp, Bind.bind, Except.bind, Pure.pure, Except.pure, Except.map, hrole, hex1,
        hex2, hex3, hcnt]

/-- **C7** (witness): the four lone landmarks `<header>`, `<footer>`,
`<main>` and `<nav>`, each alone in its document with no name source. -/
theorem C7_singleton_landmarks_witness :
    (testLandmark docHeaderLone ctxHeaderLone Ann.empty).map (fun r => r.result) =
      .ok "pass" ∧
    (testLandmark docFooterLone ctxFooterLone Ann.empty).map (fun r => r.result) =
      .ok "pass" ∧
    (testLandmark docMainLone ctxMainLone Ann.empty).map (fun r => r.result) =
      .ok "pass" ∧
    (testLandmark docNavLone ctxNavLone Ann.empty).map (fun r => (r.result, r.description)) =
      .ok ("warn",
        "Single navigation landmark should have an accessible name for better user experience") := by
  have h1 := C7_singleton_landmarks.1 docHeaderLone ctxHeaderLone Ann.empty Ann.empty
    (Or.inl (by decide)) (by decide) (by decide)
  have h2 := C7_singleton_landmarks.2.1 docFooterLone ctxFooterLone Ann.empty Ann.empty
    (Or.inl ⟨by decide, by decide⟩) (by decide) (by decide)
  have h3 := C7_singleton_landmarks.2.2.1 docMainLone ctxMainLone Ann.empty Ann.empty
    (Or.inl ⟨by decide, by decide⟩) (by decide) (by decide)
  have h4 := C7_singleton_landmarks.2.2.2 docNavLone ctxNavLone Ann.empty Ann.empty
    (Or.inl ⟨by decide, by decide⟩) (by decide) (by decide)
  refine ⟨?_, ?_, ?_, ?_⟩
  · cases hr : testLandmark docHeaderLone ctxHeaderLone Ann.empty with
    | error err => rw [hr] at h1; simp [Except.map] at h1
    | ok v =>
      rw [hr] at h1
      simp [Except.map] at h1 ⊢
      exact h1.1
  · cases hr : testLandmark docFooterLone ctxFooterLone Ann.empty with
    | error err => rw [hr] at h2; simp [Except.map] at h2
    | ok v =>
      rw [hr] at h2
      simp [Except.map] at h2 ⊢
      exact h2.1
  · cases hr : testLandmark docMainLone ctxMainLone Ann.empty with
    | error err => rw [hr] at h3; simp [Except.map] at h3
    | ok v =>
      rw [hr] at h3
      simp [Except.map] at h3 ⊢
      exact h3.1
  · cases hr : testLandmark docNavLone ctxNavLone Ann.empty with
    | error err => rw [hr] at h4; simp [Except.map] at h4
    | ok v =>
      rw [hr] at h4
      simp [Except.map] at h4 ⊢
      exact ⟨h4.1, h4.2.1⟩

/-- The alt/value/title/text stages never touch the broken-labelledby
diagnostics. -/
lemma nameFromContentStages_keeps_b1 (e : ECtx) (a : Ann) :
    (nameFromContentStages e a).2.hasBrokenAriaLabelledby = a.hasBrokenAriaLabelledby := by
  simp only [nameFromContentStages]
  split_ifs <;> simp

/-- The alt/value/title/text stages never touch the broken-id list. -/
lemma nameFromContentStages_keeps_b2 (e : ECtx) (a : Ann) :
    (nameFromContentStages e a).2.brokenAriaLabelledbyIds = a.brokenAriaLabelledbyIds := by
  simp only [nameFromContentStages]
  split_ifs <;> simp

/-- Re-running the alt/value/title/text stages from their own output
state changes nothing: the only write (the title-only flag) rewrites the
value it just wrote. -/
lemma nameFromContentStages_idem (e : ECtx) (a : Ann) (n : String) (b : Ann)
    (h : nameFromContentStages e a = (n, b)) :
    nameFromContentStages e b = (n, b) := by
  simp only [nameFromContentStages] at h ⊢
  split_ifs at h ⊢ <;> simp_all
  obtain ⟨hn, hb⟩ := h
  subst hb
  simp

/-- The label-association stage never touches the broken-labelledby
diagnostics. -/
lemma nameLabelStage_keeps_broken (doc : Node) (e : ECtx) (a : Ann) (n : String) (b : Ann)
    (h : nameLabelStage doc e a = .ok (n, b)) :
    b.hasBrokenAriaLabelledby = a.hasBrokenAriaLabelledby ∧
    b.brokenAriaLabelledbyIds = a.brokenAriaLabelledbyIds := by
  have hk1 := nameFromContentStages_keeps_b1 e a
  have hk2 := nameFromContentStages_keeps_b2 e a
  rcases hf : findCtxDoc
      (fun nd => nd.tagOf == "LABEL" && nd.getAttr "for" == some (e.cur.getAttrD "id" ""))
      doc with _ | lctx <;>
    rcases hc : e.closest (fun nd => nd.tagOf == "LABEL") with _ | parentLabel <;>
    simp only [nameLabelStage, hf, hc] at h <;>
    split_ifs at h <;>
    first
      | (simp_all
         done)
      | (rw [Except.ok.injEq, Prod.mk.injEq] at h
         obtain ⟨hn, hb⟩ := h
         subst hb
         simp)

/-- Re-running the label-association stage from its own output state
changes nothing. -/
lemma nameLabelStage_idem (doc : Node) (e : ECtx) (a : Ann) (n : String) (b : Ann)
    (h : nameLabelStage doc e a = .ok (n, b)) :
    nameLabelStage doc e b = .ok (n, b) := by
  rcases hf : findCtxDoc
      (fun nd => nd.tagOf == "LABEL" && nd.getAttr "for" == some (e.cur.getAttrD "id" ""))
      doc with _ | lctx <;>
    rcases hc : e.closest (fun nd => nd.tagOf == "LABEL") with _ | parentLabel <;>
    simp only [nameLabelStage, hf, hc] at h ⊢ <;>
    split_ifs at h ⊢ <;>
    first
      | (replace h : nameFromContentStages e a = (n, b) := by simpa using h
         rw [nameFromContentStages_idem e a n b h])
      | (simp_all
         done)
      | (rw [Except.ok.injEq, Prod.mk.injEq] at h
         obtain ⟨hn, hb⟩ := h
         subst hn
         subst hb
         simp)

/-- The aria-label stage never touches the broken-labelledby
diagnostics. -/
lemma nameAriaLabelStage_keeps_broken (doc : Node) (e : ECtx) (a : Ann) (n : String) (b : Ann)
    (h : nameAriaLabelStage doc e a = .ok (n, b)) :
    b.hasBrokenAriaLabelledby = a.hasBrokenAriaLabelledby ∧
    b.brokenAriaLabelledbyIds = a.brokenAriaLabelledbyIds := by
  simp only [nameAriaLabelStage] at h
  split_ifs at h <;>
    first
      | (simp_all
         done)
      | (rw [Except.ok.injEq, Prod.mk.injEq] at h
         obtain ⟨hn, hb⟩ := h
         subst hb
         simp)
      | (have hk := nameLabelStage_keeps_broken doc e _ n b h
         simp_all)

/-- Re-running the aria-label stage from its own output state changes
nothing. -/
lemma nameAriaLabelStage_idem (doc : Node) (e : ECtx) (a : Ann) (n : String) (b : Ann)
    (h : nameAriaLabelStage doc e a = .ok (n, b)) :
    nameAriaLabelStage doc e b = .ok (n, b) := by
  simp only [nameAriaLabelStage] at h ⊢
  split_ifs at h ⊢ <;>
    first
      | (simp_all
         done)
      | (rw [Except.ok.injEq, Prod.mk.injEq] at h
         obtain ⟨hn, hb⟩ := h
         subst hn
         subst hb
         simp)
      | (exact nameLabelStage_idem doc e a n b h)

/-- **C8** (confirmed).  Calling `computeAccessibleName` a second time on
the same element of the same unmodified document, starting from the
diagnostic record the first call produced, returns the same name and
leaves the record unchanged: every diagnostic write is a function of the
element and document alone, and the second call rewrites the values the
first call wrote. -/
theorem C8_resolver_idempotent (doc : Node) (e : ECtx) (a : Ann) (n : String) (b : Ann)
    (h : computeAccessibleName doc e a = .ok (n, b)) :
    computeAccessibleName doc e b = .ok (n, b) := by
  unfold computeAccessibleName at h ⊢
  cases hfs : fieldsetLegendName e.cur with
  | some t =>
    simp only [hfs] at h ⊢
    rw [Except.ok.injEq, Prod.mk.injEq] at h
    obtain ⟨hn, hb⟩ := h
    subst hn
    subst hb
    rfl
  | none =>
    simp only [hfs] at h ⊢
    by_cases hattr : e.cur.hasAttr "aria-labelledby" = true
    · simp only [hattr, if_true] at h ⊢
      by_cases hname :
          (resolveLabelledby doc (jsSplitWs (e.cur.getAttrD "aria-labelledby" ""))).1 ≠ ""
      · rw [if_pos hname] at h ⊢
        rw [Except.ok.injEq, Prod.mk.injEq] at h
        obtain ⟨hn, hb⟩ := h
        subst hn
        subst hb
        simp
      · rw [if_neg hname] at h ⊢
        obtain ⟨k1, k2⟩ := nameAriaLabelStage_keeps_broken doc e _ n b h
        have hb2 :
            { b with
                hasBrokenAriaLabelledby := some
                  ((resolveLabelledby doc
                      (jsSplitWs (e.cur.getAttrD "aria-labelledby" ""))).2 ≠ []),
                brokenAriaLabelledbyIds := some
                  (resolveLabelledby doc
                      (jsSplitWs (e.cur.getAttrD "aria-labelledby" ""))).2 } = b := by
          cases b
          simp_all
        rw [hb2]
        exact nameAriaLabelStage_idem doc e _ n b h
    · rw [if_neg hattr] at h ⊢
      exact nameAriaLabelStage_idem doc e a n b h

/-- **C8** (witness): re-resolving the labelledby div from its written
diagnostic state reproduces name "B" and the same state. -/
theorem C8_resolver_idempotent_witness :
    computeAccessibleName docLblAria ctxLblAria
      { Ann.empty with
          hasBrokenAriaLabelledby := some false, brokenAriaLabelledbyIds := some [] } =
      .ok ("B",
        { Ann.empty with
            hasBrokenAriaLabelledby := some false, brokenAriaLabelledbyIds := some [] }) :=
  C8_resolver_idempotent docLblAria ctxLblAria Ann.empty "B"
    { Ann.empty with
        hasBrokenAriaLabelledby := some false, brokenAriaLabelledbyIds := some [] }
    (by decide)

/-- The text stages read only the element's tag, attributes and subtree,
never its computed style. -/
lemma nameFromTextStages_computed_inv (anc : List Node) (t : String)
    (a : List (String × String)) (c c' : Computed) (ch : List Node) :
    nameFromTextStages ⟨anc, .elem t a c ch⟩ = nameFromTextStages ⟨anc, .elem t a c' ch⟩ := by
  simp only [nameFromTextStages, Node.tagOf, Node.getAttr, Node.attrsOf, Node.textContent,
    Node.querySelector, Node.childrenOf, Node.getAttrD]

/-- The alt/value/title stages never read the computed style. -/
lemma nameFromContentStages_computed_inv (anc : List Node) (t : String)
    (a : List (String × String)) (c c' : Computed) (ch : List Node) (ann : Ann) :
    nameFromContentStages ⟨anc, .elem t a c ch⟩ ann =
      nameFromContentStages ⟨anc, .elem t a c' ch⟩ ann := by
  simp only [nameFromContentStages, Node.tagOf, Node.getAttr, Node.attrsOf, Node.hasAttr,
    Node.getAttrD, Node.jsType, Node.jsValue,
    nameFromTextStages_computed_inv anc t a c c' ch]

/-- The label-association stage never reads the computed style. -/
lemma nameLabelStage_computed_inv (doc : Node) (anc : List Node) (t : String)
    (a : List (String × String)) (c c' : Computed) (ch : List Node) (ann : Ann) :
    nameLabelStage doc ⟨anc, .elem t a c ch⟩ ann =
      nameLabelStage doc ⟨anc, .elem t a c' ch⟩ ann := by
  simp only [nameLabelStage, ECtx.closest, Node.tagOf, Node.getAttr, Node.attrsOf,
    Node.hasAttr, Node.getAttrD, Node.childrenOf,
    nameFromContentStages_computed_inv anc t a c c' ch ann]
  split_ifs <;> simp [Node.childrenOf]

/-- The aria-label stage never reads the computed style. -/
lemma nameAriaLabelStage_computed_inv (doc : Node) (anc : List Node) (t : String)
    (a : List (String × String)) (c c' : Computed) (ch : List Node) (ann : Ann) :
    nameAriaLabelStage doc ⟨anc, .elem t a c ch⟩ ann =
      nameAriaLabelStage doc ⟨anc, .elem t a c' ch⟩ ann := by
  simp only [nameAriaLabelStage, Node.hasAttr, Node.getAttr, Node.attrsOf, Node.getAttrD,
    nameLabelStage_computed_inv doc anc t a c c' ch]

/-- The fieldset-legend rule never reads the computed style. -/
lemma fieldsetLegendName_computed_inv (t : String) (a : List (String × String))
    (c c' : Computed) (ch : List Node) :
    fieldsetLegendName (.elem t a c ch) = fieldsetLegendName (.elem t a c' ch) := by
  simp only [fieldsetLegendName, Node.tagOf, Node.querySelector, Node.childrenOf,
    Node.firstElementChild]

/-- The whole resolver never reads the computed style of the element it
names. -/
lemma computeAccessibleName_computed_inv (doc : Node) (anc : List Node) (t : String)
    (a : List (String × String)) (c c' : Computed) (ch : List Node) (ann : Ann) :
    computeAccessibleName doc ⟨anc, .elem t a c ch⟩ ann =
      computeAccessibleName doc ⟨anc, .elem t a c' ch⟩ ann := by
  simp only [computeAccessibleName, Node.hasAttr, Node.getAttr, Node.attrsOf, Node.getAttrD,
    fieldsetLegendName_computed_inv t a c c' ch,
    nameAriaLabelStage_computed_inv doc anc t a c c' ch]

/-- **C2** (amended).  The hidden-element downgrade, in the evaluators
that implement it: the merge helpers turn a Fail on a hidden element into
Warn with the `" (hidden element)"` suffix and the fixed detail string,
and return Warn and Pass verdicts unchanged regardless of visibility;
`testButton`, `testFormControl`, `testFieldset` and `testForm` are exactly
their decision stages followed by these merges.  `testLandmark` implements
no downgrade at all: its result does not depend on the element's computed
style, so a hidden landmark keeps its Fail verdict. -/
theorem C2_hidden_downgrade :
    (∀ (v : Bool) (b : TestResult) (o : RObj), v = false → o.result = "fail" →
      applyResultObj v b o =
        { b with
            result := "warn", description := o.description ++ " (hidden element)",
            details := some hiddenDetails }) ∧
    (∀ (v : Bool) (b : TestResult) (o : RObj), v = true ∨ o.result ≠ "fail" →
      (applyResultObj v b o).result = o.result ∧
      (applyResultObj v b o).description = o.description) ∧
    (∀ (v : Bool) (r : TestResult), v = false → r.result = "fail" →
      applyHiddenDowngrade v r =
        { r with
            result := "warn", description := r.description ++ " (hidden element)",
            details := some hiddenDetails }) ∧
    (∀ (v : Bool) (r : TestResult), v = true ∨ r.result ≠ "fail" →
      applyHiddenDowngrade v r = r) ∧
    (∀ (doc : Node) (e : ECtx) (ann : Ann),
      testButton doc e ann =
        (testButtonDecision doc e ann).map (fun x => applyResultObj x.1 x.2.1 x.2.2) ∧
      testFormControl doc e ann =
        (testFormControlDecision doc e ann).map (fun x => applyResultObj x.1 x.2.1 x.2.2) ∧
      testFieldset doc e ann =
        (testFieldsetCore doc e ann).map (fun x => applyHiddenDowngrade x.1 x.2) ∧
      testForm doc e ann =
        (testFormCore doc e ann).map (fun x => applyHiddenDowngrade x.1 x.2)) ∧
    (∀ (doc : Node) (e : ECtx) (ann : Ann) (c : Computed),
      testLandmark doc ⟨e.anc, e.cur.withComputed c⟩ ann = testLandmark doc e ann) := by
  refine ⟨?_, ?_, ?_, ?_, ?_, ?_⟩
  · intro v b o hv ho
    simp [applyResultObj, hv, ho]
  · intro v b o hvo
    rcases hvo with hv | ho
    · simp [applyResultObj, hv]
    · simp [applyResultObj, ho]
  · intro v r hv ho
    simp [applyHiddenDowngrade, hv, ho]
  · intro v r hvo
    rcases hvo with hv | ho
    · simp [applyHiddenDowngrade, hv]
    · simp [applyHiddenDowngrade, ho]
  · intro doc e ann
    refine ⟨?_, ?_, ?_, ?_⟩
    · cases hd : testButtonDecision doc e ann with
      | error err => simp [testButton, hd, Bind.bind, Except.bind, Except.map]
      | ok x =>
        obtain ⟨v, b, o⟩ := x
        simp [testButton, hd, Bind.bind, Except.bind, Except.map, Pure.pure, Except.pure]
    · cases hd : testFormControlDecision doc e ann with
      | error err => simp [testFormControl, hd, Bind.bind, Except.bind, Except.map]
      | ok x =>
        obtain ⟨v, b, o⟩ := x
        simp [testFormControl, hd, Bind.bind, Except.bind, Except.map, Pure.pure, Except.pure]
    · cases hd : testFieldsetCore doc e ann with
      | error err => simp [testFieldset, hd, Bind.bind, Except.bind, Except.map]
      | ok x =>
        obtain ⟨v, r⟩ := x
        simp [testFieldset, hd, Bind.bind, Except.bind, Except.map, Pure.pure, Except.pure]
    · cases hd : testFormCore doc e ann with
      | error err => simp [testForm, hd, Bind.bind, Except.bind, Except.map]
      | ok x =>
        obtain ⟨v, r⟩ := x
        simp [testForm, hd, Bind.bind, Except.bind, Except.map, Pure.pure, Except.pure]
  · intro doc e ann c
    obtain ⟨anc, cur⟩ := e
    cases cur with
    | text s => rfl
    | elem t a co ch =>
      show testLandmark doc ⟨anc, .elem t a c ch⟩ ann =
        testLandmark doc ⟨anc, .elem t a co ch⟩ ann
      simp only [testLandmark, Node.tagOf, Node.getAttr, Node.attrsOf,
        computeAccessibleName_computed_inv doc anc t a c co ch]

/-- **C2** (witness): the hidden empty button is downgraded to Warn with
the suffixed description and fixed details, while the hidden form
landmark's evaluation coincides with the same landmark's evaluation when
visible (testLandmark part, by the invariance), which is the plain Fail. -/
theorem C2_hidden_downgrade_witness :
    (testButton docBtnHidden ctxBtnHidden Ann.empty).map
        (fun r => (r.result, r.description, r.details)) =
      .ok ("warn",
        "Button has no text content and no aria-label/aria-labelledby attributes (hidden element)",
        some hiddenDetails) ∧
    testLandmark docFormHidden ⟨[docFormHidden], formHidden.withComputed Computed.visible⟩
        Ann.empty =
      testLandmark docFormHidden ctxFormHidden Ann.empty := by
  constructor
  · decide
  · exact C2_hidden_downgrade.2.2.2.2.2 docFormHidden ctxFormHidden Ann.empty Computed.visible

/-- Inversion of a successful `Except` bind. -/
lemma bind_eq_ok {α β : Type} {x : Except Unit α} {f : α → Except Unit β} {b : β} :
    (Bind.bind x f = Except.ok b) ↔ ∃ a, x = .ok a ∧ f a = .ok b := by
  cases x with
  | error err => simp [Bind.bind, Except.bind]
  | ok a => simp [Bind.bind, Except.bind]

/-- A successful `Except` pure. -/
lemma pure_eq_ok {α : Type} {a b : α} :
    ((pure a : Except Unit α) = Except.ok b) ↔ a = b := by
  constructor
  · intro h
    cases h
    rfl
  · intro h
    rw [h]
    rfl

/-- The in-place downgrade keeps the verdict inside the alphabet. -/
lemma applyHiddenDowngrade_verdict (v : Bool) (r : TestResult) (h : verdictOk r) :
    verdictOk (applyHiddenDowngrade v r) := by
  simp only [verdictOk] at h ⊢
  unfold applyHiddenDowngrade
  split_ifs <;> simp_all

/-- The form-control/button merge produces a verdict from the alphabet
whenever the decided verdict is in it. -/
lemma applyResultObj_verdict (v : Bool) (b : TestResult) (o : RObj)
    (h : o.result = "pass" ∨ o.result = "warn" ∨ o.result = "fail") :
    verdictOk (applyResultObj v b o) := by
  unfold applyResultObj verdictOk
  split_ifs <;> simp_all

/-- The details-and-title merge produces a verdict from the alphabet
whenever the decided verdict is in it. -/
lemma applyResultObjFull_verdict (v : Bool) (b : TestResult) (o : RObj)
    (h : o.result = "pass" ∨ o.result = "warn" ∨ o.result = "fail") :
    verdictOk (applyResultObjFull v b o) := by
  unfold applyResultObjFull verdictOk
  split_ifs <;> simp_all

/-- The details-only merge produces a verdict from the alphabet whenever
the decided verdict is in it. -/
lemma applyResultObjD_verdict (v : Bool) (b : TestResult) (o : RObj)
    (h : o.result = "pass" ∨ o.result = "warn" ∨ o.result = "fail") :
    verdictOk (applyResultObjD v b o) := by
  unfold applyResultObjD verdictOk
  split_ifs <;> simp_all

/-- A lifted always-record evaluator that produced a record succeeded. -/
lemma liftEval_ok (g : Node → ECtx → Ann → Except Unit TestResult) (doc : Node)
    (e : ECtx) (r : TestResult) (h : liftEval g doc e = .ok (some r)) :
    g doc e Ann.empty = .ok r := by
  unfold liftEval at h
  cases hg : g doc e Ann.empty with
  | error err => rw [hg] at h; simp [Except.map] at h
  | ok v =>
    rw [hg] at h
    simp only [Except.map, Except.ok.injEq, Option.some.injEq] at h
    rw [h]

/-- Every record the category loop collects comes from a successful
evaluation. -/
lemma findAndTestElementsGo_verdict (f : ECtx → Except Unit (Option TestResult))
    (P : TestResult → Prop)
    (hf : ∀ e r, f e = .ok (some r) → P r) :
    ∀ (l : List ECtx) (rs : List TestResult),
      findAndTestElementsGo f l = .ok rs → ∀ r ∈ rs, P r
  | [], rs, hgo, r, hr => by
    simp only [findAndTestElementsGo, Except.ok.injEq] at hgo
    rw [← hgo] at hr
    simp at hr
  | e :: rest, rs, hgo, r, hr => by
    simp only [findAndTestElementsGo, bind_eq_ok] at hgo
    obtain ⟨o, ho, rest2, hrest, hgo⟩ := hgo
    cases o with
    | some result =>
      simp only [pure_eq_ok] at hgo
      rw [← hgo] at hr
      rcases List.mem_cons.mp hr with hcase | hcase
      · rw [hcase]
        exact hf e result ho
      · exact findAndTestElementsGo_verdict f P hf rest rest2 hrest r hcase
    | none =>
      simp only [pure_eq_ok] at hgo
      rw [← hgo] at hr
      exact findAndTestElementsGo_verdict f P hf rest rest2 hrest r hr

/-- Every record a category returns satisfies any property its evaluator's
successful records satisfy. -/
lemma findAndTestElements_verdict (doc : Node) (sel : Node → Bool)
    (f : ECtx → Except Unit (Option TestResult)) (P : TestResult → Prop)
    (hf : ∀ e r, f e = .ok (some r) → P r) :
    ∀ r ∈ findAndTestElements doc sel f, P r := by
  intro r hr
  unfold findAndTestElements at hr
  cases hgo : findAndTestElementsGo f ((docElements doc).filter fun e => sel e.cur) with
  | error err => rw [hgo] at hr; simp at hr
  | ok rs =>
    rw [hgo] at hr
    exact findAndTestElementsGo_verdict f P hf _ rs hgo r hr

/-- A list of records over the verdict alphabet is partitioned by the
three filters. -/
lemma count_partition (l : List TestResult) (h : ∀ r ∈ l, verdictOk r) :
    l.length = (l.filter (fun el => el.result == "fail")).length +
      ((l.filter (fun el => el.result == "warn")).length +
        (l.filter (fun el => el.result == "pass")).length) := by
  induction l with
  | nil => simp
  | cons x xs ih =>
    have hx := h x (by simp)
    have ihh := ih (fun r hr => h r (by simp [hr]))
    rcases hx with hv | hv | hv <;>
      · simp only [List.filter_cons, List.length_cons, hv]
        simp
        omega

/-- A successful bind whose first component is a success: the continuation
applied to the value. -/
lemma bind_ok_case {α β : Type} (a' : α) (f : α → Except Unit β) (b : β)
    (h : Bind.bind (Except.ok a') f = .ok b) : f a' = .ok b := by
  simpa [Bind.bind, Except.bind] using h

/-- A bind on a thrown value never succeeds. -/
lemma bind_error_case {α β : Type} (f : α → Except Unit β) (b : β)
    (h : Bind.bind (Except.error () : Except Unit α) f = .ok b) : False := by
  simp [Bind.bind, Except.bind] at h

/-- Every decided form-control verdict is pass, warn or fail. -/
lemma testFormControlDecision_verdict (doc : Node) (e : ECtx) (ann : Ann)
    (v : Bool) (b : TestResult) (o : RObj)
    (h : testFormControlDecision doc e ann = .ok (v, b, o)) :
    o.result = "pass" ∨ o.result = "warn" ∨ o.result = "fail" := by
  unfold testFormControlDecision at h
  cases hc : computeAccessibleName doc e ann with
  | error err =>
    rw [hc] at h
    exact absurd h (fun hh => bind_error_case _ _ hh)
  | ok p =>
    obtain ⟨name, ann1⟩ := p
    rw [hc] at h
    replace h := bind_ok_case _ _ _ h
    dsimp only [] at h
    repeat'
      first
        | (rw [ite_eq_iff] at h
           rcases h with ⟨_, h⟩ | ⟨_, h⟩)
    all_goals
      rw [pure_eq_ok] at h
    all_goals
      rw [Prod.mk.injEq] at h
    all_goals
      rw [Prod.mk.injEq] at h
    all_goals
      obtain ⟨h1, h2, h3⟩ := h
    all_goals
      rw [← h3]
    all_goals
      simp only [apply_ite RObj.result, mkR, mkRD]
    all_goals
      first
        | (split_ifs <;> simp)
        | simp

/-- Every decided button verdict is pass, warn or fail. -/
lemma testButtonDecision_verdict (doc : Node) (e : ECtx) (ann : Ann)
    (v : Bool) (b : TestResult) (o : RObj)
    (h : testButtonDecision doc e ann = .ok (v, b, o)) :
    o.result = "pass" ∨ o.result = "warn" ∨ o.result = "fail" := by
  unfold testButtonDecision at h
  cases hc : computeAccessibleName doc e ann with
  | error err =>
    rw [hc] at h
    exact absurd h (fun hh => bind_error_case _ _ hh)
  | ok p =>
    obtain ⟨name, ann1⟩ := p
    rw [hc] at h
    replace h := bind_ok_case _ _ _ h
    dsimp only [] at h
    repeat'
      first
        | (rw [ite_eq_iff] at h
           rcases h with ⟨_, h⟩ | ⟨_, h⟩)
    all_goals
      rw [pure_eq_ok] at h
    all_goals
      rw [Prod.mk.injEq] at h
    all_goals
      rw [Prod.mk.injEq] at h
    all_goals
      obtain ⟨h1, h2, h3⟩ := h
    all_goals
      rw [← h3]
    all_goals
      simp only [apply_ite RObj.result, mkR, mkRD]
    all_goals
      first
        | (split_ifs <;> simp)
        | simp

/-- Every form-control record verdict is pass, warn or fail. -/
lemma testFormControl_verdict (doc : Node) (e : ECtx) (ann : Ann) (r : TestResult)
    (h : testFormControl doc e ann = .ok r) : verdictOk r := by
  unfold testFormControl at h
  cases hd : testFormControlDecision doc e ann with
  | error err =>
    rw [hd] at h
    exact absurd h (fun hh => bind_error_case _ _ hh)
  | ok x =>
    obtain ⟨v, b, o⟩ := x
    rw [hd] at h
    replace h := bind_ok_case _ _ _ h
    rw [pure_eq_ok] at h
    rw [← h]
    exact applyResultObj_verdict v b o (testFormControlDecision_verdict doc e ann v b o hd)

/-- Every button record verdict is pass, warn or fail. -/
lemma testButton_verdict (doc : Node) (e : ECtx) (ann : Ann) (r : TestResult)
    (h : testButton doc e ann = .ok r) : verdictOk r := by
  unfold testButton at h
  cases hd : testButtonDecision doc e ann with
  | error err =>
    rw [hd] at h
    exact absurd h (fun hh => bind_error_case _ _ hh)
  | ok x =>
    obtain ⟨v, b, o⟩ := x
    rw [hd] at h
    replace h := bind_ok_case _ _ _ h
    rw [pure_eq_ok] at h
    rw [← h]
    exact applyResultObj_verdict v b o (testButtonDecision_verdict doc e ann v b o hd)

/-- Every radio-button record verdict is pass, warn or fail. -/
lemma testRadioButton_verdict (doc : Node) (e : ECtx) (ann : Ann) (r : TestResult)
    (h : testRadioButton doc e ann = .ok r) : verdictOk r := by
  unfold testRadioButton at h
  cases hfc : testFormControl doc e ann with
  | error err =>
    rw [hfc] at h
    exact absurd h (fun hh => bind_error_case _ _ hh)
  | ok fc =>
    rw [hfc] at h
    replace h := bind_ok_case _ _ _ h
    have hv := testFormControl_verdict doc e ann fc hfc
    dsimp only [] at h
    repeat'
      first
        | (rw [ite_eq_iff] at h
           rcases h with ⟨_, h⟩ | ⟨_, h⟩)
    all_goals
      rw [pure_eq_ok] at h
    all_goals
      rw [← h]
    all_goals
      first
        | exact hv
        | simp [verdictOk]

/-- Every select record verdict is pass, warn or fail. -/
lemma testSelect_verdict (doc : Node) (e : ECtx) (ann : Ann) (r : TestResult)
    (h : testSelect doc e ann = .ok r) : verdictOk r := by
  unfold testSelect at h
  cases hfc : testFormControl doc e ann with
  | error err =>
    rw [hfc] at h
    exact absurd h (fun hh => bind_error_case _ _ hh)
  | ok fc =>
    rw [hfc] at h
    replace h := bind_ok_case _ _ _ h
    have hv := testFormControl_verdict doc e ann fc hfc
    dsimp only [] at h
    repeat'
      first
        | (rw [ite_eq_iff] at h
           rcases h with ⟨_, h⟩ | ⟨_, h⟩)
    all_goals
      rw [pure_eq_ok] at h
    all_goals
      rw [← h]
    all_goals
      first
        | exact hv
        | simp [verdictOk]

/-- Every fieldset decision verdict is pass, warn or fail. -/
lemma testFieldsetCore_verdict (doc : Node) (e : ECtx) (ann : Ann)
    (v : Bool) (r : TestResult)
    (h : testFieldsetCore doc e ann = .ok (v, r)) : verdictOk r := by
  unfold testFieldsetCore at h
  cases hc : computeAccessibleName doc e ann with
  | error err =>
    rw [hc] at h
    exact absurd h (fun hh => bind_error_case _ _ hh)
  | ok p =>
    obtain ⟨name, ann1⟩ := p
    rw [hc] at h
    replace h := bind_ok_case _ _ _ h
    dsimp only [] at h
    repeat'
      first
        | (rw [ite_eq_iff] at h
           rcases h with ⟨_, h⟩ | ⟨_, h⟩)
    all_goals
      rw [pure_eq_ok] at h
    all_goals
      rw [Prod.mk.injEq] at h
    all_goals
      obtain ⟨h1, h2⟩ := h
    all_goals
      rw [← h2]
    all_goals
      simp [verdictOk]

/-- Every fieldset record verdict is pass, warn or fail. -/
lemma testFieldset_verdict (doc : Node) (e : ECtx) (ann : Ann) (r : TestResult)
    (h : testFieldset doc e ann = .ok r) : verdictOk r := by
  unfold testFieldset at h
  cases hd : testFieldsetCore doc e ann with
  | error err =>
    rw [hd] at h
    exact absurd h (fun hh => bind_error_case _ _ hh)
  | ok x =>
    obtain ⟨v, r0⟩ := x
    rw [hd] at h
    replace h := bind_ok_case _ _ _ h
    rw [pure_eq_ok] at h
    rw [← h]
    exact applyHiddenDowngrade_verdict v r0 (testFieldsetCore_verdict doc e ann v r0 hd)

/-- Every form decision verdict is pass, warn or fail. -/
lemma testFormCore_verdict (doc : Node) (e : ECtx) (ann : Ann)
    (v : Bool) (r : TestResult)
    (h : testFormCore doc e ann = .ok (v, r)) : verdictOk r := by
  unfold testFormCore at h
  cases hc : computeAccessibleName doc e ann with
  | error err =>
    rw [hc] at h
    exact absurd h (fun hh => bind_error_case _ _ hh)
  | ok p =>
    obtain ⟨name, ann1⟩ := p
    rw [hc] at h
    replace h := bind_ok_case _ _ _ h
    dsimp only [] at h
    repeat'
      first
        | (rw [ite_eq_iff] at h
           rcases h with ⟨_, h⟩ | ⟨_, h⟩)
    all_goals
      rw [pure_eq_ok] at h
    all_goals
      rw [Prod.mk.injEq] at h
    all_goals
      obtain ⟨h1, h2⟩ := h
    all_goals
      rw [← h2]
    all_goals
      simp [verdictOk]

/-- Every form record verdict is pass, warn or fail. -/
lemma testForm_verdict (doc : Node) (e : ECtx) (ann : Ann) (r : TestResult)
    (h : testForm doc e ann = .ok r) : verdictOk r := by
  unfold testForm at h
  cases hd : testFormCore doc e ann with
  | error err =>
    rw [hd] at h
    exact absurd h (fun hh => bind_error_case _ _ hh)
  | ok x =>
    obtain ⟨v, r0⟩ := x
    rw [hd] at h
    replace h := bind_ok_case _ _ _ h
    rw [pure_eq_ok] at h
    rw [← h]
    exact applyHiddenDowngrade_verdict v r0 (testFormCore_verdict doc e ann v r0 hd)

/-- Every landmark record verdict is pass, warn or fail. -/
lemma testLandmark_verdict (doc : Node) (e : ECtx) (ann : Ann) (r : TestResult)
    (h : testLandmark doc e ann = .ok r) : verdictOk r := by
  unfold testLandmark at h
  cases hc : computeAccessibleName doc e ann with
  | error err =>
    rw [hc] at h
    exact absurd h (fun hh => bind_error_case _ _ hh)
  | ok p =>
    obtain ⟨name, ann1⟩ := p
    rw [hc] at h
    replace h := bind_ok_case _ _ _ h
    dsimp only [] at h
    repeat'
      first
        | (rw [ite_eq_iff] at h
           rcases h with ⟨_, h⟩ | ⟨_, h⟩)
        | split at h
    all_goals
      first
        | exact Except.noConfusion h
        | (rw [pure_eq_ok] at h
           rw [← h]
           simp [verdictOk])

/-- Every media record verdict is pass, warn or fail. -/
lemma testMedia_verdict (doc : Node) (e : ECtx) (ann : Ann) (r : TestResult)
    (h : testMedia doc e ann = .ok r) : verdictOk r := by
  unfold testMedia at h
  cases hc : computeAccessibleName doc e ann with
  | error err =>
    rw [hc] at h
    exact absurd h (fun hh => bind_error_case _ _ hh)
  | ok p =>
    obtain ⟨name, ann1⟩ := p
    rw [hc] at h
    replace h := bind_ok_case _ _ _ h
    dsimp only [] at h
    repeat'
      first
        | (rw [ite_eq_iff] at h
           rcases h with ⟨_, h⟩ | ⟨_, h⟩)
    all_goals
      first
        | exact Except.noConfusion h
        | (rw [pure_eq_ok] at h
           rw [← h]
           simp [verdictOk])

/-- Every image record verdict is pass, warn or fail. -/
lemma testImage_verdict (doc : Node) (e : ECtx) (ann : Ann) (r : TestResult)
    (h : testImage doc e ann = .ok r) : verdictOk r := by
  unfold testImage at h
  cases hc : computeAccessibleName doc e ann with
  | error err =>
    rw [hc] at h
    exact absurd h (fun hh => bind_error_case _ _ hh)
  | ok p =>
    obtain ⟨name, ann1⟩ := p
    rw [hc] at h
    replace h := bind_ok_case _ _ _ h
    dsimp only [] at h
    repeat'
      first
        | (rw [ite_eq_iff] at h
           rcases h with ⟨_, h⟩ | ⟨_, h⟩)
        | split at h
    all_goals
      first
        | exact Except.noConfusion h
        | (rw [pure_eq_ok] at h
           rw [← h]
           simp only [verdictOk, applyResultObj, applyResultObjFull, applyResultObjD,
             applyHiddenDowngrade, apply_ite RObj.result, apply_ite TestResult.result,
             apply_ite (fun p : TestResult × RObj => p.2),
             apply_ite (fun p : TestResult × RObj => p.1), mkR, mkRD]
           first
             | (split_ifs <;> simp)
             | simp)

/-- Every image-input record verdict is pass, warn or fail. -/
lemma testImageInput_verdict (doc : Node) (e : ECtx) (ann : Ann) (r : TestResult)
    (h : testImageInput doc e ann = .ok r) : verdictOk r := by
  unfold testImageInput at h
  cases hc : computeAccessibleName doc e ann with
  | error err =>
    rw [hc] at h
    exact absurd h (fun hh => bind_error_case _ _ hh)
  | ok p =>
    obtain ⟨name, ann1⟩ := p
    rw [hc] at h
    replace h := bind_ok_case _ _ _ h
    dsimp only [] at h
    repeat'
      first
        | (rw [ite_eq_iff] at h
           rcases h with ⟨_, h⟩ | ⟨_, h⟩)
        | split at h
    all_goals
      first
        | exact Except.noConfusion h
        | (rw [pure_eq_ok] at h
           rw [← h]
           simp only [verdictOk, applyResultObj, applyResultObjFull, applyResultObjD,
             applyHiddenDowngrade, apply_ite RObj.result, apply_ite TestResult.result,
             apply_ite (fun p : TestResult × RObj => p.2),
             apply_ite (fun p : TestResult × RObj => p.1), mkR, mkRD]
           first
             | (split_ifs <;> simp)
             | simp)

/-- Every SVG-image record verdict is pass, warn or fail. -/
lemma testSVGImage_verdict (doc : Node) (e : ECtx) (ann : Ann) (r : TestResult)
    (h : testSVGImage doc e ann = .ok r) : verdictOk r := by
  unfold testSVGImage at h
  cases hc : computeAccessibleName doc e ann with
  | error err =>
    rw [hc] at h
    exact absurd h (fun hh => bind_error_case _ _ hh)
  | ok p =>
    obtain ⟨name, ann1⟩ := p
    rw [hc] at h
    replace h := bind_ok_case _ _ _ h
    dsimp only [] at h
    repeat'
      first
        | (rw [ite_eq_iff] at h
           rcases h with ⟨_, h⟩ | ⟨_, h⟩)
        | split at h
    all_goals
      first
        | exact Except.noConfusion h
        | (rw [pure_eq_ok] at h
           rw [← h]
           simp only [verdictOk, applyResultObj, applyResultObjFull, applyResultObjD,
             applyHiddenDowngrade, apply_ite RObj.result, apply_ite TestResult.result,
             apply_ite (fun p : TestResult × RObj => p.2),
             apply_ite (fun p : TestResult × RObj => p.1), mkR, mkRD]
           first
             | (split_ifs <;> simp)
             | simp)

/-- Every area record verdict is pass, warn or fail. -/
lemma testArea_verdict (doc : Node) (e : ECtx) (ann : Ann) (r : TestResult)
    (h : testArea doc e ann = .ok r) : verdictOk r := by
  unfold testArea at h
  cases hc : computeAccessibleName doc e ann with
  | error err =>
    rw [hc] at h
    exact absurd h (fun hh => bind_error_case _ _ hh)
  | ok p =>
    obtain ⟨name, ann1⟩ := p
    rw [hc] at h
    replace h := bind_ok_case _ _ _ h
    dsimp only [] at h
    repeat'
      first
        | (rw [ite_eq_iff] at h
           rcases h with ⟨_, h⟩ | ⟨_, h⟩)
        | split at h
    all_goals
      first
        | exact Except.noConfusion h
        | (rw [pure_eq_ok] at h
           rw [← h]
           simp only [verdictOk, applyResultObj, applyResultObjFull, applyResultObjD,
             applyHiddenDowngrade, apply_ite RObj.result, apply_ite TestResult.result,
             apply_ite (fun p : TestResult × RObj => p.2),
             apply_ite (fun p : TestResult × RObj => p.1), mkR, mkRD]
           first
             | (split_ifs <;> simp)
             | simp)

/-- Every link record verdict is pass, warn or fail. -/
lemma testLink_verdict (doc : Node) (e : ECtx) (ann : Ann) (r : TestResult)
    (h : testLink doc e ann = .ok r) : verdictOk r := by
  unfold testLink at h
  cases hc : computeAccessibleName doc e ann with
  | error err =>
    rw [hc] at h
    exact absurd h (fun hh => bind_error_case _ _ hh)
  | ok p =>
    obtain ⟨name, ann1⟩ := p
    rw [hc] at h
    replace h := bind_ok_case _ _ _ h
    dsimp only [] at h
    repeat'
      first
        | (rw [ite_eq_iff] at h
           rcases h with ⟨_, h⟩ | ⟨_, h⟩)
        | split at h
    all_goals
      first
        | exact Except.noConfusion h
        | (rw [pure_eq_ok] at h
           rw [← h]
           simp only [verdictOk, applyResultObj, applyResultObjFull, applyResultObjD,
             applyHiddenDowngrade, apply_ite RObj.result, apply_ite TestResult.result,
             apply_ite (fun p : TestResult × RObj => p.2),
             apply_ite (fun p : TestResult × RObj => p.1), mkR, mkRD]
           first
             | (split_ifs <;> simp)
             | simp)

/-- Every iframe record verdict is pass, warn or fail. -/
lemma testIframe_verdict (doc : Node) (e : ECtx) (ann : Ann) (r : TestResult)
    (h : testIframe doc e ann = .ok r) : verdictOk r := by
  unfold testIframe at h
  cases hc : computeAccessibleName doc e ann with
  | error err =>
    rw [hc] at h
    exact absurd h (fun hh => bind_error_case _ _ hh)
  | ok p =>
    obtain ⟨name, ann1⟩ := p
    rw [hc] at h
    replace h := bind_ok_case _ _ _ h
    dsimp only [] at h
    repeat'
      first
        | (rw [ite_eq_iff] at h
           rcases h with ⟨_, h⟩ | ⟨_, h⟩)
        | split at h
    all_goals
      first
        | exact Except.noConfusion h
        | (rw [pure_eq_ok] at h
           rw [← h]
           simp only [verdictOk, applyResultObj, applyResultObjFull, applyResultObjD,
             applyHiddenDowngrade, apply_ite RObj.result, apply_ite TestResult.result,
             apply_ite (fun p : TestResult × RObj => p.2),
             apply_ite (fun p : TestResult × RObj => p.1), mkR, mkRD]
           first
             | (split_ifs <;> simp)
             | simp)

/-- Every dialog record verdict is pass, warn or fail. -/
lemma testDialog_verdict (doc : Node) (e : ECtx) (ann : Ann) (r : TestResult)
    (h : testDialog doc e ann = .ok r) : verdictOk r := by
  unfold testDialog at h
  cases hc : computeAccessibleName doc e ann with
  | error err =>
    rw [hc] at h
    exact absurd h (fun hh => bind_error_case _ _ hh)
  | ok p =>
    obtain ⟨name, ann1⟩ := p
    rw [hc] at h
    replace h := bind_ok_case _ _ _ h
    dsimp only [] at h
    repeat'
      first
        | (rw [ite_eq_iff] at h
           rcases h with ⟨_, h⟩ | ⟨_, h⟩)
        | split at h
    all_goals
      first
        | exact Except.noConfusion h
        | (rw [pure_eq_ok] at h
           rw [← h]
           simp only [verdictOk, applyResultObj, applyResultObjFull, applyResultObjD,
             applyHiddenDowngrade, apply_ite RObj.result, apply_ite TestResult.result,
             apply_ite (fun p : TestResult × RObj => p.2),
             apply_ite (fun p : TestResult × RObj => p.1), mkR, mkRD]
           first
             | (split_ifs <;> simp)
             | simp)

/-- Every progress record verdict is pass, warn or fail. -/
lemma testProgress_verdict (doc : Node) (e : ECtx) (ann : Ann) (r : TestResult)
    (h : testProgress doc e ann = .ok r) : verdictOk r := by
  unfold testProgress at h
  cases hc : computeAccessibleName doc e ann with
  | error err =>
    rw [hc] at h
    exact absurd h (fun hh => bind_error_case _ _ hh)
  | ok p =>
    obtain ⟨name, ann1⟩ := p
    rw [hc] at h
    replace h := bind_ok_case _ _ _ h
    dsimp only [] at h
    repeat'
      first
        | (rw [ite_eq_iff] at h
           rcases h with ⟨_, h⟩ | ⟨_, h⟩)
        | split at h
    all_goals
      first
        | exact Except.noConfusion h
        | (rw [pure_eq_ok] at h
           rw [← h]
           simp only [verdictOk, applyResultObj, applyResultObjFull, applyResultObjD,
             applyHiddenDowngrade, apply_ite RObj.result, apply_ite TestResult.result,
             apply_ite (fun p : TestResult × RObj => p.2),
             apply_ite (fun p : TestResult × RObj => p.1), mkR, mkRD]
           first
             | (split_ifs <;> simp)
             | simp)

/-- Every meter record verdict is pass, warn or fail. -/
lemma testMeter_verdict (doc : Node) (e : ECtx) (ann : Ann) (r : TestResult)
    (h : testMeter doc e ann = .ok r) : verdictOk r := by
  unfold testMeter at h
  cases hc : computeAccessibleName doc e ann with
  | error err =>
    rw [hc] at h
    exact absurd h (fun hh => bind_error_case _ _ hh)
  | ok p =>
    obtain ⟨name, ann1⟩ := p
    rw [hc] at h
    replace h := bind_ok_case _ _ _ h
    dsimp only [] at h
    repeat'
      first
        | (rw [ite_eq_iff] at h
           rcases h with ⟨_, h⟩ | ⟨_, h⟩)
        | split at h
    all_goals
      first
        | exact Except.noConfusion h
        | (rw [pure_eq_ok] at h
           rw [← h]
           simp only [verdictOk, applyResultObj, applyResultObjFull, applyResultObjD,
             applyHiddenDowngrade, apply_ite RObj.result, apply_ite TestResult.result,
             apply_ite (fun p : TestResult × RObj => p.2),
             apply_ite (fun p : TestResult × RObj => p.1), mkR, mkRD]
           first
             | (split_ifs <;> simp)
             | simp)

/-- Every role-img record verdict is pass, warn or fail. -/
lemma testElementWithRoleImg_verdict (doc : Node) (e : ECtx) (ann : Ann) (r : TestResult)
    (h : testElementWithRoleImg doc e ann = .ok r) : verdictOk r := by
  unfold testElementWithRoleImg at h
  cases hc : computeAccessibleName doc e ann with
  | error err =>
    rw [hc] at h
    exact absurd h (fun hh => bind_error_case _ _ hh)
  | ok p =>
    obtain ⟨name, ann1⟩ := p
    rw [hc] at h
    replace h := bind_ok_case _ _ _ h
    dsimp only [] at h
    repeat'
      first
        | (rw [ite_eq_iff] at h
           rcases h with ⟨_, h⟩ | ⟨_, h⟩)
        | split at h
    all_goals
      first
        | exact Except.noConfusion h
        | (rw [pure_eq_ok] at h
           rw [← h]
           simp only [verdictOk, applyResultObj, applyResultObjFull, applyResultObjD,
             applyHiddenDowngrade, apply_ite RObj.result, apply_ite TestResult.result,
             apply_ite (fun p : TestResult × RObj => p.2),
             apply_ite (fun p : TestResult × RObj => p.1), mkR, mkRD]
           first
             | (split_ifs <;> simp)
             | simp)

/-- Every ARIA-widget record verdict is pass, warn or fail. -/
lemma testAriaWidget_verdict (doc : Node) (e : ECtx) (ann : Ann) (r : TestResult)
    (h : testAriaWidget doc e ann = .ok r) : verdictOk r := by
  unfold testAriaWidget at h
  cases hc : computeAccessibleName doc e ann with
  | error err =>
    rw [hc] at h
    exact absurd h (fun hh => bind_error_case _ _ hh)
  | ok p =>
    obtain ⟨name, ann1⟩ := p
    rw [hc] at h
    replace h := bind_ok_case _ _ _ h
    dsimp only [] at h
    repeat'
      first
        | (rw [ite_eq_iff] at h
           rcases h with ⟨_, h⟩ | ⟨_, h⟩)
        | (rw [pure_bind] at h)
        | (rw [bind_eq_ok] at h
           obtain ⟨_, _, h⟩ := h)
        | split at h
    all_goals
      first
        | exact Except.noConfusion h
        | (rw [pure_eq_ok] at h
           rw [← h]
           first
             | (apply applyHiddenDowngrade_verdict
                simp only [verdictOk, apply_ite TestResult.result]
                first
                  | (split_ifs <;> simp)
                  | simp)
             | simp [verdictOk])

/-- Every record the tabindex evaluator produces (it may also decline with
`none`) has verdict pass, warn or fail. -/
lemma testElementWithTabindex_verdict (doc : Node) (e : ECtx) (ann : Ann) (r : TestResult)
    (h : testElementWithTabindex doc e ann = .ok (some r)) : verdictOk r := by
  unfold testElementWithTabindex at h
  dsimp only [] at h
  rw [ite_eq_iff] at h
  rcases h with ⟨_, h⟩ | ⟨_, h⟩
  · rw [pure_eq_ok] at h
    exact Option.noConfusion h
  · cases hc : computeAccessibleName doc e ann with
    | error err =>
      rw [hc] at h
      exact absurd h (fun hh => bind_error_case _ _ hh)
    | ok p =>
      obtain ⟨name, ann1⟩ := p
      rw [hc] at h
      replace h := bind_ok_case _ _ _ h
      dsimp only [] at h
      repeat'
        first
          | (rw [ite_eq_iff] at h
             rcases h with ⟨_, h⟩ | ⟨_, h⟩)
          | split at h
      all_goals
        rw [pure_eq_ok] at h
      all_goals
        first
          | exact Option.noConfusion h
          | (rw [Option.some.injEq] at h
             rw [← h]
             apply applyHiddenDowngrade_verdict
             simp only [verdictOk, apply_ite TestResult.result]
             first
               | (split_ifs <;> simp)
               | simp)

/-- Every record of a full run carries a verdict from the alphabet. -/
lemma runElements_verdict (doc : Node) :
    ∀ r ∈ runAccessibilityTestElements doc, verdictOk r := by
  simp only [runAccessibilityTestElements, List.forall_mem_append]
  repeat' apply And.intro
  · exact findAndTestElements_verdict doc _ _ verdictOk
      (fun e r hr => testImage_verdict doc e Ann.empty r (liftEval_ok _ doc e r hr))
  · exact findAndTestElements_verdict doc _ _ verdictOk
      (fun e r hr => testFormControl_verdict doc e Ann.empty r (liftEval_ok _ doc e r hr))
  · exact findAndTestElements_verdict doc _ _ verdictOk
      (fun e r hr => testRadioButton_verdict doc e Ann.empty r (liftEval_ok _ doc e r hr))
  · exact findAndTestElements_verdict doc _ _ verdictOk
      (fun e r hr => testImageInput_verdict doc e Ann.empty r (liftEval_ok _ doc e r hr))
  · exact findAndTestElements_verdict doc _ _ verdictOk
      (fun e r hr => testFormControl_verdict doc e Ann.empty r (liftEval_ok _ doc e r hr))
  · exact findAndTestElements_verdict doc _ _ verdictOk
      (fun e r hr => testSelect_verdict doc e Ann.empty r (liftEval_ok _ doc e r hr))
  · exact findAndTestElements_verdict doc _ _ verdictOk
      (fun e r hr => testFieldset_verdict doc e Ann.empty r (liftEval_ok _ doc e r hr))
  · exact findAndTestElements_verdict doc _ _ verdictOk
      (fun e r hr => testFieldset_verdict doc e Ann.empty r (liftEval_ok _ doc e r hr))
  · exact findAndTestElements_verdict doc _ _ verdictOk
      (fun e r hr => testForm_verdict doc e Ann.empty r (liftEval_ok _ doc e r hr))
  · exact findAndTestElements_verdict doc _ _ verdictOk
      (fun e r hr => testForm_verdict doc e Ann.empty r (liftEval_ok _ doc e r hr))
  · exact findAndTestElements_verdict doc _ _ verdictOk
      (fun e r hr => testButton_verdict doc e Ann.empty r (liftEval_ok _ doc e r hr))
  · exact findAndTestElements_verdict doc _ _ verdictOk
      (fun e r hr => testButton_verdict doc e Ann.empty r (liftEval_ok _ doc e r hr))
  · exact findAndTestElements_verdict doc _ _ verdictOk
      (fun e r hr => testButton_verdict doc e Ann.empty r (liftEval_ok _ doc e r hr))
  · exact findAndTestElements_verdict doc _ _ verdictOk
      (fun e r hr => testButton_verdict doc e Ann.empty r (liftEval_ok _ doc e r hr))
  · exact findAndTestElements_verdict doc _ _ verdictOk
      (fun e r hr => testButton_verdict doc e Ann.empty r (liftEval_ok _ doc e r hr))
  · exact findAndTestElements_verdict doc _ _ verdictOk
      (fun e r hr => testLink_verdict doc e Ann.empty r (liftEval_ok _ doc e r hr))
  · exact findAndTestElements_verdict doc _ _ verdictOk
      (fun e r hr => testLink_verdict doc e Ann.empty r (liftEval_ok _ doc e r hr))
  · exact findAndTestElements_verdict doc _ _ verdictOk
      (fun e r hr => testArea_verdict doc e Ann.empty r (liftEval_ok _ doc e r hr))
  · exact findAndTestElements_verdict doc _ _ verdictOk
      (fun e r hr => testLandmark_verdict doc e Ann.empty r (liftEval_ok _ doc e r hr))
  · exact findAndTestElements_verdict doc _ _ verdictOk
      (fun e r hr => testLandmark_verdict doc e Ann.empty r (liftEval_ok _ doc e r hr))
  · exact findAndTestElements_verdict doc _ _ verdictOk
      (fun e r hr => testLandmark_verdict doc e Ann.empty r (liftEval_ok _ doc e r hr))
  · exact findAndTestElements_verdict doc _ _ verdictOk
      (fun e r hr => testLandmark_verdict doc e Ann.empty r (liftEval_ok _ doc e r hr))
  · exact findAndTestElements_verdict doc _ _ verdictOk
      (fun e r hr => testLandmark_verdict doc e Ann.empty r (liftEval_ok _ doc e r hr))
  · exact findAndTestElements_verdict doc _ _ verdictOk
      (fun e r hr => testLandmark_verdict doc e Ann.empty r (liftEval_ok _ doc e r hr))
  · exact findAndTestElements_verdict doc _ _ verdictOk
      (fun e r hr => testLandmark_verdict doc e Ann.empty r (liftEval_ok _ doc e r hr))
  · exact findAndTestElements_verdict doc _ _ verdictOk
      (fun e r hr => testLandmark_verdict doc e Ann.empty r (liftEval_ok _ doc e r hr))
  · exact findAndTestElements_verdict doc _ _ verdictOk
      (fun e r hr => testProgress_verdict doc e Ann.empty r (liftEval_ok _ doc e r hr))
  · exact findAndTestElements_verdict doc _ _ verdictOk
      (fun e r hr => testProgress_verdict doc e Ann.empty r (liftEval_ok _ doc e r hr))
  · exact findAndTestElements_verdict doc _ _ verdictOk
      (fun e r hr => testMeter_verdict doc e Ann.empty r (liftEval_ok _ doc e r hr))
  · exact findAndTestElements_verdict doc _ _ verdictOk
      (fun e r hr => testMeter_verdict doc e Ann.empty r (liftEval_ok _ doc e r hr))
  · exact findAndTestElements_verdict doc _ _ verdictOk
      (fun e r hr => testSVGImage_verdict doc e Ann.empty r (liftEval_ok _ doc e r hr))
  · exact findAndTestElements_verdict doc _ _ verdictOk
      (fun e r hr => testElementWithRoleImg_verdict doc e Ann.empty r (liftEval_ok _ doc e r hr))
  · exact findAndTestElements_verdict doc _ _ verdictOk
      (fun e r hr => testElementWithRoleImg_verdict doc e Ann.empty r (liftEval_ok _ doc e r hr))
  · exact findAndTestElements_verdict doc _ _ verdictOk
      (fun e r hr => testElementWithRoleImg_verdict doc e Ann.empty r (liftEval_ok _ doc e r hr))
  · exact findAndTestElements_verdict doc _ _ verdictOk
      (fun e r hr => testAriaWidget_verdict doc e Ann.empty r (liftEval_ok _ doc e r hr))
  · exact findAndTestElements_verdict doc _ _ verdictOk
      (fun e r hr => testAriaWidget_verdict doc e Ann.empty r (liftEval_ok _ doc e r hr))
  · exact findAndTestElements_verdict doc _ _ verdictOk
      (fun e r hr => testDialog_verdict doc e Ann.empty r (liftEval_ok _ doc e r hr))
  · exact findAndTestElements_verdict doc _ _ verdictOk
      (fun e r hr => testAriaWidget_verdict doc e Ann.empty r (liftEval_ok _ doc e r hr))
  · exact findAndTestElements_verdict doc _ _ verdictOk
      (fun e r hr => testAriaWidget_verdict doc e Ann.empty r (liftEval_ok _ doc e r hr))
  · exact findAndTestElements_verdict doc _ _ verdictOk
      (fun e r hr => testAriaWidget_verdict doc e Ann.empty r (liftEval_ok _ doc e r hr))
  · exact findAndTestElements_verdict doc _ _ verdictOk
      (fun e r hr => testAriaWidget_verdict doc e Ann.empty r (liftEval_ok _ doc e r hr))
  · exact findAndTestElements_verdict doc _ _ verdictOk
      (fun e r hr => testAriaWidget_verdict doc e Ann.empty r (liftEval_ok _ doc e r hr))
  · exact findAndTestElements_verdict doc _ _ verdictOk
      (fun e r hr => testAriaWidget_verdict doc e Ann.empty r (liftEval_ok _ doc e r hr))
  · exact findAndTestElements_verdict doc _ _ verdictOk
      (fun e r hr => testAriaWidget_verdict doc e Ann.empty r (liftEval_ok _ doc e r hr))
  · exact findAndTestElements_verdict doc _ _ verdictOk
      (fun e r hr => testAriaWidget_verdict doc e Ann.empty r (liftEval_ok _ doc e r hr))
  · exact findAndTestElements_verdict doc _ _ verdictOk
      (fun e r hr => testAriaWidget_verdict doc e Ann.empty r (liftEval_ok _ doc e r hr))
  · exact findAndTestElements_verdict doc _ _ verdictOk
      (fun e r hr => testFormControl_verdict doc e Ann.empty r (liftEval_ok _ doc e r hr))
  · exact findAndTestElements_verdict doc _ _ verdictOk
      (fun e r hr => testAriaWidget_verdict doc e Ann.empty r (liftEval_ok _ doc e r hr))
  · exact findAndTestElements_verdict doc _ _ verdictOk
      (fun e r hr => testAriaWidget_verdict doc e Ann.empty r (liftEval_ok _ doc e r hr))
  · exact findAndTestElements_verdict doc _ _ verdictOk
      (fun e r hr => testIframe_verdict doc e Ann.empty r (liftEval_ok _ doc e r hr))
  · exact findAndTestElements_verdict doc _ _ verdictOk
      (fun e r hr => testMedia_verdict doc e Ann.empty r (liftEval_ok _ doc e r hr))
  · exact findAndTestElements_verdict doc _ _ verdictOk
      (fun e r hr => testMedia_verdict doc e Ann.empty r (liftEval_ok _ doc e r hr))
  · exact findAndTestElements_verdict doc _ _ verdictOk
      (fun e r hr => testMedia_verdict doc e Ann.empty r (liftEval_ok _ doc e r hr))
  · exact findAndTestElements_verdict doc _ _ verdictOk
      (fun e r hr => testElementWithTabindex_verdict doc e Ann.empty r hr)

/-- **C10** (confirmed).  Every element record `runAccessibilityTest`
returns has a `result` equal to one of "pass", "warn" or "fail" (the
three strings are distinct, so exactly one), and the counts partition the
result list: `total` is the length of the elements array and equals
`failed + warnings + passing`. -/
theorem C10_counts_partition (doc : Node) :
    (∀ r ∈ (runAccessibilityTest doc).elements,
      r.result = "pass" ∨ r.result = "warn" ∨ r.result = "fail") ∧
    (runAccessibilityTest doc).counts.total = (runAccessibilityTest doc).elements.length ∧
    (runAccessibilityTest doc).counts.total =
      (runAccessibilityTest doc).counts.failed + (runAccessibilityTest doc).counts.warnings +
        (runAccessibilityTest doc).counts.passing := by
  have hverd := runElements_verdict doc
  have hp := count_partition (runAccessibilityTestElements doc) hverd
  refine ⟨?_, ?_, ?_⟩
  · intro r hr
    exact hverd r (by simpa [runAccessibilityTest] using hr)
  · simp [runAccessibilityTest]
  · simp only [runAccessibilityTest]
    omega

end Carnforth
